import Mathlib

/-!
# xasset-sdk-go: request signing and reply classification

A shallow embedding of `client/xasset/asset.go` (the `AssetOper` operations) and of
`auth/account.go` (account creation, recovery and language inference).

* Go `int64` / `int` values that are only printed with `%d` are `Int`.
* `url.Values` is an association list with `Set` / `Get` / `Encode`.
* Everything the operations call outside the two source files (nonce source, ECDSA
  signing, HTTP transport, JSON codec, parameter validation, constants of package
  `xbase`) is collected in the record `Deps`, extended by `FedDeps` for the
  federated-binding operations and by `OperDeps` for the remaining ones.
* Effects are made explicit by state passing: `St` holds the position in the nonce
  source and the trace of effects performed so far.
* `t.Logger` calls do not influence any returned value. They are recorded in the trace
  for the federated-binding operations and left out of the other operations.
-/

set_option autoImplicit false

namespace XAsset

/-! ## `auth/account.go` -/

/-- Mnemonic strength codes: the `iota` block of `MnemStrgth`. -/
def MnemStrgthWeak : Int := 1

/-- Medium strength, 18 words. -/
def MnemStrgthMedium : Int := 2

/-- Strong strength, 24 words. -/
def MnemStrgthStrong : Int := 3

/-- Language code for Chinese. -/
def MnemLangCN : Int := 1

/-- Language code for English. -/
def MnemLangEN : Int := 2

/-- The struct `auth.Account`. -/
structure Account where
  Address : String
  PrivateKey : String
  PublicKey : String
  Mnemonic : String
  deriving DecidableEq, Repr

/-! ## `fmt.Sprintf("%d", _)` and `url.Values` -/

/-- The text `fmt.Sprintf("%d", n)` for an integer `n`. -/
def decimal (n : Int) : String := toString n

/-- Replace the value of `key` in a list of pairs, or add the key at the end. -/
def setEntry : List (String × String) → String → String → List (String × String)
  | [], k, x => [(k, x)]
  | (k', x') :: rest, k, x =>
    if k' = k then (k, x) :: rest else (k', x') :: setEntry rest k x

/-- The value of `key` in a list of pairs. -/
def getEntry : List (String × String) → String → Option String
  | [], _ => none
  | (k', x') :: rest, k => if k' = k then some x' else getEntry rest k

/-- Go `url.Values` restricted to keys that hold one value, which is all `Set` produces. -/
structure Values where
  entries : List (String × String)
  deriving DecidableEq, Repr

namespace Values

/-- The literal `url.Values{}`. -/
def empty : Values := ⟨[]⟩

/-- The call `v.Set(key, value)`: replaces the value of `key`, or adds the key. -/
def Set (v : Values) (k x : String) : Values := ⟨setEntry v.entries k x⟩

/-- The call `v.Get(key)`: the value of `key`, or the empty string. -/
def Get (v : Values) (k : String) : String := (getEntry v.entries k).getD ""

/-- The call `v.Has(key)`. -/
def Has (v : Values) (k : String) : Bool := (getEntry v.entries k).isSome

/-- Upper-case hexadecimal digit used by percent-encoding. -/
def hexDigit (n : Nat) : Char :=
  if n < 10 then Char.ofNat (48 + n) else Char.ofNat (55 + n)

/-- Bytes that `url.QueryEscape` leaves unchanged: letters, digits and `-` `_` `.` `~`. -/
def unreserved (b : Nat) : Bool :=
  (48 ≤ b && b ≤ 57) || (65 ≤ b && b ≤ 90) || (97 ≤ b && b ≤ 122) ||
    b == 45 || b == 95 || b == 46 || b == 126

/-- Escape one byte as `url.QueryEscape` does. -/
def escapeByte (b : Nat) : List Char :=
  if b = 32 then ['+']
  else if unreserved b then [Char.ofNat b]
  else ['%', hexDigit (b / 16), hexDigit (b % 16)]

/-- The function `url.QueryEscape`. -/
def QueryEscape (s : String) : String :=
  String.mk ((s.data.flatMap String.utf8EncodeChar).flatMap (fun b => escapeByte b.toNat))

/-- Lexicographic order on strings, as `sort.Strings` compares keys
(byte order of UTF-8 agrees with code point order). -/
def ltChars : List Char → List Char → Bool
  | _, [] => false
  | [], _ :: _ => true
  | a :: as, b :: bs =>
    if a.toNat < b.toNat then true
    else if b.toNat < a.toNat then false
    else ltChars as bs

/-- Insert a pair into a list of pairs sorted by key. -/
def insertSorted (p : String × String) : List (String × String) → List (String × String)
  | [] => [p]
  | q :: rest =>
    if ltChars p.1.data q.1.data then p :: q :: rest else q :: insertSorted p rest

/-- The pairs of `v` sorted by key, as `Encode` visits them. -/
def sorted (v : Values) : List (String × String) :=
  v.entries.foldr insertSorted []

/-- The call `v.Encode()`: `key=value` pairs sorted by key, escaped, joined by `&`. -/
def Encode (v : Values) : String :=
  String.intercalate "&" ((sorted v).map (fun p => QueryEscape p.1 ++ "=" ++ QueryEscape p.2))

end Values

/-! ## Package `xbase`: errors, endpoints, parameters, replies -/

/-- The error values the operations return: the sentinels of package `xbase` that
`asset.go` names, and `other` for any further error produced by a collaborator
(for instance by a `Valid` method). -/
inductive Error where
  | ComErrAccountSignFailed
  | ComErrJsonMarFailed
  | ComErrRequsetFailed
  | ComErrRespCodeErr
  | ComErrUnmarshalBodyFailed
  | ComErrServRespErrnoErr
  | ErrParamInvalid
  | other (msg : String)
  deriving DecidableEq, Repr

/-- The endpoint constants of package `xbase` passed to `t.Post`. -/
inductive Api where
  | FileApiGetStoken
  | AssetApiCreate
  | AssetApiAlter
  | AssetApiPublish
  | AssetApiGrant
  | AssetApiTransfer
  | ListAssetHistory
  | AssetApiFreeze
  | AssetApiGrantBox
  | AssetApiComposeShard
  | AssetApiLockShard
  | AssetApiFreezeShard
  | AssetApiUnfreezeShard
  | SceneListAddr
  | DidApiRegister
  | DidApiBind
  | DidApiBindByUid
  | DidApiGetAddrByUid
  | AssetApiQueryAsset
  | AssetApiListAssetByAddr
  | AssetApiListDiffByAddr
  | AssetApiQueryShard
  | AssetApiListShardsByAddr
  | AssetListShardsByAsset
  | AssetApiGetEvidenceInfo
  | AssetApiConsume
  | AssetApiSelectBoxAst
  | AssetApiSelectMaterial
  | AssetApiUpgradeAst
  | AssetApiUpgradeSds
  | SceneListShardByAddr
  | SceneQueryShard
  | SceneListDiffByAddr
  | SceneHasAstByAddr
  | VilgApiText2Img
  | VilgApiGetImg
  | VilgApiBalance
  deriving DecidableEq, Repr

/-- The struct `xbase.RequestRes`: the raw reply of the transport. -/
structure RequestRes where
  HttpCode : Int
  ReqUrl : String
  Header : List (String × String)
  Body : String
  deriving DecidableEq, Repr

/-- A decoded reply. Every reply type of `xbase` carries `RequestId` and `Errno`;
`Rest` stands for the fields that are specific to one operation. -/
structure Resp where
  RequestId : String
  Errno : Int
  Rest : String
  deriving DecidableEq, Repr

/-- Stands for `*xbase.CreateAssetInfo` / `*xbase.AlterAssetInfo`: the value is only
handed to `json.Marshal`. -/
abbrev AssetInfo := String

structure GetStokenParam where
  Account : XAsset.Account
  deriving DecidableEq, Repr

structure CreateAssetParam where
  AssetId : Int
  Price : Int
  Amount : Int
  AssetInfo : AssetInfo
  Account : XAsset.Account
  ViewType : Int
  AssetParam : String
  UserId : Int
  FileHash : String
  deriving DecidableEq, Repr

structure AlterAssetParam where
  AssetId : Int
  Account : XAsset.Account
  Price : Int
  Amount : Int
  ViewType : Int
  AssetInfo : AssetInfo
  FileHash : String
  deriving DecidableEq, Repr

structure PublishAssetParam where
  AssetId : Int
  Account : XAsset.Account
  IsEvidence : Int
  deriving DecidableEq, Repr

structure GrantAssetParam where
  AssetId : Int
  ShardId : Int
  Price : Int
  Addr : String
  Account : XAsset.Account
  ToAddr : String
  ShardParam : String
  ToUserId : Int
  deriving DecidableEq, Repr

structure TransferAssetParam where
  AssetId : Int
  ShardId : Int
  Price : Int
  Addr : String
  Account : XAsset.Account
  ToAddr : String
  ToUserId : Int
  deriving DecidableEq, Repr

structure ListAssetHisParam where
  AssetId : Int
  Page : Int
  Limit : Int
  ShardId : Int
  deriving DecidableEq, Repr

structure FreezeAssetParam where
  AssetId : Int
  Account : XAsset.Account
  deriving DecidableEq, Repr

structure GrantBoxParam where
  BoxAssetId : Int
  RealAssetId : Int
  UAccount : XAsset.Account
  CAccount : XAsset.Account
  Token : String
  UserId : Int
  deriving DecidableEq, Repr

structure AssetShardPair where
  AssetId : Int
  ShardId : Int
  deriving DecidableEq, Repr

structure ConsumeNode where
  AssetId : Int
  ShardId : Int
  Nonce : Int
  Sign : String
  deriving DecidableEq, Repr

structure ComposeParam where
  AssetId : Int
  StrgNo : Int
  Account : XAsset.Account
  UAccount : XAsset.Account
  Token : String
  deriving DecidableEq, Repr

structure LockOrFreezeShardParam where
  AssetId : Int
  ShardId : Int
  OpType : Int
  Account : XAsset.Account
  deriving DecidableEq, Repr

/-! ## External collaborators and effects -/

/-- Modelled from the spec: `utils.GenNonce`, `utils.GenAssetId`, `auth.XassetSignECDSA`,
`t.Post`, the JSON codec, the `Valid` methods and validity helpers of `xbase`, the
success sentinel and the configured app id are not part of the source files. The spec
describes the nonce as 64-bit and fresh per call with no uniqueness ledger, and signing
as a fallible primitive; accordingly `nonceAt k` is the value returned by the `k`-th
call of `GenNonce` (the freshness the spec asks of it is the predicate `FreshNonces`),
and `signECDSA key msg` is the signature or `none`. -/
structure Deps where
  nonceAt : Nat → Int
  genAssetId : Int → Int
  signECDSA : String → String → Option String
  postReply : Api → String → Option RequestRes
  unmarshal : Api → String → Option Resp
  marshalAssetInfo : AssetInfo → Option String
  marshalNodes : List ConsumeNode → Option String
  XassetErrNoSucc : Int
  AppId : Int
  IdValid : Int → Option Error
  PriceInvalid : Int → Option Error
  AmountInvalid : Int → Option Error
  AlterAssetInfoValid : AssetInfo → Option Error
  validGetStoken : GetStokenParam → Option Error
  validCreateAsset : CreateAssetParam → Option Error
  validAlterAsset : AlterAssetParam → Option Error
  validPublishAsset : PublishAssetParam → Option Error
  validGrantAsset : GrantAssetParam → Option Error
  validTransferAsset : TransferAssetParam → Option Error
  validListAssetHis : ListAssetHisParam → Option Error
  validFreezeAsset : FreezeAssetParam → Option Error
  validGrantBox : GrantBoxParam → Option Error
  validCompose : ComposeParam → Option Error
  validLockOrFreezeShard : LockOrFreezeShardParam → Option Error

/-- The two logger methods the operations call. -/
inductive LogLevel where
  | Warn
  | Trace
  deriving DecidableEq, Repr

/-- One argument of a log call: a text, a number, an endpoint constant, or the error
value of the call that just failed. -/
inductive LogArg where
  | str (text : String)
  | num (n : Int)
  | api (a : Api)
  | err
  deriving DecidableEq, Repr

/-- One observable effect of an operation. For `obscure` (a call of `aesEncodeStr` on
`plain`) and `reveal` (a call of `aesDecodeStr` on `token`) the second component is the
error of the call, `none` when it succeeded; `putObject` is an upload to the object
store made by `UploadFile`. -/
inductive Event where
  | nonce (n : Int)
  | assetId (appid : Int) (id : Int)
  | sign (key : String) (msg : String) (ok : Bool)
  | post (api : Api) (body : String)
  | obscure (plain : String) (err : Option Error)
  | reveal (token : String) (err : Option Error)
  | log (level : LogLevel) (format : String) (args : List LogArg)
  | putObject (bucket : String) (key : String) (ok : Bool)
  deriving DecidableEq, Repr

/-- The state threaded through an operation: how many nonces have been drawn from the
nonce source, and the effects performed so far, oldest first. -/
structure St where
  draws : Nat
  trace : List Event
  deriving DecidableEq, Repr

/-- Modelled from the spec: `utils.GenNonce` is not among the source files. The spec
describes a nonce as 64-bit and fresh per call, with no uniqueness ledger kept on the
client; a call returns the next value of the nonce source and advances it. -/
def GenNonce (d : Deps) (s : St) : Int × St :=
  (d.nonceAt s.draws,
    { draws := s.draws + 1, trace := s.trace ++ [Event.nonce (d.nonceAt s.draws)] })

/-- The call `utils.GenAssetId(appid)`. -/
def GenAssetId (d : Deps) (appid : Int) (s : St) : Int × St :=
  (d.genAssetId appid, { s with trace := s.trace ++ [Event.assetId appid (d.genAssetId appid)] })

/-- The call `auth.XassetSignECDSA(privateKey, []byte(msg))`; `none` is a non-nil error. -/
def XassetSignECDSA (d : Deps) (key msg : String) (s : St) : Option String × St :=
  (d.signECDSA key msg,
    { s with trace := s.trace ++ [Event.sign key msg (d.signECDSA key msg).isSome] })

/-- The call `t.Post(api, body)`; `none` is a non-nil error. -/
def Post (d : Deps) (api : Api) (body : String) (s : St) : Option RequestRes × St :=
  (d.postReply api body, { s with trace := s.trace ++ [Event.post api body] })

/-- The pair `(string, error)` returned by a body builder. -/
structure BodyRet where
  body : String
  err : Option Error
  deriving DecidableEq, Repr

/-- The triple `(resp, res, err)` returned by an operation; `none` is `nil`. -/
structure OpRet where
  resp : Option Resp
  res : Option RequestRes
  err : Option Error
  deriving DecidableEq, Repr

/-- The requests posted in a trace. -/
def posts : List Event → List (Api × String)
  | [] => []
  | Event.post api body :: rest => (api, body) :: posts rest
  | _ :: rest => posts rest

/-- The nonces drawn in a trace. -/
def nonces : List Event → List Int
  | [] => []
  | Event.nonce n :: rest => n :: nonces rest
  | _ :: rest => nonces rest

/-- The signing calls of a trace: key, message, and whether a signature came back. -/
def signCalls : List Event → List (String × String × Bool)
  | [] => []
  | Event.sign key msg ok :: rest => (key, msg, ok) :: signCalls rest
  | _ :: rest => signCalls rest

/-! ## Body builders of `asset.go` -/

/-- The form fields set by `genGetStokenBody` once the signature is available. -/
def getStokenValues (param : GetStokenParam) (sign : String) (nonce : Int) : Values :=
  Values.empty
    |>.Set "addr" param.Account.Address
    |>.Set "sign" sign
    |>.Set "pkey" param.Account.PublicKey
    |>.Set "nonce" (decimal nonce)

/-- Embedding of `genGetStokenBody`. -/
def genGetStokenBody (d : Deps) (param : GetStokenParam) (s : St) : BodyRet × St :=
  let nonce := (GenNonce d s).1
  let s1 := (GenNonce d s).2
  let signMsg := decimal nonce
  match XassetSignECDSA d param.Account.PrivateKey signMsg s1 with
  | (none, s2) => (⟨"", some Error.ComErrAccountSignFailed⟩, s2)
  | (some sign, s2) => (⟨(getStokenValues param sign nonce).Encode, none⟩, s2)

/-- The form fields set by `genCreateAssetBody`, for the asset id that was signed. -/
def createAssetValues (d : Deps) (param : CreateAssetParam) (assetId : Int) (sign : String)
    (nonce : Int) (assetInfo : String) : Values :=
  let v := Values.empty
    |>.Set "asset_id" (decimal assetId)
    |>.Set "price" (decimal param.Price)
    |>.Set "amount" (decimal param.Amount)
    |>.Set "asset_info" assetInfo
    |>.Set "addr" param.Account.Address
    |>.Set "sign" sign
    |>.Set "pkey" param.Account.PublicKey
    |>.Set "nonce" (decimal nonce)
    |>.Set "view_type" (decimal param.ViewType)
    |>.Set "param" param.AssetParam
  let v := if (d.IdValid param.UserId).isNone then v.Set "user_id" (decimal param.UserId) else v
  if param.FileHash ≠ "" then v.Set "file_hash" param.FileHash else v

/-- Embedding of `genCreateAssetBody`. -/
def genCreateAssetBody (d : Deps) (appid : Int) (param : CreateAssetParam) (s : St) :
    BodyRet × St :=
  let nonce := (GenNonce d s).1
  let s1 := (GenNonce d s).2
  let gen := if param.AssetId = 0 then GenAssetId d appid s1 else (param.AssetId, s1)
  let assetId := gen.1
  let s2 := gen.2
  let signMsg := decimal assetId ++ decimal nonce
  match XassetSignECDSA d param.Account.PrivateKey signMsg s2 with
  | (none, s3) => (⟨"", some Error.ComErrAccountSignFailed⟩, s3)
  | (some sign, s3) =>
    match d.marshalAssetInfo param.AssetInfo with
    | none => (⟨"", some Error.ComErrJsonMarFailed⟩, s3)
    | some assetInfo =>
      (⟨(createAssetValues d param assetId sign nonce assetInfo).Encode, none⟩, s3)

/-- The form fields `genAlterAssetBody` sets before it looks at the asset info. -/
def alterAssetValues (d : Deps) (param : AlterAssetParam) (sign : String) (nonce : Int) :
    Values :=
  let v := Values.empty
    |>.Set "asset_id" (decimal param.AssetId)
    |>.Set "addr" param.Account.Address
    |>.Set "sign" sign
    |>.Set "pkey" param.Account.PublicKey
    |>.Set "nonce" (decimal nonce)
  let v := if (d.PriceInvalid param.Price).isNone then v.Set "price" (decimal param.Price) else v
  let v :=
    if (d.AmountInvalid param.Amount).isNone then v.Set "amount" (decimal param.Amount) else v
  if (d.AmountInvalid param.ViewType).isNone then v.Set "view_type" (decimal param.ViewType)
  else v

/-- The last step of `genAlterAssetBody`: the optional file hash. -/
def alterAssetFileHash (param : AlterAssetParam) (v : Values) : Values :=
  if param.FileHash ≠ "" then v.Set "file_hash" param.FileHash else v

/-- Embedding of `genAlterAssetBody`. -/
def genAlterAssetBody (d : Deps) (param : AlterAssetParam) (s : St) : BodyRet × St :=
  let nonce := (GenNonce d s).1
  let s1 := (GenNonce d s).2
  let signMsg := decimal param.AssetId ++ decimal nonce
  match XassetSignECDSA d param.Account.PrivateKey signMsg s1 with
  | (none, s2) => (⟨"", some Error.ComErrAccountSignFailed⟩, s2)
  | (some sign, s2) =>
    let v := alterAssetValues d param sign nonce
    if (d.AlterAssetInfoValid param.AssetInfo).isNone then
      match d.marshalAssetInfo param.AssetInfo with
      | none => (⟨"", some Error.ComErrJsonMarFailed⟩, s2)
      | some assetInfo =>
        (⟨(alterAssetFileHash param (v.Set "asset_info" assetInfo)).Encode, none⟩, s2)
    else (⟨(alterAssetFileHash param v).Encode, none⟩, s2)

/-- The form fields set by `genPublishAssetBody`. -/
def publishAssetValues (param : PublishAssetParam) (sign : String) (nonce : Int) : Values :=
  Values.empty
    |>.Set "asset_id" (decimal param.AssetId)
    |>.Set "addr" param.Account.Address
    |>.Set "sign" sign
    |>.Set "pkey" param.Account.PublicKey
    |>.Set "nonce" (decimal nonce)
    |>.Set "is_evidence" (decimal param.IsEvidence)

/-- Embedding of `genPublishAssetBody`. -/
def genPublishAssetBody (d : Deps) (param : PublishAssetParam) (s : St) : BodyRet × St :=
  let nonce := (GenNonce d s).1
  let s1 := (GenNonce d s).2
  let signMsg := decimal param.AssetId ++ decimal nonce
  match XassetSignECDSA d param.Account.PrivateKey signMsg s1 with
  | (none, s2) => (⟨"", some Error.ComErrAccountSignFailed⟩, s2)
  | (some sign, s2) => (⟨(publishAssetValues param sign nonce).Encode, none⟩, s2)

/-- The form fields set by `genGrantAssetBody`, for the shard id that is sent. -/
def grantAssetValues (d : Deps) (param : GrantAssetParam) (shardId : Int) (sign : String)
    (nonce : Int) : Values :=
  let v := Values.empty
    |>.Set "asset_id" (decimal param.AssetId)
    |>.Set "shard_id" (decimal shardId)
    |>.Set "price" (decimal param.Price)
    |>.Set "addr" param.Addr
    |>.Set "sign" sign
    |>.Set "pkey" param.Account.PublicKey
    |>.Set "nonce" (decimal nonce)
    |>.Set "to_addr" param.ToAddr
    |>.Set "param" param.ShardParam
  if (d.IdValid param.ToUserId).isNone then v.Set "to_userid" (decimal param.ToUserId) else v

/-- Embedding of `genGrantAssetBody`; the `appid` argument is not used by the source. -/
def genGrantAssetBody (d : Deps) (_appid : Int) (param : GrantAssetParam) (s : St) :
    BodyRet × St :=
  let nonce := (GenNonce d s).1
  let s1 := (GenNonce d s).2
  let signMsg := decimal param.AssetId ++ decimal nonce
  match XassetSignECDSA d param.Account.PrivateKey signMsg s1 with
  | (none, s2) => (⟨"", some Error.ComErrAccountSignFailed⟩, s2)
  | (some sign, s2) =>
    let gen := if param.ShardId < 1 then GenNonce d s2 else (param.ShardId, s2)
    (⟨(grantAssetValues d param gen.1 sign nonce).Encode, none⟩, gen.2)

/-- The form fields set by `genTransferAssetBody`. -/
def transferAssetValues (d : Deps) (param : TransferAssetParam) (sign : String) (nonce : Int) :
    Values :=
  let v := Values.empty
    |>.Set "asset_id" (decimal param.AssetId)
    |>.Set "shard_id" (decimal param.ShardId)
    |>.Set "price" (decimal param.Price)
    |>.Set "addr" param.Addr
    |>.Set "sign" sign
    |>.Set "pkey" param.Account.PublicKey
    |>.Set "nonce" (decimal nonce)
    |>.Set "to_addr" param.ToAddr
  if (d.IdValid param.ToUserId).isNone then v.Set "to_userid" (decimal param.ToUserId) else v

/-- Embedding of `genTransferAssetBody`. -/
def genTransferAssetBody (d : Deps) (param : TransferAssetParam) (s : St) : BodyRet × St :=
  let nonce := (GenNonce d s).1
  let s1 := (GenNonce d s).2
  let signMsg := decimal param.AssetId ++ decimal nonce
  match XassetSignECDSA d param.Account.PrivateKey signMsg s1 with
  | (none, s2) => (⟨"", some Error.ComErrAccountSignFailed⟩, s2)
  | (some sign, s2) => (⟨(transferAssetValues d param sign nonce).Encode, none⟩, s2)

/-- The form fields set by `genFreezeAssetBody`. -/
def freezeAssetValues (param : FreezeAssetParam) (sign : String) (nonce : Int) : Values :=
  Values.empty
    |>.Set "asset_id" (decimal param.AssetId)
    |>.Set "addr" param.Account.Address
    |>.Set "sign" sign
    |>.Set "pkey" param.Account.PublicKey
    |>.Set "nonce" (decimal nonce)

/-- Embedding of `genFreezeAssetBody`. -/
def genFreezeAssetBody (d : Deps) (param : FreezeAssetParam) (s : St) : BodyRet × St :=
  let nonce := (GenNonce d s).1
  let s1 := (GenNonce d s).2
  let signMsg := decimal param.AssetId ++ decimal nonce
  match XassetSignECDSA d param.Account.PrivateKey signMsg s1 with
  | (none, s2) => (⟨"", some Error.ComErrAccountSignFailed⟩, s2)
  | (some sign, s2) => (⟨(freezeAssetValues param sign nonce).Encode, none⟩, s2)

/-- The form fields set by `genLockShardBody`. -/
def lockShardValues (param : LockOrFreezeShardParam) (sign : String) (nonce : Int) : Values :=
  Values.empty
    |>.Set "asset_id" (decimal param.AssetId)
    |>.Set "shard_id" (decimal param.ShardId)
    |>.Set "op_type" (decimal param.OpType)
    |>.Set "addr" param.Account.Address
    |>.Set "sign" sign
    |>.Set "pkey" param.Account.PublicKey
    |>.Set "nonce" (decimal nonce)

/-- Embedding of `genLockShardBody`. -/
def genLockShardBody (d : Deps) (param : LockOrFreezeShardParam) (s : St) : BodyRet × St :=
  let nonce := (GenNonce d s).1
  let s1 := (GenNonce d s).2
  let assetId := param.AssetId
  let signMsg := decimal assetId ++ decimal nonce
  match XassetSignECDSA d param.Account.PrivateKey signMsg s1 with
  | (none, s2) => (⟨"", some Error.ComErrAccountSignFailed⟩, s2)
  | (some sign, s2) => (⟨(lockShardValues param sign nonce).Encode, none⟩, s2)

/-- The form fields set by `genFreezeShardBody`. -/
def freezeShardValues (param : LockOrFreezeShardParam) (sign : String) (nonce : Int) :
    Values :=
  Values.empty
    |>.Set "asset_id" (decimal param.AssetId)
    |>.Set "shard_id" (decimal param.ShardId)
    |>.Set "addr" param.Account.Address
    |>.Set "sign" sign
    |>.Set "pkey" param.Account.PublicKey
    |>.Set "nonce" (decimal nonce)

/-- Embedding of `genFreezeShardBody`, shared by `FreezeShard` and `UnFreezeShard`. -/
def genFreezeShardBody (d : Deps) (param : LockOrFreezeShardParam) (s : St) : BodyRet × St :=
  let nonce := (GenNonce d s).1
  let s1 := (GenNonce d s).2
  let assetId := param.AssetId
  let signMsg := decimal assetId ++ decimal nonce
  match XassetSignECDSA d param.Account.PrivateKey signMsg s1 with
  | (none, s2) => (⟨"", some Error.ComErrAccountSignFailed⟩, s2)
  | (some sign, s2) => (⟨(freezeShardValues param sign nonce).Encode, none⟩, s2)

/-- The form fields set by `genGrantBoxBody`. -/
def grantBoxValues (param : GrantBoxParam) (uSign cSign : String)
    (consumeNonce grantNonce : Int) : Values :=
  Values.empty
    |>.Set "real_asset_id" (decimal param.RealAssetId)
    |>.Set "box_asset_id" (decimal param.BoxAssetId)
    |>.Set "consume_nonce" (decimal consumeNonce)
    |>.Set "grant_nonce" (decimal grantNonce)
    |>.Set "token" param.Token
    |>.Set "user_addr" param.UAccount.Address
    |>.Set "user_sign" uSign
    |>.Set "user_pkey" param.UAccount.PublicKey
    |>.Set "create_addr" param.CAccount.Address
    |>.Set "create_sign" cSign
    |>.Set "create_pkey" param.CAccount.PublicKey
    |>.Set "user_id" (decimal param.UserId)

/-- Embedding of `genGrantBoxBody`. -/
def genGrantBoxBody (d : Deps) (param : GrantBoxParam) (s : St) : BodyRet × St :=
  let consumeNonce := (GenNonce d s).1
  let s1 := (GenNonce d s).2
  let consumeSignMsg := decimal param.BoxAssetId ++ decimal consumeNonce
  match XassetSignECDSA d param.UAccount.PrivateKey consumeSignMsg s1 with
  | (none, s2) => (⟨"", some Error.ComErrAccountSignFailed⟩, s2)
  | (some uSign, s2) =>
    let grantNonce := (GenNonce d s2).1
    let s3 := (GenNonce d s2).2
    let grantSignMsg := decimal param.RealAssetId ++ decimal grantNonce
    match XassetSignECDSA d param.CAccount.PrivateKey grantSignMsg s3 with
    | (none, s4) => (⟨"", some Error.ComErrAccountSignFailed⟩, s4)
    | (some cSign, s4) =>
      (⟨(grantBoxValues param uSign cSign consumeNonce grantNonce).Encode, none⟩, s4)

/-- The loop of `genComposeShardBody` over the consume list: one nonce and one signature
per shard, appended to `astList`; `none` when a signature fails. -/
def composeLoop (d : Deps) (key : String) :
    List AssetShardPair → List ConsumeNode → St → Option (List ConsumeNode) × St
  | [], astList, s => (some astList, s)
  | shard :: rest, astList, s =>
    let nonce := (GenNonce d s).1
    let s1 := (GenNonce d s).2
    let signMsg := decimal shard.AssetId ++ decimal nonce
    match XassetSignECDSA d key signMsg s1 with
    | (none, s2) => (none, s2)
    | (some sign, s2) =>
      composeLoop d key rest
        (astList ++ [{ AssetId := shard.AssetId, ShardId := shard.ShardId,
                       Nonce := nonce, Sign := sign }]) s2

/-- The form fields set by `genComposeShardBody`. -/
def composeShardValues (param : ComposeParam) (sign : String) (nonce : Int)
    (jsAstList : String) : Values :=
  Values.empty
    |>.Set "asset_id" (decimal param.AssetId)
    |>.Set "strg_no" (decimal param.StrgNo)
    |>.Set "nonce" (decimal nonce)
    |>.Set "addr" param.Account.Address
    |>.Set "pkey" param.Account.PublicKey
    |>.Set "sign" sign
    |>.Set "uaddr" param.UAccount.Address
    |>.Set "upkey" param.UAccount.PublicKey
    |>.Set "ast_list" jsAstList
    |>.Set "token" param.Token

/-- Embedding of `genComposeShardBody`. -/
def genComposeShardBody (d : Deps) (consumeList : List AssetShardPair) (param : ComposeParam)
    (s : St) : BodyRet × St :=
  if consumeList.length < 1 then (⟨"", some Error.ErrParamInvalid⟩, s)
  else
    match composeLoop d param.Account.PrivateKey consumeList [] s with
    | (none, s1) => (⟨"", some Error.ComErrAccountSignFailed⟩, s1)
    | (some astList, s1) =>
      match d.marshalNodes astList with
      | none => (⟨"", some Error.ComErrJsonMarFailed⟩, s1)
      | some jsAstList =>
        let nonce := (GenNonce d s1).1
        let s2 := (GenNonce d s1).2
        let signMsg := decimal param.AssetId ++ decimal nonce
        match XassetSignECDSA d param.Account.PrivateKey signMsg s2 with
        | (none, s3) => (⟨"", some Error.ComErrAccountSignFailed⟩, s3)
        | (some sign, s3) =>
          (⟨(composeShardValues param sign nonce jsAstList).Encode, none⟩, s3)

/-! ## Operations of `AssetOper` -/

/-- The statements that follow body generation in an operation: post the body, then check
the transport result, the HTTP status, the decoding of the body and the decoded `Errno`,
in this order. The same statements are written out in each of `GetStoken`, `CreateAsset`,
`AlterAsset`, `PublishAsset`, `GrantAsset`, `TransferAsset`, `FreezeAsset`, `GrantBox`,
`ComposeShard`, `LockShard`, `FreezeShard` and `UnFreezeShard`, and in the query, scene
and `Vilg` operations. -/
def postAndClassify (d : Deps) (api : Api) (body : String) (s : St) : OpRet × St :=
  match Post d api body s with
  | (none, s1) => (⟨none, none, some Error.ComErrRequsetFailed⟩, s1)
  | (some res, s1) =>
    if res.HttpCode ≠ 200 then (⟨none, none, some Error.ComErrRespCodeErr⟩, s1)
    else
      match d.unmarshal api res.Body with
      | none => (⟨none, some res, some Error.ComErrUnmarshalBodyFailed⟩, s1)
      | some resp =>
        if resp.Errno ≠ d.XassetErrNoSucc then
          (⟨none, some res, some Error.ComErrServRespErrnoErr⟩, s1)
        else (⟨some resp, some res, none⟩, s1)

/-- The common shape of a signed operation: validate, build the body, post and classify. -/
def runOp (valid : Option Error) (gen : St → BodyRet × St) (d : Deps) (api : Api) (s : St) :
    OpRet × St :=
  match valid with
  | some err => (⟨none, none, some err⟩, s)
  | none =>
    match (gen s).1.err with
    | some err => (⟨none, none, some err⟩, (gen s).2)
    | none => postAndClassify d api (gen s).1.body (gen s).2

/-- Embedding of `AssetOper.GetStoken`. -/
def GetStoken (d : Deps) (param : GetStokenParam) (s : St) : OpRet × St :=
  runOp (d.validGetStoken param) (genGetStokenBody d param) d Api.FileApiGetStoken s

/-- Embedding of `AssetOper.CreateAsset`. -/
def CreateAsset (d : Deps) (param : CreateAssetParam) (s : St) : OpRet × St :=
  runOp (d.validCreateAsset param) (genCreateAssetBody d d.AppId param) d Api.AssetApiCreate s

/-- Embedding of `AssetOper.AlterAsset`. -/
def AlterAsset (d : Deps) (param : AlterAssetParam) (s : St) : OpRet × St :=
  runOp (d.validAlterAsset param) (genAlterAssetBody d param) d Api.AssetApiAlter s

/-- Embedding of `AssetOper.PublishAsset`. -/
def PublishAsset (d : Deps) (param : PublishAssetParam) (s : St) : OpRet × St :=
  runOp (d.validPublishAsset param) (genPublishAssetBody d param) d Api.AssetApiPublish s

/-- Embedding of `AssetOper.GrantAsset`. -/
def GrantAsset (d : Deps) (param : GrantAssetParam) (s : St) : OpRet × St :=
  runOp (d.validGrantAsset param) (genGrantAssetBody d d.AppId param) d Api.AssetApiGrant s

/-- Embedding of `AssetOper.TransferAsset`. -/
def TransferAsset (d : Deps) (param : TransferAssetParam) (s : St) : OpRet × St :=
  runOp (d.validTransferAsset param) (genTransferAssetBody d param) d Api.AssetApiTransfer s

/-- Embedding of `AssetOper.FreezeAsset`. -/
def FreezeAsset (d : Deps) (param : FreezeAssetParam) (s : St) : OpRet × St :=
  runOp (d.validFreezeAsset param) (genFreezeAssetBody d param) d Api.AssetApiFreeze s

/-- Embedding of `AssetOper.GrantBox`. -/
def GrantBox (d : Deps) (param : GrantBoxParam) (s : St) : OpRet × St :=
  runOp (d.validGrantBox param) (genGrantBoxBody d param) d Api.AssetApiGrantBox s

/-- Embedding of `AssetOper.ComposeShard`. -/
def ComposeShard (d : Deps) (consumeList : List AssetShardPair) (param : ComposeParam)
    (s : St) : OpRet × St :=
  runOp (d.validCompose param) (genComposeShardBody d consumeList param) d
    Api.AssetApiComposeShard s

/-- Embedding of `AssetOper.LockShard`. -/
def LockShard (d : Deps) (param : LockOrFreezeShardParam) (s : St) : OpRet × St :=
  runOp (d.validLockOrFreezeShard param) (genLockShardBody d param) d Api.AssetApiLockShard s

/-- Embedding of `AssetOper.FreezeShard`. -/
def FreezeShard (d : Deps) (param : LockOrFreezeShardParam) (s : St) : OpRet × St :=
  runOp (d.validLockOrFreezeShard param) (genFreezeShardBody d param) d
    Api.AssetApiFreezeShard s

/-- Embedding of `AssetOper.UnFreezeShard`. -/
def UnFreezeShard (d : Deps) (param : LockOrFreezeShardParam) (s : St) : OpRet × St :=
  runOp (d.validLockOrFreezeShard param) (genFreezeShardBody d param) d
    Api.AssetApiUnfreezeShard s

/-- The form fields set inline by `ListAssetHistory`. -/
def listAssetHistoryValues (param : ListAssetHisParam) : Values :=
  let v := Values.empty
    |>.Set "asset_id" (decimal param.AssetId)
    |>.Set "page" (decimal param.Page)
  let v := if param.Limit > 0 then v.Set "limit" (decimal param.Limit) else v
  if param.ShardId > 0 then v.Set "shard_id" (decimal param.ShardId) else v

/-- Embedding of `AssetOper.ListAssetHistory`. Its reply handling is written out here
because it differs from the other operations: a decoding failure returns a nil
`RequestRes`, and the decoded `Errno` is not inspected. -/
def ListAssetHistory (d : Deps) (param : ListAssetHisParam) (s : St) : OpRet × St :=
  match d.validListAssetHis param with
  | some err => (⟨none, none, some err⟩, s)
  | none =>
    let body := (listAssetHistoryValues param).Encode
    match Post d Api.ListAssetHistory body s with
    | (none, s1) => (⟨none, none, some Error.ComErrRequsetFailed⟩, s1)
    | (some res, s1) =>
      if res.HttpCode ≠ 200 then (⟨none, none, some Error.ComErrRespCodeErr⟩, s1)
      else
        match d.unmarshal Api.ListAssetHistory res.Body with
        | none => (⟨none, none, some Error.ComErrUnmarshalBodyFailed⟩, s1)
        | some resp => (⟨some resp, some res, none⟩, s1)

/-! ## Vocabulary of the statements -/

/-- The state after one nonce draw followed by one signing call on `msg` with `key`. -/
def afterSign (d : Deps) (key msg : String) (s : St) : St :=
  { draws := s.draws + 1,
    trace := s.trace ++ [Event.nonce (d.nonceAt s.draws),
      Event.sign key msg (d.signECDSA key msg).isSome] }

/-- The common shape of a single-signer body builder: draw one nonce, sign `msgOf nonce`
with `key`, give up with `ComErrAccountSignFailed` when signing fails, and otherwise
continue with `k signature nonce`. -/
def signThen (d : Deps) (key : String) (msgOf : Int → String) (k : String → Int → BodyRet)
    (s : St) : BodyRet × St :=
  ((match d.signECDSA key (msgOf (d.nonceAt s.draws)) with
    | none => ⟨"", some Error.ComErrAccountSignFailed⟩
    | some sig => k sig (d.nonceAt s.draws)),
   afterSign d key (msgOf (d.nonceAt s.draws)) s)

/-- The signing calls made between state `s` and the later state `s'`. -/
def newSignCalls (s s' : St) : List (String × String × Bool) :=
  (signCalls s'.trace).drop (signCalls s.trace).length

/-- The nonces drawn between state `s` and the later state `s'`. -/
def newNonces (s s' : St) : List Int :=
  (nonces s'.trace).drop (nonces s.trace).length

/-- Some call of the signing primitive made between `s` and `s'` returned an error. -/
def failedSign (s s' : St) : Prop :=
  ∃ key msg, (key, msg, false) ∈ newSignCalls s s'

/-- The asset id that `genCreateAssetBody` signs and sends. -/
def createAssetIdOf (d : Deps) (appid : Int) (param : CreateAssetParam) : Int :=
  if param.AssetId = 0 then d.genAssetId appid else param.AssetId

/-- A builder run `r` from state `s` signed exactly the message `msg` with `key`, and
when it produced a body, that body encodes form fields whose `sign` field is the
signature of `msg` under `key` and which satisfy `fields`. -/
def SingleSigned (d : Deps) (key msg : String) (s : St) (r : BodyRet × St)
    (fields : Values → Prop) : Prop :=
  newSignCalls s r.2 = [(key, msg, (d.signECDSA key msg).isSome)] ∧
    (r.1.err = none →
      ∃ sig v, d.signECDSA key msg = some sig ∧ r.1.body = v.Encode ∧
        v.Get "sign" = sig ∧ fields v)

/-- The form fields `asset_id` and `nonce` carry the decimal texts of `assetId` and
`nonce`. -/
def carriesIdAndNonce (assetId nonce : Int) (v : Values) : Prop :=
  v.Get "asset_id" = decimal assetId ∧ v.Get "nonce" = decimal nonce

/-- When a signing call fails during the builder run `gen` and the operation run `op`,
both started in `s`: the builder returns the empty body with `ComErrAccountSignFailed`,
the operation returns `(nil, nil, ComErrAccountSignFailed)`, and nothing is posted. -/
def SignFailureAborts (s : St) (gen : BodyRet × St) (op : OpRet × St) : Prop :=
  (failedSign s gen.2 → gen.1 = ⟨"", some Error.ComErrAccountSignFailed⟩) ∧
    (failedSign s op.2 →
      op.1 = ⟨none, none, some Error.ComErrAccountSignFailed⟩ ∧
        posts op.2.trace = posts s.trace)

/-- Collaborators used to evaluate the model on concrete inputs: the `k`-th nonce is
`40 + k`, signing fails exactly for the empty key, every request is answered by
`reply`, decoding yields `decoded`, the success sentinel is `0`, and every validity
check passes. -/
def sampleDeps (reply : Option RequestRes) (decoded : Option Resp) : Deps where
  nonceAt := fun k => 40 + (k : Int)
  genAssetId := fun appid => appid * 10 + 1
  signECDSA := fun key msg => if key = "" then none else some ("sig(" ++ key ++ "," ++ msg ++ ")")
  postReply := fun _ _ => reply
  unmarshal := fun _ _ => decoded
  marshalAssetInfo := fun info => some info
  marshalNodes := fun nodes => some (toString (nodes.map (fun n => (n.AssetId, n.ShardId, n.Nonce, n.Sign))))
  XassetErrNoSucc := 0
  AppId := 7
  IdValid := fun id => if id < 1 then some Error.ErrParamInvalid else none
  PriceInvalid := fun x => if x < 0 then some Error.ErrParamInvalid else none
  AmountInvalid := fun x => if x < 0 then some Error.ErrParamInvalid else none
  AlterAssetInfoValid := fun info => if info = "" then some Error.ErrParamInvalid else none
  validGetStoken := fun _ => none
  validCreateAsset := fun _ => none
  validAlterAsset := fun _ => none
  validPublishAsset := fun _ => none
  validGrantAsset := fun _ => none
  validTransferAsset := fun _ => none
  validListAssetHis := fun _ => none
  validFreezeAsset := fun _ => none
  validGrantBox := fun _ => none
  validCompose := fun _ => none
  validLockOrFreezeShard := fun _ => none

/-- The initial state: nothing drawn, nothing done. -/
def St.init : St := { draws := 0, trace := [] }

/-- A sample account. -/
def alice : Account :=
  { Address := "addrA", PrivateKey := "skA", PublicKey := "pkA", Mnemonic := "" }

/-- A second sample account. -/
def bob : Account :=
  { Address := "addrB", PrivateKey := "skB", PublicKey := "pkB", Mnemonic := "" }

/-- A sample account whose key the signing primitive rejects. -/
def broken : Account :=
  { Address := "addrX", PrivateKey := "", PublicKey := "pkX", Mnemonic := "" }

/-- An HTTP reply with the given status and body. -/
def replyOf (code : Int) (body : String) : RequestRes :=
  { HttpCode := code, ReqUrl := "https://host/api", Header := [], Body := body }

/-- The node `genComposeShardBody` builds for `shard` when the nonce drawn for it is
`nonce` and the signature over its message is `sign`. -/
def nodeOf (shard : AssetShardPair) (nonce : Int) (sign : String) : ConsumeNode :=
  { AssetId := shard.AssetId, ShardId := shard.ShardId, Nonce := nonce, Sign := sign }

/-- The nodes the loop of `genComposeShardBody` builds when the first shard uses the
`k`-th nonce of the nonce source: shard `i` uses nonce `k + i` and the signature over
decimal asset id followed by decimal nonce. -/
def expectedNodes (d : Deps) (key : String) : Nat → List AssetShardPair → List ConsumeNode
  | _, [] => []
  | k, shard :: rest =>
    nodeOf shard (d.nonceAt k)
        ((d.signECDSA key (decimal shard.AssetId ++ decimal (d.nonceAt k))).getD "") ::
      expectedNodes d key (k + 1) rest

/-- Every signing call of the loop succeeds when the first shard uses the `k`-th nonce. -/
def AllSigned (d : Deps) (key : String) : Nat → List AssetShardPair → Prop
  | _, [] => True
  | k, shard :: rest =>
    (d.signECDSA key (decimal shard.AssetId ++ decimal (d.nonceAt k))).isSome = true ∧
      AllSigned d key (k + 1) rest

/-- The signing calls of the loop when the first shard uses the `k`-th nonce. -/
def expectedCalls (d : Deps) (key : String) :
    Nat → List AssetShardPair → List (String × String × Bool)
  | _, [] => []
  | k, shard :: rest =>
    (key, decimal shard.AssetId ++ decimal (d.nonceAt k), true) ::
      expectedCalls d key (k + 1) rest

/-- The reading of "two independent signatures over two messages that each use their own
nonce draw": the builder run made exactly two signing calls, both successful, and drew
at least two nonces. -/
def TwoSignatures (s : St) (r : BodyRet × St) : Prop :=
  (∃ k1 m1 k2 m2, newSignCalls s r.2 = [(k1, m1, true), (k2, m2, true)]) ∧
    2 ≤ (newNonces s r.2).length

/-- Modelled from the spec: "Nonce freshness: N consecutive signing calls for one account
yield N distinct nonces." `utils.GenNonce` is not among the source files; the sentence
is a property of the nonce source: two different calls never return the same value. -/
def FreshNonces (d : Deps) : Prop :=
  ∀ i j, d.nonceAt i = d.nonceAt j → i = j

/-- The values returned by `n` consecutive calls of `GenNonce`, the first made in
state `s`. -/
def drawNonces (d : Deps) : Nat → St → List Int
  | 0, _ => []
  | n + 1, s => (GenNonce d s).1 :: drawNonces d n (GenNonce d s).2

/-! ## `auth/account.go`: language inference -/

/-- The two word tables of the external package `wordlist` that `InferLanguage` consults,
as membership tests: `ReversedEnglishWordMap` and `ReversedSimplifiedChineseWordMap`. -/
structure Wordlists where
  ReversedEnglishWordMap : String → Bool
  ReversedSimplifiedChineseWordMap : String → Bool

/-- Cut a text at every space character: the pieces between the spaces, of which there is
always at least one. -/
def splitChars : List Char → List (List Char)
  | [] => [[]]
  | c :: cs =>
    if c = ' ' then [] :: splitChars cs
    else
      match splitChars cs with
      | [] => [[c]]
      | t :: ts => (c :: t) :: ts

/-- The call `strings.Split(s, " ")`. -/
def Split (s : String) : List String := (splitChars s.data).map String.mk

/-- Embedding of `InferLanguage`. The result `none` stands for the run-time panic of an
index out of range at `ss[0]`. -/
def InferLanguage (w : Wordlists) (mnemonic : String) : Option Int :=
  let ss := Split mnemonic
  if ss.length = 0 then some 0
  else
    match ss[0]? with
    | none => none
    | some first =>
      if w.ReversedEnglishWordMap first then some MnemLangEN
      else if w.ReversedSimplifiedChineseWordMap first then some MnemLangCN
      else some 0

/-- The first token `InferLanguage` looks at: the first piece of `strings.Split(s, " ")`. -/
def firstToken (s : String) : String := ((Split s).head?).getD ""

/-- White space in the sense of the claim about whitespace splitting: space, tab, newline. -/
def isWhite (c : Char) : Bool := c = ' ' || c = '\t' || c = '\n'

/-- The first whitespace-delimited token in the words of the specification: leading white
space is ignored and the token ends at the next white space character. -/
def firstField (s : String) : String :=
  String.mk ((s.data.dropWhile isWhite).takeWhile (fun c => !isWhite c))

/-- Small word tables used to evaluate `InferLanguage` on concrete phrases. -/
def sampleWords : Wordlists where
  ReversedEnglishWordMap := fun word => word = "abandon" || word = "ability"
  ReversedSimplifiedChineseWordMap := fun word => word = "的" || word = "一"

/-! ## `auth/account.go`: account creation and recovery -/

/-- The account value of the derivation library, with the four fields the wrappers read. -/
structure ECDSAAccount where
  Address : String
  JsonPrivateKey : String
  JsonPublicKey : String
  Mnemonic : String
  deriving DecidableEq, Repr

/-- The derivation library `xchain.XchainCryptoClient` as the wrappers of `account.go` see
it during one run: `CreateNewAccountWithMnemonic(language int, strength uint8)` and
`RetrieveAccountByMnemonic(mnemonic string, language int)`, each returning an account or
an error. The strength argument is a `uint8`, a natural number below 256. -/
structure CryptoClient where
  CreateNewAccountWithMnemonic : Int → Nat → Except Error ECDSAAccount
  RetrieveAccountByMnemonic : String → Int → Except Error ECDSAAccount

/-- One call into the derivation library. -/
inductive LibCall where
  | create (language : Int) (strength : Nat)
  | retrieve (mnemonic : String) (language : Int)
  deriving DecidableEq, Repr

/-- The pair `(*Account, error)` returned by the wrappers, with the library calls made. -/
structure AccountRet where
  acc : Option Account
  err : Option Error
  calls : List LibCall
  deriving DecidableEq, Repr

/-- The Go conversion `uint8(strg)` of an `int`: the value modulo 256. -/
def toUint8 (n : Int) : Nat := (n % 256).toNat

/-- The `Account` a wrapper builds from the library's account. -/
def accountOf (a : ECDSAAccount) : Account :=
  { Address := a.Address, PrivateKey := a.JsonPrivateKey, PublicKey := a.JsonPublicKey,
    Mnemonic := a.Mnemonic }

/-- Embedding of `NewXchainEcdsaAccount`. -/
def NewXchainEcdsaAccount (cryptoCli : CryptoClient) (strg lang : Int) : AccountRet :=
  match cryptoCli.CreateNewAccountWithMnemonic lang (toUint8 strg) with
  | Except.error err => ⟨none, some err, [LibCall.create lang (toUint8 strg)]⟩
  | Except.ok ecdsaAcc =>
    ⟨some (accountOf ecdsaAcc), none, [LibCall.create lang (toUint8 strg)]⟩

/-- Embedding of `RetrieveAccountByMnemonic`. -/
def RetrieveAccountByMnemonic (cryptoCli : CryptoClient) (mnemonic : String)
    (language : Int) : AccountRet :=
  match cryptoCli.RetrieveAccountByMnemonic mnemonic language with
  | Except.error err => ⟨none, some err, [LibCall.retrieve mnemonic language]⟩
  | Except.ok acount => ⟨some (accountOf acount), none, [LibCall.retrieve mnemonic language]⟩

/-- The reading of "rejected with an input error before the derivation library is
invoked": for every out-of-range strength or language code `NewXchainEcdsaAccount`
returns an error without having called the library, and likewise
`RetrieveAccountByMnemonic` for every out-of-range language code. -/
def RejectsBeforeLibrary (cryptoCli : CryptoClient) : Prop :=
  (∀ strg lang : Int, (strg < 1 ∨ 3 < strg ∨ lang < 1 ∨ 2 < lang) →
    (NewXchainEcdsaAccount cryptoCli strg lang).err ≠ none ∧
      (NewXchainEcdsaAccount cryptoCli strg lang).calls = []) ∧
  (∀ (mnemonic : String) (language : Int), (language < 1 ∨ 2 < language) →
    (RetrieveAccountByMnemonic cryptoCli mnemonic language).err ≠ none ∧
      (RetrieveAccountByMnemonic cryptoCli mnemonic language).calls = [])

/-- Modelled from the spec: the mnemonic codec and key derivation inside the derivation
library, which is not among the source files. The spec says that creation encodes the
drawn entropy as words in the requested language and derives keypair and address from
it, deterministically in the entropy-to-account direction, and that recovery validates
the mnemonic, reconstructs the entropy and re-derives the same keypair and address:
`encode` and `derive` are functions, `decode` validates and reconstructs, and
`decode_encode` is the reconstruction the spec promises. -/
structure Derivation where
  encode : String → Int → String
  decode : String → Int → Option String
  derive : String → Option (String × String × String)
  decode_encode : ∀ entropy language, decode (encode entropy language) language = some entropy

/-- The spec's error kind `InvalidInput`. -/
def InvalidInput : Error := Error.other "InvalidInput"

/-- The spec's error kind `InvalidMnemonic`. -/
def InvalidMnemonic : Error := Error.other "InvalidMnemonic"

/-- The spec's error kind `KeyDerivationFailed`. -/
def KeyDerivationFailed : Error := Error.other "KeyDerivationFailed"

/-- Modelled from the spec: `CreateAccount` of the derivation library, which is not among
the source files, for the entropy `entropy` drawn in this call. Out-of-range strength
(1, 2, 3) or language (1, 2) codes are rejected with `InvalidInput`; otherwise the
account is derived from the entropy (address, private key, public key) and carries the
mnemonic that encodes the entropy; a failing derivation is `KeyDerivationFailed`. -/
def specCreate (D : Derivation) (entropy : String) (language : Int) (strength : Nat) :
    Except Error ECDSAAccount :=
  if strength < 1 ∨ 3 < strength ∨ language < 1 ∨ 2 < language then Except.error InvalidInput
  else
    match D.derive entropy with
    | none => Except.error KeyDerivationFailed
    | some (address, privateKey, publicKey) =>
      Except.ok ⟨address, privateKey, publicKey, D.encode entropy language⟩

/-- Modelled from the spec: `RecoverAccount` of the derivation library, which is not among
the source files. An out-of-range language code is `InvalidInput`, a mnemonic that does
not validate is `InvalidMnemonic`; otherwise the account is re-derived from the
reconstructed entropy. -/
def specRetrieve (D : Derivation) (mnemonic : String) (language : Int) :
    Except Error ECDSAAccount :=
  if language < 1 ∨ 2 < language then Except.error InvalidInput
  else
    match D.decode mnemonic language with
    | none => Except.error InvalidMnemonic
    | some entropy =>
      match D.derive entropy with
      | none => Except.error KeyDerivationFailed
      | some (address, privateKey, publicKey) =>
        Except.ok ⟨address, privateKey, publicKey, mnemonic⟩

/-- Modelled from the spec: the derivation library in a run in which creation draws the
entropy `entropy`. -/
def specClient (D : Derivation) (entropy : String) : CryptoClient where
  CreateNewAccountWithMnemonic := specCreate D entropy
  RetrieveAccountByMnemonic := specRetrieve D

/-- A derivation used to evaluate the model: the mnemonic is the entropy text itself and
the keys are texts built from the entropy; the empty entropy cannot be derived. -/
def sampleDerivation : Derivation where
  encode := fun entropy _ => entropy
  decode := fun mnemonic _ => some mnemonic
  derive := fun entropy =>
    if entropy = "" then none else some ("addr-" ++ entropy, "sk-" ++ entropy, "pk-" ++ entropy)
  decode_encode := fun _ _ => rfl

/-! ## Federated binding: `aesEncodeStr`, `aesDecodeStr` and the five operations -/

/-- Modelled from the spec: `utils.AesEncode` and `utils.AesDecode` are not part of the
source files. The spec describes them as a symmetric, reversible pair
`Obscure(plaintext, sharedSecret) -> token` / `Reveal(token, sharedSecret) -> plaintext`
with `Reveal(Obscure(s, k), k) = s`; either direction can fail. -/
structure Cipher where
  AesEncode : String → String → Except Error String
  AesDecode : String → String → Except Error String
  reveal_obscure : ∀ s k token, AesEncode s k = Except.ok token → AesDecode token k = Except.ok s

/-- Parameter of `BdBoxRegister`. -/
structure BdBoxRegisterParam where
  OpenId : String
  AppKey : String
  deriving DecidableEq, Repr

/-- Parameter of `BdBoxBind`. -/
structure BdBoxBindParam where
  OpenId : String
  AppKey : String
  Mnemonic : String
  deriving DecidableEq, Repr

/-- Parameter of `BindByUnionId`. -/
structure BindByUnionIdParam where
  UnionId : String
  Mnemonic : String
  deriving DecidableEq, Repr

/-- The decoded reply of `BdBoxRegister`: the common fields and the mnemonic, which the
server sends obscured. -/
structure BdBoxRegisterResp where
  RequestId : String
  Errno : Int
  Mnemonic : String
  Rest : String
  deriving DecidableEq, Repr

/-- The collaborators of the federated-binding operations: those of `Deps`, the cipher,
the configured `t.Cfg.Credentials.SecretAccessKey`, the validity checks of `xbase`, the
decoder of the register reply and `t.GetTarceId`. -/
structure FedDeps extends Deps where
  cipher : Cipher
  SecretAccessKey : String
  UnionIdValid : String → Option Error
  validBdBoxRegister : BdBoxRegisterParam → Option Error
  validBdBoxBind : BdBoxBindParam → Option Error
  validBindByUnionId : BindByUnionIdParam → Option Error
  unmarshalRegister : String → Option BdBoxRegisterResp
  GetTarceId : List (String × String) → String

/-- The method `t.aesEncodeStr`. -/
def aesEncodeStr (f : FedDeps) (str : String) : Except Error String :=
  f.cipher.AesEncode str f.SecretAccessKey

/-- The method `t.aesDecodeStr`. -/
def aesDecodeStr (f : FedDeps) (str : String) : Except Error String :=
  f.cipher.AesDecode str f.SecretAccessKey

/-- The triple `(*resp, *xbase.RequestRes, error)` returned by a federated-binding
operation whose reply type is `ρ`; `none` is `nil`. -/
structure FedRet (ρ : Type) where
  resp : Option ρ
  res : Option RequestRes
  err : Option Error

/-- Appends the events to the trace. -/
def emit (evs : List Event) (s : St) : St := { s with trace := s.trace ++ evs }

/-- One input that is obscured before it is sent: the form key it is stored under, its
plaintext, and the format of the warning logged when obscuring it fails (the only
argument of that warning is the plaintext). -/
structure SensitiveField where
  key : String
  plain : String
  failFormat : String
  deriving DecidableEq, Repr

/-- The run of `aesEncodeStr` calls at the head of a federated-binding operation, in
source order: the first failure logs its warning and ends the run with that error;
otherwise the result is the list of `(key, token)` pairs. The second component is the
list of events of the run. -/
def obscureAll (f : FedDeps) : List SensitiveField → Except Error (List (String × String)) × List Event
  | [] => (Except.ok [], [])
  | fld :: rest =>
    match aesEncodeStr f fld.plain with
    | Except.error err =>
      (Except.error err,
        [Event.obscure fld.plain (some err), Event.log LogLevel.Warn fld.failFormat [LogArg.str fld.plain]])
    | Except.ok token =>
      match obscureAll f rest with
      | (Except.error err, evs) => (Except.error err, Event.obscure fld.plain none :: evs)
      | (Except.ok pairs, evs) =>
        (Except.ok ((fld.key, token) :: pairs), Event.obscure fld.plain none :: evs)

/-- The sequence of calls `v.Set(key, token)` on `url.Values{}`. -/
def setAll (pairs : List (String × String)) : Values :=
  pairs.foldl (fun v p => v.Set p.1 p.2) Values.empty

/-- Outcome of the reply handling: a failure with the `RequestRes` that is returned
next to the error, or the reply and its decoded form. -/
inductive ReplyOutcome (ρ : Type) where
  | failed (res : Option RequestRes) (err : Error)
  | accepted (res : RequestRes) (resp : ρ)

/-- The reply handling shared by the federated-binding operations, from the result of
`t.Post` on: transport failure, HTTP status, decoding, application error code, each
with its warning. -/
def classifyReply {ρ : Type} (f : FedDeps) (api : Api) (decode : String → Option ρ)
    (errno : ρ → Int) (requestId : ρ → String) :
    Option RequestRes → ReplyOutcome ρ × List Event
  | none =>
    (ReplyOutcome.failed none Error.ComErrRequsetFailed,
      [Event.log LogLevel.Warn "post request xasset failed. url: %s, err: %v"
        [LogArg.api api, LogArg.err]])
  | some res =>
    if res.HttpCode ≠ 200 then
      (ReplyOutcome.failed none Error.ComErrRespCodeErr,
        [Event.log LogLevel.Warn
          "post req resp not 200.[http_code: %d] [url: %s] [body: %s] [trace_id: %s]"
          [LogArg.num res.HttpCode, LogArg.str res.ReqUrl, LogArg.str res.Body,
            LogArg.str (f.GetTarceId res.Header)]])
    else
      match decode res.Body with
      | none =>
        (ReplyOutcome.failed (some res) Error.ComErrUnmarshalBodyFailed,
          [Event.log LogLevel.Warn
            "unmarshal body failed.err:%v [http_code: %d] [url: %s] [body: %s] [trace_id: %s]"
            [LogArg.err, LogArg.num res.HttpCode, LogArg.str res.ReqUrl, LogArg.str res.Body,
              LogArg.str (f.GetTarceId res.Header)]])
      | some resp =>
        if errno resp ≠ f.XassetErrNoSucc then
          (ReplyOutcome.failed (some res) Error.ComErrServRespErrnoErr,
            [Event.log LogLevel.Warn
              "get resp failed. [url: %s] [request_id: %s] [err_no: %d] [trace_id: %s]"
              [LogArg.str res.ReqUrl, LogArg.str (requestId resp), LogArg.num (errno resp),
                LogArg.str (f.GetTarceId res.Header)]])
        else (ReplyOutcome.accepted res resp, [])

/-- The common shape of the five federated-binding operations. `valid` is the result of
the validity check, `fields` the inputs that are obscured, `finish` the step between
the accepted reply and the success message (present only in `BdBoxRegister`),
`succFormat` and `succPlain` the format and the leading arguments of the success
message; its remaining arguments are the URL, the request id and the trace id. -/
def fedOp {ρ : Type} (f : FedDeps) (valid : Option Error) (fields : List SensitiveField)
    (api : Api) (decode : String → Option ρ) (errno : ρ → Int) (requestId : ρ → String)
    (finish : RequestRes → ρ → Except Error ρ × List Event)
    (succFormat : String) (succPlain : List String) (s : St) : FedRet ρ × St :=
  match valid with
  | some err => (⟨none, none, some err⟩, s)
  | none =>
    match obscureAll f fields with
    | (Except.error err, evs) => (⟨none, none, some err⟩, emit evs s)
    | (Except.ok pairs, evs) =>
      match Post f.toDeps api (setAll pairs).Encode (emit evs s) with
      | (reply, s1) =>
        match classifyReply f api decode errno requestId reply with
        | (ReplyOutcome.failed res err, logs) => (⟨none, res, some err⟩, emit logs s1)
        | (ReplyOutcome.accepted res resp, logs) =>
          match finish res resp with
          | (Except.error err, evs2) => (⟨some resp, some res, some err⟩, emit (logs ++ evs2) s1)
          | (Except.ok resp2, evs2) =>
            (⟨some resp2, some res, none⟩,
              emit (logs ++ evs2 ++ [Event.log LogLevel.Trace succFormat
                (succPlain.map LogArg.str ++ [LogArg.str res.ReqUrl, LogArg.str (requestId resp),
                  LogArg.str (f.GetTarceId res.Header)])]) s1)

/-- The empty step of the operations that return the decoded reply as it is. -/
def noFinish {ρ : Type} (_res : RequestRes) (resp : ρ) : Except Error ρ × List Event :=
  (Except.ok resp, [])

/-- The last step of `BdBoxRegister`: the mnemonic of the reply is revealed and
stored back into the reply; when that fails a warning is logged and the error is
returned next to the reply as it was decoded. -/
def revealMnemonic (f : FedDeps) (res : RequestRes) (resp : BdBoxRegisterResp) :
    Except Error BdBoxRegisterResp × List Event :=
  match aesDecodeStr f resp.Mnemonic with
  | Except.error err =>
    (Except.error err,
      [Event.reveal resp.Mnemonic (some err),
        Event.log LogLevel.Warn
          "get resp succ but cannot decode mnemonic. [url: %s] [request_id: %s] [trace_id: %s]"
          [LogArg.str res.ReqUrl, LogArg.str resp.RequestId, LogArg.str (f.GetTarceId res.Header)]])
  | Except.ok decodeMnem =>
    (Except.ok { resp with Mnemonic := decodeMnem }, [Event.reveal resp.Mnemonic none])

/-- The method `SceneListAddr`. -/
def SceneListAddr (f : FedDeps) (uid : String) (s : St) : FedRet Resp × St :=
  fedOp f (f.UnionIdValid uid)
    [⟨"union_id", uid, "encode union id fail, union id: %s"⟩]
    Api.SceneListAddr (f.unmarshal Api.SceneListAddr) Resp.Errno Resp.RequestId noFinish
    "operate succ. [union_id: %s] [url: %s] [request_id: %s] [trace_id: %s]" [uid] s

/-- The method `BdBoxRegister`. -/
def BdBoxRegister (f : FedDeps) (param : BdBoxRegisterParam) (s : St) :
    FedRet BdBoxRegisterResp × St :=
  fedOp f (f.validBdBoxRegister param)
    [⟨"open_id", param.OpenId, "encode open id fail, open id: %s"⟩,
      ⟨"app_key", param.AppKey, "encode app key fail, app key: %s"⟩]
    Api.DidApiRegister f.unmarshalRegister BdBoxRegisterResp.Errno BdBoxRegisterResp.RequestId
    (revealMnemonic f)
    "operate succ. [open_id: %s] [app_key: %s] [url: %s] [request_id: %s] [trace_id: %s]"
    [param.OpenId, param.AppKey] s

/-- The method `BdBoxBind`. -/
def BdBoxBind (f : FedDeps) (param : BdBoxBindParam) (s : St) : FedRet Resp × St :=
  fedOp f (f.validBdBoxBind param)
    [⟨"open_id", param.OpenId, "encode open id fail, open id: %s"⟩,
      ⟨"app_key", param.AppKey, "encode app key fail, app key: %s"⟩,
      ⟨"mnemonic", param.Mnemonic, "encode mnemonic fail, mnemonic: %s"⟩]
    Api.DidApiBind (f.unmarshal Api.DidApiBind) Resp.Errno Resp.RequestId noFinish
    "operate succ. [open_id: %s] [app_key: %s] [url: %s] [request_id: %s] [trace_id: %s]"
    [param.OpenId, param.AppKey] s

/-- The method `BindByUnionId`. -/
def BindByUnionId (f : FedDeps) (param : BindByUnionIdParam) (s : St) : FedRet Resp × St :=
  fedOp f (f.validBindByUnionId param)
    [⟨"union_id", param.UnionId, "encode union id fail, union id: %s"⟩,
      ⟨"mnemonic", param.Mnemonic, "encode mnemonic fail, mnemonic: %s"⟩]
    Api.DidApiBindByUid (f.unmarshal Api.DidApiBindByUid) Resp.Errno Resp.RequestId noFinish
    "operate succ. [union_id: %s] [url: %s] [request_id: %s] [trace_id: %s]"
    [param.UnionId] s

/-- The method `GetAddrByUnionId`. -/
def GetAddrByUnionId (f : FedDeps) (uid : String) (s : St) : FedRet Resp × St :=
  fedOp f (f.UnionIdValid uid)
    [⟨"union_id", uid, "encode union id fail, union id: %s"⟩]
    Api.DidApiGetAddrByUid (f.unmarshal Api.DidApiGetAddrByUid) Resp.Errno Resp.RequestId noFinish
    "operate succ. [union_id: %s] [url: %s] [request_id: %s] [trace_id: %s]" [uid] s

/-! ### Vocabulary of the statements on the federated-binding operations -/

/-- The log calls in a trace: level, format, arguments. -/
def logsOf : List Event → List (LogLevel × String × List LogArg)
  | [] => []
  | Event.log level format args :: rest => (level, format, args) :: logsOf rest
  | _ :: rest => logsOf rest

/-- The `aesEncodeStr` calls in a trace: plaintext and error (`none` on success). -/
def obscureCalls : List Event → List (String × Option Error)
  | [] => []
  | Event.obscure plain err :: rest => (plain, err) :: obscureCalls rest
  | _ :: rest => obscureCalls rest

/-- The requests posted between `s` and `s'`. -/
def newPosts (s s' : St) : List (Api × String) :=
  (posts s'.trace).drop (posts s.trace).length

/-- The log calls made between `s` and `s'`. -/
def newLogs (s s' : St) : List (LogLevel × String × List LogArg) :=
  (logsOf s'.trace).drop (logsOf s.trace).length

/-- The `aesEncodeStr` calls made between `s` and `s'`. -/
def newObscureCalls (s s' : St) : List (String × Option Error) :=
  (obscureCalls s'.trace).drop (obscureCalls s.trace).length

/-- Failing closed: every `aesEncodeStr` call of the run that failed with `e` makes the
operation return `(nil, nil, e)`, and the run posts nothing. -/
def ObscureFailureAborts {ρ : Type} (s : St) (r : FedRet ρ × St) : Prop :=
  ∀ plain e, (plain, some e) ∈ newObscureCalls s r.2 →
    (r.1.resp = none ∧ r.1.res = none ∧ r.1.err = some e) ∧ newPosts s r.2 = []

/-- The list `pairs` holds, key by key in the order of `inputs`, the token
`aesEncodeStr` returns for the plaintext of that key. -/
def tokenFields (f : FedDeps) : List (String × String) → List (String × String) → Prop
  | [], [] => True
  | (k, plain) :: inputs, (k2, token) :: pairs =>
    k2 = k ∧ aesEncodeStr f plain = Except.ok token ∧ tokenFields f inputs pairs
  | _, _ => False

/-- Every request posted between `s` and `s'` goes to `api`, and its body is the
encoding of the form that holds, for each `(key, plaintext)` of `inputs`, the token of
the plaintext under `key`, and nothing else. -/
def PostsTokens (f : FedDeps) (api : Api) (inputs : List (String × String)) (s s' : St) : Prop :=
  ∀ a body, (a, body) ∈ newPosts s s' →
    a = api ∧ ∃ pairs, tokenFields f inputs pairs ∧ body = (setAll pairs).Encode

/-- Every `aesEncodeStr` call made between `s` and `s'` succeeded. -/
def AllObscured (s s' : St) : Prop :=
  ∀ plain e, (plain, e) ∈ newObscureCalls s s' → e = none

/-- The replies `t.Post` gave to the requests posted between `s` and `s'`. -/
def repliesTo (f : FedDeps) (s s' : St) : List (Option RequestRes) :=
  (newPosts s s').map (fun p => f.postReply p.1 p.2)

/-- The pair of runs `r` (from `s`) and `r2` (from `s2`) writes the same log messages
whenever every `aesEncodeStr` call of both runs succeeded, both runs received the same
replies, and the first run ends in an error. -/
def SameFailureLogs {ρ : Type} (f : FedDeps) (s : St) (r : FedRet ρ × St) (s2 : St)
    (r2 : FedRet ρ × St) : Prop :=
  AllObscured s r.2 → AllObscured s2 r2.2 → repliesTo f s r.2 = repliesTo f s2 r2.2 →
    r.1.err ≠ none → newLogs s r.2 = newLogs s2 r2.2

/-- A sample cipher: the token is the key followed by the plaintext; a plaintext of
more than eight characters and the empty key are rejected. -/
def sampleCipher : Cipher where
  AesEncode := fun s k =>
    if 8 < s.data.length ∨ k = "" then Except.error (Error.other "aes encode")
    else Except.ok (String.mk (k.data ++ s.data))
  AesDecode := fun token k => Except.ok (String.mk (token.data.drop k.data.length))
  reveal_obscure := by
    intro s k token h
    beta_reduce at h ⊢
    by_cases hc : 8 < s.data.length ∨ k = ""
    · rw [if_pos hc] at h
      cases h
    · rw [if_neg hc] at h
      cases h
      simp

/-- Sample collaborators of the federated-binding operations: those of `sampleDeps`,
the sample cipher under the secret `"k"`, validity checks that pass, and a register
reply that decodes to `register`. -/
def sampleFed (reply : Option RequestRes) (decoded : Option Resp)
    (register : Option BdBoxRegisterResp) : FedDeps where
  toDeps := sampleDeps reply decoded
  cipher := sampleCipher
  SecretAccessKey := "k"
  UnionIdValid := fun _ => none
  validBdBoxRegister := fun _ => none
  validBdBoxBind := fun _ => none
  validBindByUnionId := fun _ => none
  unmarshalRegister := fun _ => register
  GetTarceId := fun _ => "trace-1"

/-- Sample collaborators whose server accepts every request: status 200, application
code 0, request id `"r1"`, and for the register reply the obscured mnemonic `"kabandon"`. -/
def sampleFedOk : FedDeps :=
  sampleFed (some (replyOf 200 "ok")) (some ⟨"r1", 0, ""⟩) (some ⟨"r1", 0, "kabandon", ""⟩)

/-- Sample collaborators whose server answers every request with status 500. -/
def sampleFed500 : FedDeps :=
  sampleFed (some (replyOf 500 "busy")) none none

/-! ## The remaining operations of `AssetOper` -/

/-- Parameter of `QueryAsset`. -/
structure QueryAssetParam where
  AssetId : Int
  deriving DecidableEq, Repr

/-- Parameter of `ListAssetsByAddr`. -/
structure ListAssetsByAddrParam where
  Addr : String
  Status : Int
  Page : Int
  Limit : Int
  deriving DecidableEq, Repr

/-- Parameter of `ListDiffByAddr`. -/
structure ListDiffByAddrParam where
  Addr : String
  Limit : Int
  Cursor : String
  OpTyps : String
  deriving DecidableEq, Repr

/-- Parameter of `QueryShard`. -/
structure QueryShardParam where
  AssetId : Int
  ShardId : Int
  deriving DecidableEq, Repr

/-- Parameter of `ListShardsByAddr`. -/
structure ListShardsByAddrParam where
  Addr : String
  Page : Int
  Limit : Int
  AssetId : Int
  deriving DecidableEq, Repr

/-- Parameter of `ListShardsByAsset`. -/
structure ListShardsByAssetParam where
  AssetId : Int
  Cursor : String
  Limit : Int
  deriving DecidableEq, Repr

/-- Parameter of `GetEvidenceInfo`. -/
structure GetEvidenceInfoParam where
  AssetId : Int
  deriving DecidableEq, Repr

/-- Parameter of `ConsumeShard`. -/
structure ConsumeShardParam where
  AssetId : Int
  ShardId : Int
  Nonce : Int
  UAddr : String
  USign : String
  UPKey : String
  deriving DecidableEq, Repr

/-- Parameter of `SelectBoxAst`. -/
structure SelBoxAstParam where
  AssetId : Int
  ShardId : Int
  deriving DecidableEq, Repr

/-- Parameter of `SelectMaterial`. -/
structure SelMaterialParam where
  AssetId : Int
  StrgNo : Int
  Addr : String
  deriving DecidableEq, Repr

/-- Parameter of `UpgradeAst`. -/
structure UpgradeAstParam where
  AssetId : Int
  AssetParam : String
  deriving DecidableEq, Repr

/-- Parameter of `UpgradeSds`. -/
structure UpgradeSdsParam where
  AssetId : Int
  ShardId : Int
  ShardParam : String
  deriving DecidableEq, Repr

/-- Parameter of `SceneListShardByAddr`. -/
structure SceneListShardByAddrParam where
  Addr : String
  Token : String
  Cursor : String
  Limit : Int
  deriving DecidableEq, Repr

/-- Parameter of `SceneQueryShard`. -/
structure SceneQueryShardParam where
  Addr : String
  Token : String
  AssetId : Int
  ShardId : Int
  deriving DecidableEq, Repr

/-- Parameter of `SceneListDiffByAddr`. -/
structure SceneListDiffByAddrParam where
  Addr : String
  Token : String
  Limit : Int
  Cursor : String
  OpTyps : String
  deriving DecidableEq, Repr

/-- Parameter of `SceneHasAssetByAddr`. -/
structure SceneHasAssetByAddrParam where
  Addr : String
  Token : String
  AssetIds : String
  deriving DecidableEq, Repr

/-- Parameter of `VilgText2Img`. -/
structure VilgText2ImgParam where
  Text : String
  Style : Int
  Resolution : Int
  Extend : String
  deriving DecidableEq, Repr

/-- Parameter of `UploadFile`; `DataByte` is `none` for a nil slice. -/
structure UploadFileParam where
  Account : XAsset.Account
  FileName : String
  FilePath : String
  DataByte : Option (List Nat)
  Property : String
  deriving DecidableEq, Repr

/-- The field `AccessInfo` of the stoken reply: the temporary credentials of the object
store. -/
structure AccessInfo where
  AK : String
  SK : String
  SessionToken : String
  EndPoint : String
  Bucket : String
  ObjectPath : String
  deriving DecidableEq, Repr

/-- The struct `xbase.UploadFileResp`. -/
structure UploadFileResp where
  Link : String
  AccessInfo : XAsset.AccessInfo
  deriving DecidableEq, Repr

/-- All collaborators of `AssetOper`: those of the signed and of the federated-binding
operations, the `Valid` methods of the remaining parameters, the `AccessInfo` field of a
decoded stoken reply, and the object-store client (`bos.NewClient`,
`auth2.NewSessionBceCredentials`, `PutObjectFromFile`, `PutObjectFromBytes`), each of
which returns an error or `none`. -/
structure OperDeps extends FedDeps where
  validQueryAsset : QueryAssetParam → Option Error
  validListAssetsByAddr : ListAssetsByAddrParam → Option Error
  validListDiffByAddr : ListDiffByAddrParam → Option Error
  validQueryShard : QueryShardParam → Option Error
  validListShardsByAddr : ListShardsByAddrParam → Option Error
  validListShardsByAsset : ListShardsByAssetParam → Option Error
  validGetEvidenceInfo : GetEvidenceInfoParam → Option Error
  validConsumeShard : ConsumeShardParam → Option Error
  validSelBoxAst : SelBoxAstParam → Option Error
  validSelMaterial : SelMaterialParam → Option Error
  validUpgradeAst : UpgradeAstParam → Option Error
  validUpgradeSds : UpgradeSdsParam → Option Error
  validSceneListShardByAddr : SceneListShardByAddrParam → Option Error
  validSceneQueryShard : SceneQueryShardParam → Option Error
  validSceneListDiffByAddr : SceneListDiffByAddrParam → Option Error
  validSceneHasAssetByAddr : SceneHasAssetByAddrParam → Option Error
  validVilgText2Img : VilgText2ImgParam → Option Error
  validUploadFile : UploadFileParam → Option Error
  accessInfoOf : Resp → AccessInfo
  bosNewClient : String → String → String → Option Error
  newSessionBceCredentials : String → String → String → Option Error
  putObjectFromFile : String → String → String → Option Error
  putObjectFromBytes : String → String → List Nat → Option Error

/-- Embedding of `genQueryAssetBody`. -/
def genQueryAssetBody (param : QueryAssetParam) : BodyRet :=
  ⟨(Values.empty.Set "asset_id" (decimal param.AssetId)).Encode, none⟩

/-- Embedding of `genListAssetByAddrBody`. -/
def genListAssetByAddrBody (param : ListAssetsByAddrParam) : BodyRet :=
  ⟨(Values.empty
    |>.Set "addr" param.Addr
    |>.Set "status" (decimal param.Status)
    |>.Set "page" (decimal param.Page)
    |>.Set "limit" (decimal param.Limit)).Encode, none⟩

/-- Embedding of `genListDiffByAddrBody`. -/
def genListDiffByAddrBody (param : ListDiffByAddrParam) : BodyRet :=
  let v := Values.empty.Set "addr" param.Addr
  let v := if param.Limit > 0 then v.Set "limit" (decimal param.Limit) else v
  let v := if param.Cursor ≠ "" then v.Set "cursor" param.Cursor else v
  let v := if param.OpTyps ≠ "" then v.Set "op_types" param.OpTyps else v
  ⟨v.Encode, none⟩

/-- Embedding of `genQueryShardsBody`. -/
def genQueryShardsBody (param : QueryShardParam) : BodyRet :=
  ⟨(Values.empty
    |>.Set "asset_id" (decimal param.AssetId)
    |>.Set "shard_id" (decimal param.ShardId)).Encode, none⟩

/-- Embedding of `genListShardsByAddrBody`. -/
def genListShardsByAddrBody (param : ListShardsByAddrParam) : BodyRet :=
  let v := Values.empty
    |>.Set "addr" param.Addr
    |>.Set "page" (decimal param.Page)
    |>.Set "limit" (decimal param.Limit)
  let v := if param.AssetId > 0 then v.Set "asset_id" (decimal param.AssetId) else v
  ⟨v.Encode, none⟩

/-- Embedding of `genListShardsByAssetBody`. -/
def genListShardsByAssetBody (param : ListShardsByAssetParam) : BodyRet :=
  ⟨(Values.empty
    |>.Set "asset_id" (decimal param.AssetId)
    |>.Set "cursor" param.Cursor
    |>.Set "limit" (decimal param.Limit)).Encode, none⟩

/-- Embedding of `genEvidenceBody`. -/
def genEvidenceBody (param : GetEvidenceInfoParam) : BodyRet :=
  ⟨(Values.empty.Set "asset_id" (decimal param.AssetId)).Encode, none⟩

/-- Embedding of `genConsumeShardBody`. -/
def genConsumeShardBody (param : ConsumeShardParam) : BodyRet :=
  ⟨(Values.empty
    |>.Set "asset_id" (decimal param.AssetId)
    |>.Set "shard_id" (decimal param.ShardId)
    |>.Set "nonce" (decimal param.Nonce)
    |>.Set "user_addr" param.UAddr
    |>.Set "user_sign" param.USign
    |>.Set "user_pkey" param.UPKey).Encode, none⟩

/-- Embedding of `genSelBoxAstBody`. -/
def genSelBoxAstBody (param : SelBoxAstParam) : BodyRet :=
  ⟨(Values.empty
    |>.Set "asset_id" (decimal param.AssetId)
    |>.Set "shard_id" (decimal param.ShardId)).Encode, none⟩

/-- Embedding of `genSelMaterialBody`. -/
def genSelMaterialBody (param : SelMaterialParam) : BodyRet :=
  ⟨(Values.empty
    |>.Set "asset_id" (decimal param.AssetId)
    |>.Set "strg_no" (decimal param.StrgNo)
    |>.Set "addr" param.Addr).Encode, none⟩

/-- Embedding of `genUpgradeAstBody`. -/
def genUpgradeAstBody (param : UpgradeAstParam) : BodyRet :=
  ⟨(Values.empty
    |>.Set "asset_id" (decimal param.AssetId)
    |>.Set "param" param.AssetParam).Encode, none⟩

/-- Embedding of `genUpgradeSdsBody`. -/
def genUpgradeSdsBody (param : UpgradeSdsParam) : BodyRet :=
  ⟨(Values.empty
    |>.Set "asset_id" (decimal param.AssetId)
    |>.Set "shard_id" (decimal param.ShardId)
    |>.Set "param" param.ShardParam).Encode, none⟩

/-- Embedding of `genSceneListShardByAddrBody`. -/
def genSceneListShardByAddrBody (param : SceneListShardByAddrParam) : BodyRet :=
  let v := Values.empty
    |>.Set "addr" param.Addr
    |>.Set "token" param.Token
    |>.Set "cursor" param.Cursor
  let v := if param.Limit > 0 then v.Set "limit" (decimal param.Limit) else v
  ⟨v.Encode, none⟩

/-- Embedding of `genSceneQueryShardBody`. -/
def genSceneQueryShardBody (param : SceneQueryShardParam) : BodyRet :=
  ⟨(Values.empty
    |>.Set "addr" param.Addr
    |>.Set "token" param.Token
    |>.Set "asset_id" (decimal param.AssetId)
    |>.Set "shard_id" (decimal param.ShardId)).Encode, none⟩

/-- Embedding of `genSceneListDiffByAddrBody`. -/
def genSceneListDiffByAddrBody (param : SceneListDiffByAddrParam) : BodyRet :=
  let v := Values.empty
    |>.Set "addr" param.Addr
    |>.Set "token" param.Token
  let v := if param.Limit > 0 then v.Set "limit" (decimal param.Limit) else v
  let v := if param.Cursor ≠ "" then v.Set "cursor" param.Cursor else v
  let v := if param.OpTyps ≠ "" then v.Set "op_types" param.OpTyps else v
  ⟨v.Encode, none⟩

/-- Embedding of `genSceneHasAssetByAddrBody`. -/
def genSceneHasAssetByAddrBody (param : SceneHasAssetByAddrParam) : BodyRet :=
  ⟨(Values.empty
    |>.Set "addr" param.Addr
    |>.Set "token" param.Token
    |>.Set "asset_ids" param.AssetIds).Encode, none⟩

/-- The shape of the operations that discard the error of their body builder
(`body, _ := ...`) or build the body inline: validate, post and classify. -/
def runQuery (valid : Option Error) (body : String) (d : Deps) (api : Api) (s : St) :
    OpRet × St :=
  match valid with
  | some err => (⟨none, none, some err⟩, s)
  | none => postAndClassify d api body s

/-- Embedding of `AssetOper.QueryAsset`. -/
def QueryAsset (o : OperDeps) (param : QueryAssetParam) (s : St) : OpRet × St :=
  runQuery (o.validQueryAsset param) (genQueryAssetBody param).body o.toFedDeps.toDeps
    Api.AssetApiQueryAsset s

/-- Embedding of `AssetOper.ListAssetsByAddr`. -/
def ListAssetsByAddr (o : OperDeps) (param : ListAssetsByAddrParam) (s : St) : OpRet × St :=
  runQuery (o.validListAssetsByAddr param) (genListAssetByAddrBody param).body
    o.toFedDeps.toDeps Api.AssetApiListAssetByAddr s

/-- Embedding of `AssetOper.ListDiffByAddr`. -/
def ListDiffByAddr (o : OperDeps) (param : ListDiffByAddrParam) (s : St) : OpRet × St :=
  runQuery (o.validListDiffByAddr param) (genListDiffByAddrBody param).body
    o.toFedDeps.toDeps Api.AssetApiListDiffByAddr s

/-- Embedding of `AssetOper.QueryShard`. -/
def QueryShard (o : OperDeps) (param : QueryShardParam) (s : St) : OpRet × St :=
  runQuery (o.validQueryShard param) (genQueryShardsBody param).body o.toFedDeps.toDeps
    Api.AssetApiQueryShard s

/-- Embedding of `AssetOper.ListShardsByAddr`. -/
def ListShardsByAddr (o : OperDeps) (param : ListShardsByAddrParam) (s : St) : OpRet × St :=
  runQuery (o.validListShardsByAddr param) (genListShardsByAddrBody param).body
    o.toFedDeps.toDeps Api.AssetApiListShardsByAddr s

/-- Embedding of `AssetOper.ListShardsByAsset`. -/
def ListShardsByAsset (o : OperDeps) (param : ListShardsByAssetParam) (s : St) :
    OpRet × St :=
  runQuery (o.validListShardsByAsset param) (genListShardsByAssetBody param).body
    o.toFedDeps.toDeps Api.AssetListShardsByAsset s

/-- Embedding of `AssetOper.GetEvidenceInfo`. -/
def GetEvidenceInfo (o : OperDeps) (param : GetEvidenceInfoParam) (s : St) : OpRet × St :=
  runQuery (o.validGetEvidenceInfo param) (genEvidenceBody param).body o.toFedDeps.toDeps
    Api.AssetApiGetEvidenceInfo s

/-- Embedding of `AssetOper.ConsumeShard`. -/
def ConsumeShard (o : OperDeps) (param : ConsumeShardParam) (s : St) : OpRet × St :=
  runOp (o.validConsumeShard param) (fun s => (genConsumeShardBody param, s))
    o.toFedDeps.toDeps Api.AssetApiConsume s

/-- Embedding of `AssetOper.SelectBoxAst`. -/
def SelectBoxAst (o : OperDeps) (param : SelBoxAstParam) (s : St) : OpRet × St :=
  runOp (o.validSelBoxAst param) (fun s => (genSelBoxAstBody param, s))
    o.toFedDeps.toDeps Api.AssetApiSelectBoxAst s

/-- Embedding of `AssetOper.SelectMaterial`. -/
def SelectMaterial (o : OperDeps) (param : SelMaterialParam) (s : St) : OpRet × St :=
  runOp (o.validSelMaterial param) (fun s => (genSelMaterialBody param, s))
    o.toFedDeps.toDeps Api.AssetApiSelectMaterial s

/-- Embedding of `AssetOper.UpgradeAst`. -/
def UpgradeAst (o : OperDeps) (param : UpgradeAstParam) (s : St) : OpRet × St :=
  runOp (o.validUpgradeAst param) (fun s => (genUpgradeAstBody param, s))
    o.toFedDeps.toDeps Api.AssetApiUpgradeAst s

/-- Embedding of `AssetOper.UpgradeSds`. -/
def UpgradeSds (o : OperDeps) (param : UpgradeSdsParam) (s : St) : OpRet × St :=
  runOp (o.validUpgradeSds param) (fun s => (genUpgradeSdsBody param, s))
    o.toFedDeps.toDeps Api.AssetApiUpgradeSds s

/-- Embedding of `AssetOper.SceneListShardByAddr`. -/
def SceneListShardByAddr (o : OperDeps) (param : SceneListShardByAddrParam) (s : St) :
    OpRet × St :=
  runOp (o.validSceneListShardByAddr param) (fun s => (genSceneListShardByAddrBody param, s))
    o.toFedDeps.toDeps Api.SceneListShardByAddr s

/-- Embedding of `AssetOper.SceneQueryShard`. -/
def SceneQueryShard (o : OperDeps) (param : SceneQueryShardParam) (s : St) : OpRet × St :=
  runOp (o.validSceneQueryShard param) (fun s => (genSceneQueryShardBody param, s))
    o.toFedDeps.toDeps Api.SceneQueryShard s

/-- Embedding of `AssetOper.SceneListDiffByAddr`. -/
def SceneListDiffByAddr (o : OperDeps) (param : SceneListDiffByAddrParam) (s : St) :
    OpRet × St :=
  runQuery (o.validSceneListDiffByAddr param) (genSceneListDiffByAddrBody param).body
    o.toFedDeps.toDeps Api.SceneListDiffByAddr s

/-- Embedding of `AssetOper.SceneHasAssetByAddr`. -/
def SceneHasAssetByAddr (o : OperDeps) (param : SceneHasAssetByAddrParam) (s : St) :
    OpRet × St :=
  runQuery (o.validSceneHasAssetByAddr param) (genSceneHasAssetByAddrBody param).body
    o.toFedDeps.toDeps Api.SceneHasAstByAddr s

/-- Embedding of `AssetOper.VilgText2Img`; `strconv.FormatInt(_, 10)` is `decimal`. -/
def VilgText2Img (o : OperDeps) (param : VilgText2ImgParam) (s : St) : OpRet × St :=
  runQuery (o.validVilgText2Img param)
    (Values.empty
      |>.Set "text" param.Text
      |>.Set "style" (decimal param.Style)
      |>.Set "resolution" (decimal param.Resolution)
      |>.Set "extend" param.Extend).Encode
    o.toFedDeps.toDeps Api.VilgApiText2Img s

/-- Embedding of `AssetOper.VilgGetImg`. -/
def VilgGetImg (o : OperDeps) (taskId : Int) (s : St) : OpRet × St :=
  runQuery (if taskId ≤ 0 then some Error.ErrParamInvalid else none)
    (Values.empty.Set "task_id" (decimal taskId)).Encode
    o.toFedDeps.toDeps Api.VilgApiGetImg s

/-- Embedding of `AssetOper.VilgBalance`, which has no parameter and no validity check. -/
def VilgBalance (o : OperDeps) (s : St) : OpRet × St :=
  postAndClassify o.toFedDeps.toDeps Api.VilgApiBalance "" s

/-- The triple returned by `UploadFile`. -/
structure UploadRet where
  resp : Option UploadFileResp
  res : Option RequestRes
  err : Option Error
  deriving DecidableEq, Repr

/-- The part of `UploadFile` after the stoken was obtained: create the object-store
client and the session credentials, upload from the file path or from the bytes, and
return the link. -/
def uploadWith (o : OperDeps) (param : UploadFileParam) (resp : Resp) (res : RequestRes)
    (s : St) : UploadRet × St :=
  let info := o.accessInfoOf resp
  match o.bosNewClient info.AK info.SK info.EndPoint with
  | some err => (⟨none, none, some err⟩, s)
  | none =>
    match o.newSessionBceCredentials info.AK info.SK info.SessionToken with
    | some err => (⟨none, none, some err⟩, s)
    | none =>
      let key := "/" ++ info.ObjectPath ++ param.FileName
      let link := "bos_v1://" ++ info.Bucket ++ key ++ "/" ++ param.Property
      if param.FilePath ≠ "" then
        match o.putObjectFromFile info.Bucket key param.FilePath with
        | some err => (⟨none, none, some err⟩, emit [Event.putObject info.Bucket key false] s)
        | none =>
          (⟨some ⟨link, info⟩, some res, none⟩, emit [Event.putObject info.Bucket key true] s)
      else
        match param.DataByte with
        | some bytes =>
          match o.putObjectFromBytes info.Bucket key bytes with
          | some err => (⟨none, none, some err⟩, emit [Event.putObject info.Bucket key false] s)
          | none =>
            (⟨some ⟨link, info⟩, some res, none⟩, emit [Event.putObject info.Bucket key true] s)
        | none => (⟨none, none, some (Error.other "wrong upload file method")⟩, s)

/-- Embedding of `AssetOper.UploadFile`. The result is `none` when the run ends in a nil
pointer dereference: in the branch taken when `GetStoken` returned an error, the
arguments of the warning read `res.ReqUrl`, `resp.RequestId`, `resp.Errno` and
`res.Header` of the values `GetStoken` returned, before `return nil, nil, err`. -/
def UploadFile (o : OperDeps) (param : UploadFileParam) (s : St) : Option (UploadRet × St) :=
  match o.validUploadFile param with
  | some err => some (⟨none, none, some err⟩, s)
  | none =>
    match GetStoken o.toFedDeps.toDeps ⟨param.Account⟩ s with
    | (⟨resp, res, some err⟩, s1) =>
      match res, resp with
      | some _, some _ => some (⟨none, none, some err⟩, s1)
      | _, _ => none
    | (⟨resp, res, none⟩, s1) =>
      match resp, res with
      | some resp, some res => some (uploadWith o param resp res s1)
      | _, _ => none

/-! ### Every operation of `AssetOper` -/

/-- One call of a public operation of `AssetOper` with its arguments. -/
inductive Call where
  | GetStoken (param : GetStokenParam)
  | UploadFile (param : UploadFileParam)
  | CreateAsset (param : CreateAssetParam)
  | AlterAsset (param : AlterAssetParam)
  | PublishAsset (param : PublishAssetParam)
  | QueryAsset (param : QueryAssetParam)
  | ListAssetsByAddr (param : ListAssetsByAddrParam)
  | ListDiffByAddr (param : ListDiffByAddrParam)
  | GrantAsset (param : GrantAssetParam)
  | TransferAsset (param : TransferAssetParam)
  | QueryShard (param : QueryShardParam)
  | ListShardsByAddr (param : ListShardsByAddrParam)
  | ListShardsByAsset (param : ListShardsByAssetParam)
  | ListAssetHistory (param : ListAssetHisParam)
  | GetEvidenceInfo (param : GetEvidenceInfoParam)
  | FreezeAsset (param : FreezeAssetParam)
  | ConsumeShard (param : ConsumeShardParam)
  | SelectBoxAst (param : SelBoxAstParam)
  | GrantBox (param : GrantBoxParam)
  | SelectMaterial (param : SelMaterialParam)
  | UpgradeAst (param : UpgradeAstParam)
  | UpgradeSds (param : UpgradeSdsParam)
  | ComposeShard (consumeList : List AssetShardPair) (param : ComposeParam)
  | LockShard (param : LockOrFreezeShardParam)
  | FreezeShard (param : LockOrFreezeShardParam)
  | UnFreezeShard (param : LockOrFreezeShardParam)
  | SceneListShardByAddr (param : SceneListShardByAddrParam)
  | SceneQueryShard (param : SceneQueryShardParam)
  | SceneListDiffByAddr (param : SceneListDiffByAddrParam)
  | SceneHasAssetByAddr (param : SceneHasAssetByAddrParam)
  | SceneListAddr (uid : String)
  | BdBoxRegister (param : BdBoxRegisterParam)
  | BdBoxBind (param : BdBoxBindParam)
  | BindByUnionId (param : BindByUnionIdParam)
  | GetAddrByUnionId (uid : String)
  | VilgText2Img (param : VilgText2ImgParam)
  | VilgGetImg (taskId : Int)
  | VilgBalance

/-- What every operation returns, whatever its reply type: whether the typed response is
non-nil, the `RequestRes`, and the error. -/
structure Summary where
  hasResp : Bool
  res : Option RequestRes
  err : Option Error
  deriving DecidableEq, Repr

/-- Summary of the return value of an operation with the common reply type. -/
def summary (r : OpRet × St) : Option (Summary × St) :=
  some (⟨r.1.resp.isSome, r.1.res, r.1.err⟩, r.2)

/-- Summary of the return value of a federated-binding operation. -/
def fedSummary {ρ : Type} (r : FedRet ρ × St) : Option (Summary × St) :=
  some (⟨r.1.resp.isSome, r.1.res, r.1.err⟩, r.2)

/-- Summary of the return value of `UploadFile`; `none` when the run did not return. -/
def uploadSummary (r : Option (UploadRet × St)) : Option (Summary × St) :=
  r.map (fun p => (⟨p.1.resp.isSome, p.1.res, p.1.err⟩, p.2))

/-- Runs the operation named by the call; `none` when the run does not return. -/
def perform (o : OperDeps) : Call → St → Option (Summary × St)
  | Call.GetStoken p, s => summary (GetStoken o.toFedDeps.toDeps p s)
  | Call.UploadFile p, s => uploadSummary (UploadFile o p s)
  | Call.CreateAsset p, s => summary (CreateAsset o.toFedDeps.toDeps p s)
  | Call.AlterAsset p, s => summary (AlterAsset o.toFedDeps.toDeps p s)
  | Call.PublishAsset p, s => summary (PublishAsset o.toFedDeps.toDeps p s)
  | Call.QueryAsset p, s => summary (QueryAsset o p s)
  | Call.ListAssetsByAddr p, s => summary (ListAssetsByAddr o p s)
  | Call.ListDiffByAddr p, s => summary (ListDiffByAddr o p s)
  | Call.GrantAsset p, s => summary (GrantAsset o.toFedDeps.toDeps p s)
  | Call.TransferAsset p, s => summary (TransferAsset o.toFedDeps.toDeps p s)
  | Call.QueryShard p, s => summary (QueryShard o p s)
  | Call.ListShardsByAddr p, s => summary (ListShardsByAddr o p s)
  | Call.ListShardsByAsset p, s => summary (ListShardsByAsset o p s)
  | Call.ListAssetHistory p, s => summary (ListAssetHistory o.toFedDeps.toDeps p s)
  | Call.GetEvidenceInfo p, s => summary (GetEvidenceInfo o p s)
  | Call.FreezeAsset p, s => summary (FreezeAsset o.toFedDeps.toDeps p s)
  | Call.ConsumeShard p, s => summary (ConsumeShard o p s)
  | Call.SelectBoxAst p, s => summary (SelectBoxAst o p s)
  | Call.GrantBox p, s => summary (GrantBox o.toFedDeps.toDeps p s)
  | Call.SelectMaterial p, s => summary (SelectMaterial o p s)
  | Call.UpgradeAst p, s => summary (UpgradeAst o p s)
  | Call.UpgradeSds p, s => summary (UpgradeSds o p s)
  | Call.ComposeShard l p, s => summary (ComposeShard o.toFedDeps.toDeps l p s)
  | Call.LockShard p, s => summary (LockShard o.toFedDeps.toDeps p s)
  | Call.FreezeShard p, s => summary (FreezeShard o.toFedDeps.toDeps p s)
  | Call.UnFreezeShard p, s => summary (UnFreezeShard o.toFedDeps.toDeps p s)
  | Call.SceneListShardByAddr p, s => summary (SceneListShardByAddr o p s)
  | Call.SceneQueryShard p, s => summary (SceneQueryShard o p s)
  | Call.SceneListDiffByAddr p, s => summary (SceneListDiffByAddr o p s)
  | Call.SceneHasAssetByAddr p, s => summary (SceneHasAssetByAddr o p s)
  | Call.SceneListAddr uid, s => fedSummary (SceneListAddr o.toFedDeps uid s)
  | Call.BdBoxRegister p, s => fedSummary (BdBoxRegister o.toFedDeps p s)
  | Call.BdBoxBind p, s => fedSummary (BdBoxBind o.toFedDeps p s)
  | Call.BindByUnionId p, s => fedSummary (BindByUnionId o.toFedDeps p s)
  | Call.GetAddrByUnionId uid, s => fedSummary (GetAddrByUnionId o.toFedDeps uid s)
  | Call.VilgText2Img p, s => summary (VilgText2Img o p s)
  | Call.VilgGetImg taskId, s => summary (VilgGetImg o taskId s)
  | Call.VilgBalance, s => summary (VilgBalance o s)

/-- The result of the validity check an operation makes on its arguments: `param.Valid()`,
`xbase.UnionIdValid(uid)`, or `taskId <= 0` in `VilgGetImg`; `VilgBalance` makes none. -/
def validity (o : OperDeps) : Call → Option Error
  | Call.GetStoken p => o.validGetStoken p
  | Call.UploadFile p => o.validUploadFile p
  | Call.CreateAsset p => o.validCreateAsset p
  | Call.AlterAsset p => o.validAlterAsset p
  | Call.PublishAsset p => o.validPublishAsset p
  | Call.QueryAsset p => o.validQueryAsset p
  | Call.ListAssetsByAddr p => o.validListAssetsByAddr p
  | Call.ListDiffByAddr p => o.validListDiffByAddr p
  | Call.GrantAsset p => o.validGrantAsset p
  | Call.TransferAsset p => o.validTransferAsset p
  | Call.QueryShard p => o.validQueryShard p
  | Call.ListShardsByAddr p => o.validListShardsByAddr p
  | Call.ListShardsByAsset p => o.validListShardsByAsset p
  | Call.ListAssetHistory p => o.validListAssetHis p
  | Call.GetEvidenceInfo p => o.validGetEvidenceInfo p
  | Call.FreezeAsset p => o.validFreezeAsset p
  | Call.ConsumeShard p => o.validConsumeShard p
  | Call.SelectBoxAst p => o.validSelBoxAst p
  | Call.GrantBox p => o.validGrantBox p
  | Call.SelectMaterial p => o.validSelMaterial p
  | Call.UpgradeAst p => o.validUpgradeAst p
  | Call.UpgradeSds p => o.validUpgradeSds p
  | Call.ComposeShard _ p => o.validCompose p
  | Call.LockShard p => o.validLockOrFreezeShard p
  | Call.FreezeShard p => o.validLockOrFreezeShard p
  | Call.UnFreezeShard p => o.validLockOrFreezeShard p
  | Call.SceneListShardByAddr p => o.validSceneListShardByAddr p
  | Call.SceneQueryShard p => o.validSceneQueryShard p
  | Call.SceneListDiffByAddr p => o.validSceneListDiffByAddr p
  | Call.SceneHasAssetByAddr p => o.validSceneHasAssetByAddr p
  | Call.SceneListAddr uid => o.UnionIdValid uid
  | Call.BdBoxRegister p => o.validBdBoxRegister p
  | Call.BdBoxBind p => o.validBdBoxBind p
  | Call.BindByUnionId p => o.validBindByUnionId p
  | Call.GetAddrByUnionId uid => o.UnionIdValid uid
  | Call.VilgText2Img p => o.validVilgText2Img p
  | Call.VilgGetImg taskId => if taskId ≤ 0 then some Error.ErrParamInvalid else none
  | Call.VilgBalance => none

/-! ### Vocabulary of the statements on all operations -/

/-- The calls of `utils.GenAssetId` in a trace: app id and generated id. -/
def assetIdCalls : List Event → List (Int × Int)
  | [] => []
  | Event.assetId appid id :: rest => (appid, id) :: assetIdCalls rest
  | _ :: rest => assetIdCalls rest

/-- The calls of `utils.GenAssetId` made between `s` and `s'`. -/
def newAssetIdCalls (s s' : St) : List (Int × Int) :=
  (assetIdCalls s'.trace).drop (assetIdCalls s.trace).length

/-- The form fields `addr` and `pkey` are the address and the public key of `acc`. -/
def carriesSigner (acc : Account) (v : Values) : Prop :=
  v.Get "addr" = acc.Address ∧ v.Get "pkey" = acc.PublicKey

/-- Between `s` and `s'` a request was posted to which the transport returned the reply
`res` with HTTP status 200. -/
def Received200 (d : Deps) (s s' : St) (res : RequestRes) : Prop :=
  ∃ p, p ∈ newPosts s s' ∧ d.postReply p.1 p.2 = some res ∧ res.HttpCode = 200

/-- A non-nil error comes with a nil typed response. -/
def NoRespOnError (r : Summary) : Prop :=
  r.err ≠ none → r.hasResp = false

/-- The `RequestRes` is returned exactly when a reply with status 200 was received
between `s` and `s'`, and it is that reply. -/
def ResIffReceived200 (d : Deps) (s : St) (r : Summary) (s' : St) : Prop :=
  ∀ res, r.res = some res ↔ Received200 d s s' res

/-- Sample collaborators with a nonce source that always returns `n`. -/
def fixedNonceDeps (n : Int) : Deps :=
  { sampleDeps none none with nonceAt := fun _ => n }

/-- A sample cipher like `sampleCipher` whose `AesDecode` rejects a token shorter than
the key. -/
def checkingCipher : Cipher where
  AesEncode := fun s k =>
    if 8 < s.data.length ∨ k = "" then Except.error (Error.other "aes encode")
    else Except.ok (String.mk (k.data ++ s.data))
  AesDecode := fun token k =>
    if token.data.length < k.data.length then Except.error (Error.other "aes decode")
    else Except.ok (String.mk (token.data.drop k.data.length))
  reveal_obscure := by
    intro s k token h
    beta_reduce at h ⊢
    by_cases hc : 8 < s.data.length ∨ k = ""
    · rw [if_pos hc] at h
      cases h
    · rw [if_neg hc] at h
      cases h
      have hlen : ¬ (k.data ++ s.data).length < k.data.length := by
        rw [List.length_append]
        omega
      rw [if_neg hlen]
      simp

/-- Sample collaborators whose server accepts the registration and sends back the
mnemonic `""`, which `checkingCipher` cannot reveal under the secret `"k"`. -/
def sampleFedGarbled : FedDeps :=
  { sampleFed (some (replyOf 200 "ok")) (some ⟨"r1", 0, ""⟩) (some ⟨"r1", 0, "", ""⟩) with
    cipher := checkingCipher }

/-- Sample collaborators of all operations: those of `fed`; every further validity check
passes, except that `UploadFile` requires a file name; the stoken reply carries fixed
credentials; the object store accepts every upload except from the path `"missing"`. -/
def sampleOper (fed : FedDeps) : OperDeps where
  toFedDeps := fed
  validQueryAsset := fun _ => none
  validListAssetsByAddr := fun _ => none
  validListDiffByAddr := fun _ => none
  validQueryShard := fun _ => none
  validListShardsByAddr := fun _ => none
  validListShardsByAsset := fun _ => none
  validGetEvidenceInfo := fun _ => none
  validConsumeShard := fun _ => none
  validSelBoxAst := fun _ => none
  validSelMaterial := fun _ => none
  validUpgradeAst := fun _ => none
  validUpgradeSds := fun _ => none
  validSceneListShardByAddr := fun _ => none
  validSceneQueryShard := fun _ => none
  validSceneListDiffByAddr := fun _ => none
  validSceneHasAssetByAddr := fun _ => none
  validVilgText2Img := fun _ => none
  validUploadFile := fun p => if p.FileName = "" then some Error.ErrParamInvalid else none
  accessInfoOf := fun _ => ⟨"ak", "sk", "token", "endpoint", "bucket", "dir/"⟩
  bosNewClient := fun _ _ _ => none
  newSessionBceCredentials := fun _ _ _ => none
  putObjectFromFile := fun _ _ path =>
    if path = "missing" then some (Error.other "no such file") else none
  putObjectFromBytes := fun _ _ _ => none

/-! ## Lemmas on traces and form fields -/

@[simp] theorem posts_append (a b : List Event) : posts (a ++ b) = posts a ++ posts b := by
  induction a with
  | nil => rfl
  | cons e rest ih => cases e <;> simp [posts, ih]

@[simp] theorem signCalls_append (a b : List Event) :
    signCalls (a ++ b) = signCalls a ++ signCalls b := by
  induction a with
  | nil => rfl
  | cons e rest ih => cases e <;> simp [signCalls, ih]

@[simp] theorem nonces_append (a b : List Event) :
    nonces (a ++ b) = nonces a ++ nonces b := by
  induction a with
  | nil => rfl
  | cons e rest ih => cases e <;> simp [nonces, ih]

theorem getEntry_setEntry_same (l : List (String × String)) (k x : String) :
    getEntry (setEntry l k x) k = some x := by
  induction l with
  | nil => simp [setEntry, getEntry]
  | cons p rest ih =>
    obtain ⟨k', x'⟩ := p
    by_cases h : k' = k <;> simp [setEntry, getEntry, h, ih]

theorem getEntry_setEntry_ne (l : List (String × String)) (k k' x : String) (h : k ≠ k') :
    getEntry (setEntry l k x) k' = getEntry l k' := by
  induction l with
  | nil => simp [setEntry, getEntry, h]
  | cons p rest ih =>
    obtain ⟨k0, x0⟩ := p
    by_cases h0 : k0 = k
    · subst h0; simp [setEntry, getEntry, h]
    · by_cases h1 : k0 = k'
      · subst h1; simp [setEntry, getEntry, h0]
      · simp [setEntry, getEntry, h0, h1, ih]

@[simp] theorem Values.Get_Set_same (v : Values) (k x : String) : (v.Set k x).Get k = x := by
  simp [Values.Get, Values.Set, getEntry_setEntry_same]

theorem Values.Get_Set_ne (v : Values) (k k' x : String) (h : k ≠ k') :
    (v.Set k x).Get k' = v.Get k' := by
  simp [Values.Get, Values.Set, getEntry_setEntry_ne _ _ _ _ h]

@[simp] theorem Values.Has_Set_same (v : Values) (k x : String) : (v.Set k x).Has k = true := by
  simp [Values.Has, Values.Set, getEntry_setEntry_same]

theorem Values.Has_Set_ne (v : Values) (k k' x : String) (h : k ≠ k') :
    (v.Set k x).Has k' = v.Has k' := by
  simp [Values.Has, Values.Set, getEntry_setEntry_ne _ _ _ _ h]

/-! ## Lemmas on the body builders -/

@[simp] theorem newSignCalls_self (s : St) : newSignCalls s s = [] := by
  simp [newSignCalls]

theorem not_failedSign_self (s : St) : ¬ failedSign s s := by
  simp [failedSign]

theorem newSignCalls_afterSign (d : Deps) (key msg : String) (s : St) :
    newSignCalls s (afterSign d key msg s) = [(key, msg, (d.signECDSA key msg).isSome)] := by
  simp [newSignCalls, afterSign, signCalls]

theorem newNonces_afterSign (d : Deps) (key msg : String) (s : St) :
    newNonces s (afterSign d key msg s) = [d.nonceAt s.draws] := by
  simp [newNonces, afterSign, nonces]

theorem posts_afterSign (d : Deps) (key msg : String) (s : St) :
    posts (afterSign d key msg s).trace = posts s.trace := by
  simp [afterSign, posts]

theorem signThen_snd (d : Deps) (key : String) (msgOf : Int → String)
    (k : String → Int → BodyRet) (s : St) :
    (signThen d key msgOf k s).2 = afterSign d key (msgOf (d.nonceAt s.draws)) s := rfl

theorem signThen_fail (d : Deps) (key : String) (msgOf : Int → String)
    (k : String → Int → BodyRet) (s : St)
    (h : d.signECDSA key (msgOf (d.nonceAt s.draws)) = none) :
    (signThen d key msgOf k s).1 = ⟨"", some Error.ComErrAccountSignFailed⟩ := by
  simp [signThen, h]

theorem signThen_ok (d : Deps) (key : String) (msgOf : Int → String)
    (k : String → Int → BodyRet) (s : St) (sig : String)
    (h : d.signECDSA key (msgOf (d.nonceAt s.draws)) = some sig) :
    (signThen d key msgOf k s).1 = k sig (d.nonceAt s.draws) := by
  simp [signThen, h]

theorem signThen_failedSign (d : Deps) (key : String) (msgOf : Int → String)
    (k : String → Int → BodyRet) (s : St)
    (h : failedSign s (signThen d key msgOf k s).2) :
    (signThen d key msgOf k s).1 = ⟨"", some Error.ComErrAccountSignFailed⟩ := by
  obtain ⟨key', msg', hmem⟩ := h
  rw [signThen_snd, newSignCalls_afterSign] at hmem
  simp only [List.mem_singleton, Prod.mk.injEq] at hmem
  have hnone : d.signECDSA key (msgOf (d.nonceAt s.draws)) = none := by
    cases hs : d.signECDSA key (msgOf (d.nonceAt s.draws)) with
    | none => rfl
    | some sig => rw [hs] at hmem; simp at hmem
  exact signThen_fail d key msgOf k s hnone

theorem genGetStokenBody_eq (d : Deps) (param : GetStokenParam) (s : St) :
    genGetStokenBody d param s =
      signThen d param.Account.PrivateKey (fun nonce => decimal nonce)
        (fun sig nonce => ⟨(getStokenValues param sig nonce).Encode, none⟩) s := by
  simp only [genGetStokenBody, GenNonce, XassetSignECDSA, signThen, afterSign]
  cases d.signECDSA param.Account.PrivateKey (decimal (d.nonceAt s.draws)) <;> simp

theorem genPublishAssetBody_eq (d : Deps) (param : PublishAssetParam) (s : St) :
    genPublishAssetBody d param s =
      signThen d param.Account.PrivateKey (fun nonce => decimal param.AssetId ++ decimal nonce)
        (fun sig nonce => ⟨(publishAssetValues param sig nonce).Encode, none⟩) s := by
  simp only [genPublishAssetBody, GenNonce, XassetSignECDSA, signThen, afterSign]
  cases d.signECDSA param.Account.PrivateKey
    (decimal param.AssetId ++ decimal (d.nonceAt s.draws)) <;> simp

theorem genTransferAssetBody_eq (d : Deps) (param : TransferAssetParam) (s : St) :
    genTransferAssetBody d param s =
      signThen d param.Account.PrivateKey (fun nonce => decimal param.AssetId ++ decimal nonce)
        (fun sig nonce => ⟨(transferAssetValues d param sig nonce).Encode, none⟩) s := by
  simp only [genTransferAssetBody, GenNonce, XassetSignECDSA, signThen, afterSign]
  cases d.signECDSA param.Account.PrivateKey
    (decimal param.AssetId ++ decimal (d.nonceAt s.draws)) <;> simp

theorem genFreezeAssetBody_eq (d : Deps) (param : FreezeAssetParam) (s : St) :
    genFreezeAssetBody d param s =
      signThen d param.Account.PrivateKey (fun nonce => decimal param.AssetId ++ decimal nonce)
        (fun sig nonce => ⟨(freezeAssetValues param sig nonce).Encode, none⟩) s := by
  simp only [genFreezeAssetBody, GenNonce, XassetSignECDSA, signThen, afterSign]
  cases d.signECDSA param.Account.PrivateKey
    (decimal param.AssetId ++ decimal (d.nonceAt s.draws)) <;> simp

theorem genLockShardBody_eq (d : Deps) (param : LockOrFreezeShardParam) (s : St) :
    genLockShardBody d param s =
      signThen d param.Account.PrivateKey (fun nonce => decimal param.AssetId ++ decimal nonce)
        (fun sig nonce => ⟨(lockShardValues param sig nonce).Encode, none⟩) s := by
  simp only [genLockShardBody, GenNonce, XassetSignECDSA, signThen, afterSign]
  cases d.signECDSA param.Account.PrivateKey
    (decimal param.AssetId ++ decimal (d.nonceAt s.draws)) <;> simp

theorem genFreezeShardBody_eq (d : Deps) (param : LockOrFreezeShardParam) (s : St) :
    genFreezeShardBody d param s =
      signThen d param.Account.PrivateKey (fun nonce => decimal param.AssetId ++ decimal nonce)
        (fun sig nonce => ⟨(freezeShardValues param sig nonce).Encode, none⟩) s := by
  simp only [genFreezeShardBody, GenNonce, XassetSignECDSA, signThen, afterSign]
  cases d.signECDSA param.Account.PrivateKey
    (decimal param.AssetId ++ decimal (d.nonceAt s.draws)) <;> simp

/-- What `genAlterAssetBody` returns once the signature `sig` is available. -/
theorem genAlterAssetBody_eq (d : Deps) (param : AlterAssetParam) (s : St) :
    genAlterAssetBody d param s =
      signThen d param.Account.PrivateKey (fun nonce => decimal param.AssetId ++ decimal nonce)
        (fun sig nonce =>
          if (d.AlterAssetInfoValid param.AssetInfo).isNone then
            match d.marshalAssetInfo param.AssetInfo with
            | none => ⟨"", some Error.ComErrJsonMarFailed⟩
            | some assetInfo =>
              ⟨(alterAssetFileHash param
                ((alterAssetValues d param sig nonce).Set "asset_info" assetInfo)).Encode, none⟩
          else ⟨(alterAssetFileHash param (alterAssetValues d param sig nonce)).Encode, none⟩)
        s := by
  simp only [genAlterAssetBody, GenNonce, XassetSignECDSA, signThen, afterSign]
  cases d.signECDSA param.Account.PrivateKey
    (decimal param.AssetId ++ decimal (d.nonceAt s.draws)) with
  | none => simp
  | some sig =>
    by_cases hv : (d.AlterAssetInfoValid param.AssetInfo).isNone = true
    · cases hm : d.marshalAssetInfo param.AssetInfo <;> simp [hv, hm]
    · simp [hv]

/-- The state `genCreateAssetBody` ends in, whatever the outcome of signing. -/
theorem genCreateAssetBody_snd (d : Deps) (appid : Int) (param : CreateAssetParam) (s : St) :
    (genCreateAssetBody d appid param s).2 =
      { draws := s.draws + 1,
        trace := s.trace ++ [Event.nonce (d.nonceAt s.draws)] ++
          (if param.AssetId = 0 then [Event.assetId appid (d.genAssetId appid)] else []) ++
          [Event.sign param.Account.PrivateKey
            (decimal (createAssetIdOf d appid param) ++ decimal (d.nonceAt s.draws))
            (d.signECDSA param.Account.PrivateKey
              (decimal (createAssetIdOf d appid param) ++ decimal (d.nonceAt s.draws))).isSome] } := by
  simp only [genCreateAssetBody, GenNonce, XassetSignECDSA, GenAssetId, createAssetIdOf]
  by_cases h0 : param.AssetId = 0
  · simp only [h0, if_true]
    cases d.signECDSA param.Account.PrivateKey
      (decimal (d.genAssetId appid) ++ decimal (d.nonceAt s.draws)) with
    | none => simp
    | some sig => cases d.marshalAssetInfo param.AssetInfo <;> simp
  · simp only [h0, if_false]
    cases d.signECDSA param.Account.PrivateKey
      (decimal param.AssetId ++ decimal (d.nonceAt s.draws)) with
    | none => simp
    | some sig => cases d.marshalAssetInfo param.AssetInfo <;> simp

theorem genCreateAssetBody_fst (d : Deps) (appid : Int) (param : CreateAssetParam) (s : St) :
    (genCreateAssetBody d appid param s).1 =
      match d.signECDSA param.Account.PrivateKey
          (decimal (createAssetIdOf d appid param) ++ decimal (d.nonceAt s.draws)) with
      | none => ⟨"", some Error.ComErrAccountSignFailed⟩
      | some sig =>
        match d.marshalAssetInfo param.AssetInfo with
        | none => ⟨"", some Error.ComErrJsonMarFailed⟩
        | some assetInfo =>
          ⟨(createAssetValues d param (createAssetIdOf d appid param) sig
            (d.nonceAt s.draws) assetInfo).Encode, none⟩ := by
  simp only [genCreateAssetBody, GenNonce, XassetSignECDSA, GenAssetId, createAssetIdOf]
  by_cases h0 : param.AssetId = 0
  · simp only [h0, if_true]
    cases d.signECDSA param.Account.PrivateKey
      (decimal (d.genAssetId appid) ++ decimal (d.nonceAt s.draws)) with
    | none => simp
    | some sig => cases d.marshalAssetInfo param.AssetInfo <;> simp
  · simp only [h0, if_false]
    cases d.signECDSA param.Account.PrivateKey
      (decimal param.AssetId ++ decimal (d.nonceAt s.draws)) with
    | none => simp
    | some sig => cases d.marshalAssetInfo param.AssetInfo <;> simp

theorem genCreateAssetBody_newSignCalls (d : Deps) (appid : Int) (param : CreateAssetParam)
    (s : St) :
    newSignCalls s (genCreateAssetBody d appid param s).2 =
      [(param.Account.PrivateKey,
        decimal (createAssetIdOf d appid param) ++ decimal (d.nonceAt s.draws),
        (d.signECDSA param.Account.PrivateKey
          (decimal (createAssetIdOf d appid param) ++ decimal (d.nonceAt s.draws))).isSome)] := by
  rw [genCreateAssetBody_snd]
  by_cases h0 : param.AssetId = 0 <;> simp [newSignCalls, signCalls, h0]

theorem genCreateAssetBody_posts (d : Deps) (appid : Int) (param : CreateAssetParam) (s : St) :
    posts (genCreateAssetBody d appid param s).2.trace = posts s.trace := by
  rw [genCreateAssetBody_snd]
  by_cases h0 : param.AssetId = 0 <;> simp [posts, h0]

/-- The state `genGrantAssetBody` ends in. -/
theorem genGrantAssetBody_snd (d : Deps) (appid : Int) (param : GrantAssetParam) (s : St) :
    (genGrantAssetBody d appid param s).2 =
      match d.signECDSA param.Account.PrivateKey
          (decimal param.AssetId ++ decimal (d.nonceAt s.draws)) with
      | none =>
        afterSign d param.Account.PrivateKey
          (decimal param.AssetId ++ decimal (d.nonceAt s.draws)) s
      | some _ =>
        if param.ShardId < 1 then
          { draws := s.draws + 2,
            trace := (afterSign d param.Account.PrivateKey
              (decimal param.AssetId ++ decimal (d.nonceAt s.draws)) s).trace ++
              [Event.nonce (d.nonceAt (s.draws + 1))] }
        else
          afterSign d param.Account.PrivateKey
            (decimal param.AssetId ++ decimal (d.nonceAt s.draws)) s := by
  simp only [genGrantAssetBody, GenNonce, XassetSignECDSA, afterSign]
  cases hs : d.signECDSA param.Account.PrivateKey
    (decimal param.AssetId ++ decimal (d.nonceAt s.draws)) with
  | none => simp
  | some sig => by_cases h1 : param.ShardId < 1 <;> simp [h1]

theorem genGrantAssetBody_fst (d : Deps) (appid : Int) (param : GrantAssetParam) (s : St) :
    (genGrantAssetBody d appid param s).1 =
      match d.signECDSA param.Account.PrivateKey
          (decimal param.AssetId ++ decimal (d.nonceAt s.draws)) with
      | none => ⟨"", some Error.ComErrAccountSignFailed⟩
      | some sig =>
        ⟨(grantAssetValues d param
          (if param.ShardId < 1 then d.nonceAt (s.draws + 1) else param.ShardId) sig
          (d.nonceAt s.draws)).Encode, none⟩ := by
  simp only [genGrantAssetBody, GenNonce, XassetSignECDSA]
  cases hs : d.signECDSA param.Account.PrivateKey
    (decimal param.AssetId ++ decimal (d.nonceAt s.draws)) with
  | none => simp
  | some sig => by_cases h1 : param.ShardId < 1 <;> simp [h1]

theorem genGrantAssetBody_newSignCalls (d : Deps) (appid : Int) (param : GrantAssetParam)
    (s : St) :
    newSignCalls s (genGrantAssetBody d appid param s).2 =
      [(param.Account.PrivateKey, decimal param.AssetId ++ decimal (d.nonceAt s.draws),
        (d.signECDSA param.Account.PrivateKey
          (decimal param.AssetId ++ decimal (d.nonceAt s.draws))).isSome)] := by
  rw [genGrantAssetBody_snd]
  cases hs : d.signECDSA param.Account.PrivateKey
    (decimal param.AssetId ++ decimal (d.nonceAt s.draws)) with
  | none => simp [newSignCalls, afterSign, signCalls, hs]
  | some sig =>
    by_cases h1 : param.ShardId < 1 <;> simp [newSignCalls, afterSign, signCalls, hs, h1]

theorem genGrantAssetBody_posts (d : Deps) (appid : Int) (param : GrantAssetParam) (s : St) :
    posts (genGrantAssetBody d appid param s).2.trace = posts s.trace := by
  rw [genGrantAssetBody_snd]
  cases hs : d.signECDSA param.Account.PrivateKey
    (decimal param.AssetId ++ decimal (d.nonceAt s.draws)) with
  | none => simp [afterSign, posts]
  | some sig => by_cases h1 : param.ShardId < 1 <;> simp [afterSign, posts, h1]

theorem genGrantBoxBody_eq (d : Deps) (param : GrantBoxParam) (s : St) :
    genGrantBoxBody d param s =
      match d.signECDSA param.UAccount.PrivateKey
          (decimal param.BoxAssetId ++ decimal (d.nonceAt s.draws)) with
      | none =>
        (⟨"", some Error.ComErrAccountSignFailed⟩,
          afterSign d param.UAccount.PrivateKey
            (decimal param.BoxAssetId ++ decimal (d.nonceAt s.draws)) s)
      | some uSign =>
        match d.signECDSA param.CAccount.PrivateKey
            (decimal param.RealAssetId ++ decimal (d.nonceAt (s.draws + 1))) with
        | none =>
          (⟨"", some Error.ComErrAccountSignFailed⟩,
            afterSign d param.CAccount.PrivateKey
              (decimal param.RealAssetId ++ decimal (d.nonceAt (s.draws + 1)))
              (afterSign d param.UAccount.PrivateKey
                (decimal param.BoxAssetId ++ decimal (d.nonceAt s.draws)) s))
        | some cSign =>
          (⟨(grantBoxValues param uSign cSign (d.nonceAt s.draws)
              (d.nonceAt (s.draws + 1))).Encode, none⟩,
            afterSign d param.CAccount.PrivateKey
              (decimal param.RealAssetId ++ decimal (d.nonceAt (s.draws + 1)))
              (afterSign d param.UAccount.PrivateKey
                (decimal param.BoxAssetId ++ decimal (d.nonceAt s.draws)) s)) := by
  simp only [genGrantBoxBody, GenNonce, XassetSignECDSA, afterSign]
  cases hu : d.signECDSA param.UAccount.PrivateKey
    (decimal param.BoxAssetId ++ decimal (d.nonceAt s.draws)) with
  | none => simp
  | some uSign =>
    cases hc : d.signECDSA param.CAccount.PrivateKey
      (decimal param.RealAssetId ++ decimal (d.nonceAt (s.draws + 1))) <;> simp [hc]

theorem expectedNodes_length (d : Deps) (key : String) (k : Nat) (shards : List AssetShardPair) :
    (expectedNodes d key k shards).length = shards.length := by
  induction shards generalizing k with
  | nil => rfl
  | cons shard rest ih => simp [expectedNodes, ih]

theorem expectedNodes_getElem? (d : Deps) (key : String) (k i : Nat)
    (shards : List AssetShardPair) :
    (expectedNodes d key k shards)[i]? =
      (shards[i]?).map (fun shard =>
        nodeOf shard (d.nonceAt (k + i))
          ((d.signECDSA key (decimal shard.AssetId ++ decimal (d.nonceAt (k + i)))).getD "")) := by
  induction shards generalizing k i with
  | nil => simp [expectedNodes]
  | cons shard rest ih =>
    cases i with
    | zero => simp [expectedNodes]
    | succ j =>
      simp only [expectedNodes, List.getElem?_cons_succ, ih]
      have : k + 1 + j = k + (j + 1) := by omega
      rw [this]

theorem allSigned_of_index (d : Deps) (key : String) (k : Nat) (shards : List AssetShardPair)
    (h : ∀ i (hi : i < shards.length),
      (d.signECDSA key (decimal shards[i].AssetId ++ decimal (d.nonceAt (k + i)))).isSome
        = true) :
    AllSigned d key k shards := by
  induction shards generalizing k with
  | nil => trivial
  | cons shard rest ih =>
    refine ⟨?_, ih (k + 1) ?_⟩
    · simpa using h 0 (by simp)
    · intro i hi
      have := h (i + 1) (by simpa using hi)
      have e : k + 1 + i = k + (i + 1) := by omega
      rw [e]
      simpa using this

/-- The loop of `genComposeShardBody` when every signing call succeeds. -/
theorem composeLoop_ok (d : Deps) (key : String) (shards : List AssetShardPair)
    (acc : List ConsumeNode) (s : St) (h : AllSigned d key s.draws shards) :
    (composeLoop d key shards acc s).1 = some (acc ++ expectedNodes d key s.draws shards) ∧
      (composeLoop d key shards acc s).2.draws = s.draws + shards.length ∧
      nonces (composeLoop d key shards acc s).2.trace =
        nonces s.trace ++ (List.range shards.length).map (fun i => d.nonceAt (s.draws + i)) ∧
      signCalls (composeLoop d key shards acc s).2.trace =
        signCalls s.trace ++ expectedCalls d key s.draws shards ∧
      posts (composeLoop d key shards acc s).2.trace = posts s.trace := by
  induction shards generalizing acc s with
  | nil => simp [composeLoop, expectedNodes, expectedCalls]
  | cons shard rest ih =>
    obtain ⟨h0, hrest⟩ := h
    obtain ⟨sig, hsig⟩ := Option.isSome_iff_exists.mp h0
    simp only [composeLoop, GenNonce, XassetSignECDSA, hsig]
    have := ih (acc ++ [nodeOf shard (d.nonceAt s.draws) sig])
      (⟨s.draws + 1, s.trace ++ [Event.nonce (d.nonceAt s.draws)] ++
          [Event.sign key (decimal shard.AssetId ++ decimal (d.nonceAt s.draws))
            (some sig).isSome]⟩ : St) hrest
    simp only [nodeOf] at this
    obtain ⟨a1, a2, a3, a4, a5⟩ := this
    refine ⟨?_, ?_, ?_, ?_, ?_⟩
    · rw [a1]; simp [expectedNodes, nodeOf, hsig]
    · rw [a2]; simp; omega
    · rw [a3]
      simp only [nonces_append, nonces, List.append_nil, List.append_assoc, List.length_cons]
      rw [List.range_succ_eq_map]
      simp [Function.comp_def, Nat.add_assoc, Nat.add_comm 1]
    · rw [a4]; simp [signCalls, expectedCalls]
    · rw [a5]; simp [posts]

/-- The loop of `genComposeShardBody` in general: it posts nothing, and it returns a
list exactly when none of its signing calls failed. -/
theorem composeLoop_calls (d : Deps) (key : String) (shards : List AssetShardPair)
    (acc : List ConsumeNode) (s : St) :
    posts (composeLoop d key shards acc s).2.trace = posts s.trace ∧
      ∃ calls, signCalls (composeLoop d key shards acc s).2.trace = signCalls s.trace ++ calls ∧
        ((composeLoop d key shards acc s).1 ≠ none → ∀ c ∈ calls, c.2.2 = true) := by
  induction shards generalizing acc s with
  | nil => exact ⟨rfl, [], by simp [composeLoop], by simp⟩
  | cons shard rest ih =>
    simp only [composeLoop, GenNonce, XassetSignECDSA]
    cases hsig : d.signECDSA key (decimal shard.AssetId ++ decimal (d.nonceAt s.draws)) with
    | none =>
      refine ⟨by simp [posts], [(key, decimal shard.AssetId ++ decimal (d.nonceAt s.draws), false)],
        by simp [signCalls], by simp⟩
    | some sig =>
      have := ih (acc ++ [nodeOf shard (d.nonceAt s.draws) sig])
        (⟨s.draws + 1, s.trace ++ [Event.nonce (d.nonceAt s.draws)] ++
            [Event.sign key (decimal shard.AssetId ++ decimal (d.nonceAt s.draws))
              (some sig).isSome]⟩ : St)
      simp only [nodeOf] at this
      obtain ⟨hp, calls, hc, hall⟩ := this
      refine ⟨by rw [hp]; simp [posts],
        (key, decimal shard.AssetId ++ decimal (d.nonceAt s.draws), true) :: calls, ?_, ?_⟩
      · rw [hc]; simp [signCalls]
      · intro hne c hcmem
        rcases List.mem_cons.mp hcmem with rfl | hmem
        · rfl
        · exact hall hne c hmem

/-! ## Lemmas on the operations -/

theorem postAndClassify_snd (d : Deps) (api : Api) (body : String) (s : St) :
    (postAndClassify d api body s).2 = { s with trace := s.trace ++ [Event.post api body] } := by
  simp only [postAndClassify, Post]
  cases d.postReply api body with
  | none => rfl
  | some res =>
    by_cases hc : res.HttpCode = 200
    · cases hu : d.unmarshal api res.Body with
      | none => simp [hc, hu]
      | some resp => by_cases he : resp.Errno = d.XassetErrNoSucc <;> simp [hc, hu, he]
    · simp [hc]

theorem postAndClassify_fst (d : Deps) (api : Api) (body : String) (s : St) :
    (postAndClassify d api body s).1 =
      match d.postReply api body with
      | none => ⟨none, none, some Error.ComErrRequsetFailed⟩
      | some res =>
        if res.HttpCode ≠ 200 then ⟨none, none, some Error.ComErrRespCodeErr⟩
        else
          match d.unmarshal api res.Body with
          | none => ⟨none, some res, some Error.ComErrUnmarshalBodyFailed⟩
          | some resp =>
            if resp.Errno ≠ d.XassetErrNoSucc then
              ⟨none, some res, some Error.ComErrServRespErrnoErr⟩
            else ⟨some resp, some res, none⟩ := by
  simp only [postAndClassify, Post]
  cases d.postReply api body with
  | none => rfl
  | some res =>
    by_cases hc : res.HttpCode = 200
    · cases hu : d.unmarshal api res.Body with
      | none => simp [hc, hu]
      | some resp => by_cases he : resp.Errno = d.XassetErrNoSucc <;> simp [hc, hu, he]
    · simp [hc]

theorem runOp_valid_none (gen : St → BodyRet × St) (d : Deps) (api : Api) (s : St)
    (hb : (gen s).1.err = none) :
    runOp none gen d api s = postAndClassify d api (gen s).1.body (gen s).2 := by
  simp [runOp, hb]

theorem runOp_gen_err (gen : St → BodyRet × St) (d : Deps) (api : Api) (s : St) (e : Error)
    (hb : (gen s).1.err = some e) :
    runOp none gen d api s = (⟨none, none, some e⟩, (gen s).2) := by
  simp [runOp, hb]

/-- A signing failure inside the body builder aborts the operation before anything is
posted, provided the builder itself answers a signing failure with
`ComErrAccountSignFailed` and posts nothing. -/
theorem runOp_signFailureAborts (valid : Option Error) (gen : St → BodyRet × St) (d : Deps)
    (api : Api) (s : St)
    (hgen : failedSign s (gen s).2 → (gen s).1 = ⟨"", some Error.ComErrAccountSignFailed⟩)
    (hposts : posts (gen s).2.trace = posts s.trace) :
    SignFailureAborts s (gen s) (runOp valid gen d api s) := by
  refine ⟨hgen, ?_⟩
  intro hf
  cases valid with
  | some e => exact absurd hf (not_failedSign_self s)
  | none =>
    cases hb : (gen s).1.err with
    | some e =>
      rw [runOp_gen_err gen d api s e hb] at hf ⊢
      have := hgen hf
      rw [this] at hb
      simp only [Option.some.injEq] at hb
      subst hb
      exact ⟨rfl, hposts⟩
    | none =>
      rw [runOp_valid_none gen d api s hb] at hf
      have hf' : failedSign s (gen s).2 := by
        obtain ⟨k, m, hm⟩ := hf
        refine ⟨k, m, ?_⟩
        simpa [newSignCalls, postAndClassify_snd, signCalls] using hm
      have := hgen hf'
      rw [this] at hb
      simp at hb

/-! ## Claims -/

/-- C1 (the code departs from the claim): `ListAssetHistory` reports an HTTP-200 reply
whose decoded errno is 40001, not the success sentinel 0, as success (nil error and a
non-nil response), while `GetStoken` on the very same reply returns
`ComErrServRespErrnoErr`. -/
theorem ListAssetHistory_reports_rejection_as_success :
    (sampleDeps (some (replyOf 200 "\x7b\"errno\":40001\x7d"))
        (some ⟨"req-1", 40001, ""⟩)).XassetErrNoSucc = 0 ∧
      (ListAssetHistory
        (sampleDeps (some (replyOf 200 "\x7b\"errno\":40001\x7d")) (some ⟨"req-1", 40001, ""⟩))
        ⟨5, 1, 10, 0⟩ St.init).1.err = none ∧
      (ListAssetHistory
        (sampleDeps (some (replyOf 200 "\x7b\"errno\":40001\x7d")) (some ⟨"req-1", 40001, ""⟩))
        ⟨5, 1, 10, 0⟩ St.init).1.resp = some ⟨"req-1", 40001, ""⟩ ∧
      (GetStoken
        (sampleDeps (some (replyOf 200 "\x7b\"errno\":40001\x7d")) (some ⟨"req-1", 40001, ""⟩))
        ⟨alice⟩ St.init).1.err = some Error.ComErrServRespErrnoErr := by
  refine ⟨rfl, ?_, ?_, ?_⟩
  · decide
  · decide
  · decide

/-- C2: reply classification in `CreateAsset` is sequential and decided by the first
failing check. Once the parameter is valid and the body is built, a failed Post gives
`ComErrRequsetFailed`; otherwise a status other than 200 gives `ComErrRespCodeErr`
whatever the body decodes to; otherwise a body that does not decode gives
`ComErrUnmarshalBodyFailed`; otherwise an errno other than `XassetErrNoSucc` gives
`ComErrServRespErrnoErr`; otherwise the error is nil. The returned error is always one of
these five outcomes. -/
theorem CreateAsset_classification (d : Deps) (param : CreateAssetParam) (s : St)
    (hv : d.validCreateAsset param = none)
    (hb : (genCreateAssetBody d d.AppId param s).1.err = none) :
    (d.postReply Api.AssetApiCreate (genCreateAssetBody d d.AppId param s).1.body = none →
        (CreateAsset d param s).1.err = some Error.ComErrRequsetFailed) ∧
      (∀ res,
        d.postReply Api.AssetApiCreate (genCreateAssetBody d d.AppId param s).1.body = some res →
        res.HttpCode ≠ 200 →
        (CreateAsset d param s).1.err = some Error.ComErrRespCodeErr) ∧
      (∀ res,
        d.postReply Api.AssetApiCreate (genCreateAssetBody d d.AppId param s).1.body = some res →
        res.HttpCode = 200 → d.unmarshal Api.AssetApiCreate res.Body = none →
        (CreateAsset d param s).1.err = some Error.ComErrUnmarshalBodyFailed) ∧
      (∀ res resp,
        d.postReply Api.AssetApiCreate (genCreateAssetBody d d.AppId param s).1.body = some res →
        res.HttpCode = 200 → d.unmarshal Api.AssetApiCreate res.Body = some resp →
        resp.Errno ≠ d.XassetErrNoSucc →
        (CreateAsset d param s).1.err = some Error.ComErrServRespErrnoErr) ∧
      (∀ res resp,
        d.postReply Api.AssetApiCreate (genCreateAssetBody d d.AppId param s).1.body = some res →
        res.HttpCode = 200 → d.unmarshal Api.AssetApiCreate res.Body = some resp →
        resp.Errno = d.XassetErrNoSucc →
        (CreateAsset d param s).1.err = none) ∧
      ((CreateAsset d param s).1.err = some Error.ComErrRequsetFailed ∨
        (CreateAsset d param s).1.err = some Error.ComErrRespCodeErr ∨
        (CreateAsset d param s).1.err = some Error.ComErrUnmarshalBodyFailed ∨
        (CreateAsset d param s).1.err = some Error.ComErrServRespErrnoErr ∨
        (CreateAsset d param s).1.err = none) := by
  have hrun : (CreateAsset d param s).1 =
      (postAndClassify d Api.AssetApiCreate (genCreateAssetBody d d.AppId param s).1.body
        (genCreateAssetBody d d.AppId param s).2).1 := by
    simp only [CreateAsset, hv]
    rw [runOp_valid_none _ d _ s hb]
  rw [hrun, postAndClassify_fst]
  refine ⟨?_, ?_, ?_, ?_, ?_, ?_⟩
  · intro h; simp [h]
  · intro res h hc; simp [h, hc]
  · intro res h hc hu; simp [h, hc, hu]
  · intro res resp h hc hu he; simp [h, hc, hu, he]
  · intro res resp h hc hu he; simp [h, hc, hu, he]
  · cases h : d.postReply Api.AssetApiCreate (genCreateAssetBody d d.AppId param s).1.body with
    | none => simp
    | some res =>
      by_cases hc : res.HttpCode = 200
      · cases hu : d.unmarshal Api.AssetApiCreate res.Body with
        | none => simp [hc, hu]
        | some resp => by_cases he : resp.Errno = d.XassetErrNoSucc <;> simp [hc, hu, he]
      · simp [hc]

/-- Witness for C2: HTTP 500 with a body that decodes to a success reply is still
classified as `ComErrRespCodeErr`. -/
theorem CreateAsset_classification_witness :
    (sampleDeps (some (replyOf 500 "ok")) (some ⟨"req-1", 0, ""⟩)).validCreateAsset
        ⟨5, 1, 1, "info", alice, 0, "", 0, ""⟩ = none ∧
      (genCreateAssetBody (sampleDeps (some (replyOf 500 "ok")) (some ⟨"req-1", 0, ""⟩)) 7
        ⟨5, 1, 1, "info", alice, 0, "", 0, ""⟩ St.init).1.err = none ∧
      (CreateAsset (sampleDeps (some (replyOf 500 "ok")) (some ⟨"req-1", 0, ""⟩))
        ⟨5, 1, 1, "info", alice, 0, "", 0, ""⟩ St.init).1.err = some Error.ComErrRespCodeErr :=
  ⟨rfl, by decide,
    (CreateAsset_classification (sampleDeps (some (replyOf 500 "ok")) (some ⟨"req-1", 0, ""⟩))
      ⟨5, 1, 1, "info", alice, 0, "", 0, ""⟩ St.init rfl (by decide)).2.1
      (replyOf 500 "ok") rfl (by decide)⟩

/-- C3 as stated fails: two HTTP-200 replies that decode to different error codes (40001
and 40002) and different request ids make `CreateAsset` return the same error value, so
the error carries neither the remote code nor the request id. -/
theorem CreateAsset_error_does_not_carry_code :
    (CreateAsset (sampleDeps (some (replyOf 200 "a")) (some ⟨"req-1", 40001, ""⟩))
        ⟨5, 1, 1, "info", alice, 0, "", 0, ""⟩ St.init).1.err =
      (CreateAsset (sampleDeps (some (replyOf 200 "b")) (some ⟨"req-2", 40002, ""⟩))
        ⟨5, 1, 1, "info", alice, 0, "", 0, ""⟩ St.init).1.err ∧
      (CreateAsset (sampleDeps (some (replyOf 200 "a")) (some ⟨"req-1", 40001, ""⟩))
        ⟨5, 1, 1, "info", alice, 0, "", 0, ""⟩ St.init).1.err =
        some Error.ComErrServRespErrnoErr := by
  constructor <;> decide

/-- C3 amended: for an HTTP-200 reply that decodes with an errno different from
`XassetErrNoSucc`, `CreateAsset` returns the fixed value `ComErrServRespErrnoErr`
whatever the errno and request id are, with a nil typed response and the raw reply
`res` (whose body holds the remote code and request id). -/
theorem CreateAsset_rejection_returns_sentinel (d : Deps) (param : CreateAssetParam) (s : St)
    (res : RequestRes) (resp : Resp)
    (hv : d.validCreateAsset param = none)
    (hb : (genCreateAssetBody d d.AppId param s).1.err = none)
    (hp : d.postReply Api.AssetApiCreate (genCreateAssetBody d d.AppId param s).1.body =
      some res)
    (hc : res.HttpCode = 200)
    (hu : d.unmarshal Api.AssetApiCreate res.Body = some resp)
    (he : resp.Errno ≠ d.XassetErrNoSucc) :
    (CreateAsset d param s).1 = ⟨none, some res, some Error.ComErrServRespErrnoErr⟩ := by
  simp only [CreateAsset, hv]
  rw [runOp_valid_none _ d _ s hb, postAndClassify_fst]
  simp [hp, hc, hu, he]

/-- Witness for the amended C3, at errno 40001 and request id `req-1`. -/
theorem CreateAsset_rejection_returns_sentinel_witness :
    (CreateAsset (sampleDeps (some (replyOf 200 "a")) (some ⟨"req-1", 40001, ""⟩))
        ⟨5, 1, 1, "info", alice, 0, "", 0, ""⟩ St.init).1 =
      ⟨none, some (replyOf 200 "a"), some Error.ComErrServRespErrnoErr⟩ :=
  CreateAsset_rejection_returns_sentinel
    (sampleDeps (some (replyOf 200 "a")) (some ⟨"req-1", 40001, ""⟩))
    ⟨5, 1, 1, "info", alice, 0, "", 0, ""⟩ St.init (replyOf 200 "a") ⟨"req-1", 40001, ""⟩
    rfl (by decide) rfl (by decide) rfl (by decide)

theorem signThen_singleSigned (d : Deps) (key : String) (msgOf : Int → String)
    (k : String → Int → BodyRet) (s : St) (fields : Values → Prop)
    (hk : ∀ sig, (k sig (d.nonceAt s.draws)).err = none →
      ∃ v, (k sig (d.nonceAt s.draws)).body = v.Encode ∧ v.Get "sign" = sig ∧ fields v) :
    SingleSigned d key (msgOf (d.nonceAt s.draws)) s (signThen d key msgOf k s) fields := by
  refine ⟨by rw [signThen_snd, newSignCalls_afterSign], ?_⟩
  intro herr
  cases hs : d.signECDSA key (msgOf (d.nonceAt s.draws)) with
  | none => rw [signThen_fail d key msgOf k s hs] at herr; simp at herr
  | some sig =>
    rw [signThen_ok d key msgOf k s sig hs] at herr ⊢
    obtain ⟨v, hv1, hv2, hv3⟩ := hk sig herr
    exact ⟨sig, v, rfl, hv1, hv2, hv3⟩

theorem getStokenValues_fields (param : GetStokenParam) (sig : String) (n : Int) :
    (getStokenValues param sig n).Get "sign" = sig ∧
      (getStokenValues param sig n).Get "nonce" = decimal n := by
  simp [getStokenValues, Values.Get_Set_ne]

theorem createAssetValues_fields (d : Deps) (param : CreateAssetParam) (a : Int) (sig : String)
    (n : Int) (info : String) :
    (createAssetValues d param a sig n info).Get "sign" = sig ∧
      carriesIdAndNonce a n (createAssetValues d param a sig n info) := by
  unfold createAssetValues carriesIdAndNonce
  by_cases h1 : (d.IdValid param.UserId).isNone = true <;>
    by_cases h2 : param.FileHash = "" <;> simp [h1, h2, Values.Get_Set_ne]

theorem alterAssetValues_fields (d : Deps) (param : AlterAssetParam) (sig : String) (n : Int) :
    (alterAssetValues d param sig n).Get "sign" = sig ∧
      carriesIdAndNonce param.AssetId n (alterAssetValues d param sig n) := by
  unfold alterAssetValues carriesIdAndNonce
  by_cases h1 : (d.PriceInvalid param.Price).isNone = true <;>
    by_cases h2 : (d.AmountInvalid param.Amount).isNone = true <;>
    by_cases h3 : (d.AmountInvalid param.ViewType).isNone = true <;>
    simp [h1, h2, h3, Values.Get_Set_ne]

theorem alterAssetFileHash_fields (param : AlterAssetParam) (v : Values) :
    (alterAssetFileHash param v).Get "sign" = v.Get "sign" ∧
      (alterAssetFileHash param v).Get "asset_id" = v.Get "asset_id" ∧
      (alterAssetFileHash param v).Get "nonce" = v.Get "nonce" := by
  unfold alterAssetFileHash
  by_cases h : param.FileHash = "" <;> simp [h, Values.Get_Set_ne]

theorem publishAssetValues_fields (param : PublishAssetParam) (sig : String) (n : Int) :
    (publishAssetValues param sig n).Get "sign" = sig ∧
      carriesIdAndNonce param.AssetId n (publishAssetValues param sig n) := by
  simp [publishAssetValues, carriesIdAndNonce, Values.Get_Set_ne]

theorem grantAssetValues_fields (d : Deps) (param : GrantAssetParam) (shardId : Int)
    (sig : String) (n : Int) :
    (grantAssetValues d param shardId sig n).Get "sign" = sig ∧
      carriesIdAndNonce param.AssetId n (grantAssetValues d param shardId sig n) := by
  unfold grantAssetValues carriesIdAndNonce
  by_cases h1 : (d.IdValid param.ToUserId).isNone = true <;> simp [h1, Values.Get_Set_ne]

theorem transferAssetValues_fields (d : Deps) (param : TransferAssetParam) (sig : String)
    (n : Int) :
    (transferAssetValues d param sig n).Get "sign" = sig ∧
      carriesIdAndNonce param.AssetId n (transferAssetValues d param sig n) := by
  unfold transferAssetValues carriesIdAndNonce
  by_cases h1 : (d.IdValid param.ToUserId).isNone = true <;> simp [h1, Values.Get_Set_ne]

theorem freezeAssetValues_fields (param : FreezeAssetParam) (sig : String) (n : Int) :
    (freezeAssetValues param sig n).Get "sign" = sig ∧
      carriesIdAndNonce param.AssetId n (freezeAssetValues param sig n) := by
  simp [freezeAssetValues, carriesIdAndNonce, Values.Get_Set_ne]

theorem lockShardValues_fields (param : LockOrFreezeShardParam) (sig : String) (n : Int) :
    (lockShardValues param sig n).Get "sign" = sig ∧
      carriesIdAndNonce param.AssetId n (lockShardValues param sig n) := by
  simp [lockShardValues, carriesIdAndNonce, Values.Get_Set_ne]

theorem freezeShardValues_fields (param : LockOrFreezeShardParam) (sig : String) (n : Int) :
    (freezeShardValues param sig n).Get "sign" = sig ∧
      carriesIdAndNonce param.AssetId n (freezeShardValues param sig n) := by
  simp [freezeShardValues, carriesIdAndNonce, Values.Get_Set_ne]

theorem genAlterAssetBody_singleSigned (d : Deps) (param : AlterAssetParam) (s : St) :
    SingleSigned d param.Account.PrivateKey
      (decimal param.AssetId ++ decimal (d.nonceAt s.draws)) s (genAlterAssetBody d param s)
      (carriesIdAndNonce param.AssetId (d.nonceAt s.draws)) := by
  rw [genAlterAssetBody_eq]
  apply signThen_singleSigned d param.Account.PrivateKey
    (fun nonce => decimal param.AssetId ++ decimal nonce)
  intro sig herr
  have hA := alterAssetValues_fields d param sig (d.nonceAt s.draws)
  by_cases hv : (d.AlterAssetInfoValid param.AssetInfo).isNone = true
  · simp only [hv, if_true] at herr ⊢
    cases hm : d.marshalAssetInfo param.AssetInfo with
    | none => rw [hm] at herr; simp at herr
    | some info =>
      refine ⟨_, rfl, ?_, ?_, ?_⟩
      · rw [(alterAssetFileHash_fields param _).1, Values.Get_Set_ne _ _ _ _ (by decide)]
        exact hA.1
      · rw [(alterAssetFileHash_fields param _).2.1, Values.Get_Set_ne _ _ _ _ (by decide)]
        exact hA.2.1
      · rw [(alterAssetFileHash_fields param _).2.2, Values.Get_Set_ne _ _ _ _ (by decide)]
        exact hA.2.2
  · simp only [hv] at herr ⊢
    refine ⟨_, rfl, ?_, ?_, ?_⟩
    · rw [(alterAssetFileHash_fields param _).1]; exact hA.1
    · rw [(alterAssetFileHash_fields param _).2.1]; exact hA.2.1
    · rw [(alterAssetFileHash_fields param _).2.2]; exact hA.2.2

theorem genCreateAssetBody_singleSigned (d : Deps) (appid : Int) (param : CreateAssetParam)
    (s : St) :
    SingleSigned d param.Account.PrivateKey
      (decimal (createAssetIdOf d appid param) ++ decimal (d.nonceAt s.draws)) s
      (genCreateAssetBody d appid param s)
      (carriesIdAndNonce (createAssetIdOf d appid param) (d.nonceAt s.draws)) := by
  refine ⟨genCreateAssetBody_newSignCalls d appid param s, ?_⟩
  intro herr
  rw [genCreateAssetBody_fst] at herr ⊢
  cases hs : d.signECDSA param.Account.PrivateKey
    (decimal (createAssetIdOf d appid param) ++ decimal (d.nonceAt s.draws)) with
  | none => rw [hs] at herr; simp at herr
  | some sig =>
    cases hm : d.marshalAssetInfo param.AssetInfo with
    | none => rw [hs, hm] at herr; simp at herr
    | some info =>
      have hf := createAssetValues_fields d param (createAssetIdOf d appid param) sig
        (d.nonceAt s.draws) info
      exact ⟨sig, _, rfl, rfl, hf.1, hf.2⟩

theorem genGrantAssetBody_singleSigned (d : Deps) (appid : Int) (param : GrantAssetParam)
    (s : St) :
    SingleSigned d param.Account.PrivateKey
      (decimal param.AssetId ++ decimal (d.nonceAt s.draws)) s
      (genGrantAssetBody d appid param s)
      (carriesIdAndNonce param.AssetId (d.nonceAt s.draws)) := by
  refine ⟨genGrantAssetBody_newSignCalls d appid param s, ?_⟩
  intro herr
  rw [genGrantAssetBody_fst] at herr ⊢
  cases hs : d.signECDSA param.Account.PrivateKey
    (decimal param.AssetId ++ decimal (d.nonceAt s.draws)) with
  | none => rw [hs] at herr; simp at herr
  | some sig =>
    have hf := grantAssetValues_fields d param
      (if param.ShardId < 1 then d.nonceAt (s.draws + 1) else param.ShardId) sig
      (d.nonceAt s.draws)
    exact ⟨sig, _, rfl, rfl, hf.1, hf.2⟩

/-- C4: in every single-signer body builder the message handed to the signing primitive is
the decimal asset id immediately followed by the decimal text of the nonce drawn for the
call (for `genGetStokenBody` the decimal nonce alone), exactly one signing call is made,
with the account's private key, and a produced body encodes form fields whose `asset_id`
and `nonce` carry those two values and whose `sign` is the signature of that message. -/
theorem single_signer_message_and_fields (d : Deps) (s : St) :
    (∀ param : GetStokenParam,
      SingleSigned d param.Account.PrivateKey (decimal (GenNonce d s).1) s
        (genGetStokenBody d param s)
        (fun v => v.Get "nonce" = decimal (GenNonce d s).1)) ∧
    (∀ (appid : Int) (param : CreateAssetParam),
      SingleSigned d param.Account.PrivateKey
        (decimal (createAssetIdOf d appid param) ++ decimal (GenNonce d s).1) s
        (genCreateAssetBody d appid param s)
        (carriesIdAndNonce (createAssetIdOf d appid param) (GenNonce d s).1)) ∧
    (∀ param : AlterAssetParam,
      SingleSigned d param.Account.PrivateKey
        (decimal param.AssetId ++ decimal (GenNonce d s).1) s (genAlterAssetBody d param s)
        (carriesIdAndNonce param.AssetId (GenNonce d s).1)) ∧
    (∀ param : PublishAssetParam,
      SingleSigned d param.Account.PrivateKey
        (decimal param.AssetId ++ decimal (GenNonce d s).1) s (genPublishAssetBody d param s)
        (carriesIdAndNonce param.AssetId (GenNonce d s).1)) ∧
    (∀ (appid : Int) (param : GrantAssetParam),
      SingleSigned d param.Account.PrivateKey
        (decimal param.AssetId ++ decimal (GenNonce d s).1) s
        (genGrantAssetBody d appid param s)
        (carriesIdAndNonce param.AssetId (GenNonce d s).1)) ∧
    (∀ param : TransferAssetParam,
      SingleSigned d param.Account.PrivateKey
        (decimal param.AssetId ++ decimal (GenNonce d s).1) s (genTransferAssetBody d param s)
        (carriesIdAndNonce param.AssetId (GenNonce d s).1)) ∧
    (∀ param : FreezeAssetParam,
      SingleSigned d param.Account.PrivateKey
        (decimal param.AssetId ++ decimal (GenNonce d s).1) s (genFreezeAssetBody d param s)
        (carriesIdAndNonce param.AssetId (GenNonce d s).1)) ∧
    (∀ param : LockOrFreezeShardParam,
      SingleSigned d param.Account.PrivateKey
        (decimal param.AssetId ++ decimal (GenNonce d s).1) s (genLockShardBody d param s)
        (carriesIdAndNonce param.AssetId (GenNonce d s).1)) ∧
    (∀ param : LockOrFreezeShardParam,
      SingleSigned d param.Account.PrivateKey
        (decimal param.AssetId ++ decimal (GenNonce d s).1) s (genFreezeShardBody d param s)
        (carriesIdAndNonce param.AssetId (GenNonce d s).1)) := by
  refine ⟨?_, ?_, ?_, ?_, ?_, ?_, ?_, ?_, ?_⟩
  · intro param
    rw [genGetStokenBody_eq]
    exact signThen_singleSigned d param.Account.PrivateKey (fun nonce => decimal nonce)
      (fun sig nonce => ⟨(getStokenValues param sig nonce).Encode, none⟩) s
      (fun v => v.Get "nonce" = decimal (d.nonceAt s.draws))
      (fun sig _ => ⟨getStokenValues param sig (d.nonceAt s.draws), rfl,
        (getStokenValues_fields param sig (d.nonceAt s.draws)).1,
        (getStokenValues_fields param sig (d.nonceAt s.draws)).2⟩)
  · intro appid param; exact genCreateAssetBody_singleSigned d appid param s
  · intro param; exact genAlterAssetBody_singleSigned d param s
  · intro param
    rw [genPublishAssetBody_eq]
    exact signThen_singleSigned d param.Account.PrivateKey
      (fun nonce => decimal param.AssetId ++ decimal nonce)
      (fun sig nonce => ⟨(publishAssetValues param sig nonce).Encode, none⟩) s
      (carriesIdAndNonce param.AssetId (d.nonceAt s.draws))
      (fun sig _ => ⟨publishAssetValues param sig (d.nonceAt s.draws), rfl,
        (publishAssetValues_fields param sig (d.nonceAt s.draws)).1,
        (publishAssetValues_fields param sig (d.nonceAt s.draws)).2⟩)
  · intro appid param; exact genGrantAssetBody_singleSigned d appid param s
  · intro param
    rw [genTransferAssetBody_eq]
    exact signThen_singleSigned d param.Account.PrivateKey
      (fun nonce => decimal param.AssetId ++ decimal nonce)
      (fun sig nonce => ⟨(transferAssetValues d param sig nonce).Encode, none⟩) s
      (carriesIdAndNonce param.AssetId (d.nonceAt s.draws))
      (fun sig _ => ⟨transferAssetValues d param sig (d.nonceAt s.draws), rfl,
        (transferAssetValues_fields d param sig (d.nonceAt s.draws)).1,
        (transferAssetValues_fields d param sig (d.nonceAt s.draws)).2⟩)
  · intro param
    rw [genFreezeAssetBody_eq]
    exact signThen_singleSigned d param.Account.PrivateKey
      (fun nonce => decimal param.AssetId ++ decimal nonce)
      (fun sig nonce => ⟨(freezeAssetValues param sig nonce).Encode, none⟩) s
      (carriesIdAndNonce param.AssetId (d.nonceAt s.draws))
      (fun sig _ => ⟨freezeAssetValues param sig (d.nonceAt s.draws), rfl,
        (freezeAssetValues_fields param sig (d.nonceAt s.draws)).1,
        (freezeAssetValues_fields param sig (d.nonceAt s.draws)).2⟩)
  · intro param
    rw [genLockShardBody_eq]
    exact signThen_singleSigned d param.Account.PrivateKey
      (fun nonce => decimal param.AssetId ++ decimal nonce)
      (fun sig nonce => ⟨(lockShardValues param sig nonce).Encode, none⟩) s
      (carriesIdAndNonce param.AssetId (d.nonceAt s.draws))
      (fun sig _ => ⟨lockShardValues param sig (d.nonceAt s.draws), rfl,
        (lockShardValues_fields param sig (d.nonceAt s.draws)).1,
        (lockShardValues_fields param sig (d.nonceAt s.draws)).2⟩)
  · intro param
    rw [genFreezeShardBody_eq]
    exact signThen_singleSigned d param.Account.PrivateKey
      (fun nonce => decimal param.AssetId ++ decimal nonce)
      (fun sig nonce => ⟨(freezeShardValues param sig nonce).Encode, none⟩) s
      (carriesIdAndNonce param.AssetId (d.nonceAt s.draws))
      (fun sig _ => ⟨freezeShardValues param sig (d.nonceAt s.draws), rfl,
        (freezeShardValues_fields param sig (d.nonceAt s.draws)).1,
        (freezeShardValues_fields param sig (d.nonceAt s.draws)).2⟩)

/-- Witness for C4: publishing asset 5 with the first nonce 40 signs the message
`540` and produces a body. -/
theorem single_signer_message_and_fields_witness :
    (genPublishAssetBody (sampleDeps none none) ⟨5, alice, 0⟩ St.init).1.err = none ∧
      decimal 5 ++ decimal (GenNonce (sampleDeps none none) St.init).1 = "540" ∧
      ∃ sig v,
        (sampleDeps none none).signECDSA "skA"
            (decimal 5 ++ decimal (GenNonce (sampleDeps none none) St.init).1) = some sig ∧
          (genPublishAssetBody (sampleDeps none none) ⟨5, alice, 0⟩ St.init).1.body = v.Encode ∧
          v.Get "sign" = sig ∧
          carriesIdAndNonce 5 (GenNonce (sampleDeps none none) St.init).1 v :=
  ⟨by decide, by decide,
    ((single_signer_message_and_fields (sampleDeps none none) St.init).2.2.2.1
      ⟨5, alice, 0⟩).2 (by decide)⟩

theorem genGrantBoxBody_posts (d : Deps) (param : GrantBoxParam) (s : St) :
    posts (genGrantBoxBody d param s).2.trace = posts s.trace := by
  rw [genGrantBoxBody_eq]
  cases d.signECDSA param.UAccount.PrivateKey
    (decimal param.BoxAssetId ++ decimal (d.nonceAt s.draws)) with
  | none => simp [afterSign, posts]
  | some uSign =>
    cases d.signECDSA param.CAccount.PrivateKey
      (decimal param.RealAssetId ++ decimal (d.nonceAt (s.draws + 1))) <;>
      simp [afterSign, posts]

theorem genGrantBoxBody_failedSign (d : Deps) (param : GrantBoxParam) (s : St)
    (h : failedSign s (genGrantBoxBody d param s).2) :
    (genGrantBoxBody d param s).1 = ⟨"", some Error.ComErrAccountSignFailed⟩ := by
  rw [genGrantBoxBody_eq] at h ⊢
  cases hu : d.signECDSA param.UAccount.PrivateKey
    (decimal param.BoxAssetId ++ decimal (d.nonceAt s.draws)) with
  | none => rfl
  | some uSign =>
    cases hc : d.signECDSA param.CAccount.PrivateKey
      (decimal param.RealAssetId ++ decimal (d.nonceAt (s.draws + 1))) with
    | none => rfl
    | some cSign =>
      obtain ⟨k, m, hm⟩ := h
      simp [hu, hc, newSignCalls, afterSign, signCalls] at hm

theorem genGrantBoxBody_sign_fail (d : Deps) (param : GrantBoxParam) (s : St)
    (h : d.signECDSA param.UAccount.PrivateKey
          (decimal param.BoxAssetId ++ decimal (d.nonceAt s.draws)) = none ∨
        d.signECDSA param.CAccount.PrivateKey
          (decimal param.RealAssetId ++ decimal (d.nonceAt (s.draws + 1))) = none) :
    (genGrantBoxBody d param s).1 = ⟨"", some Error.ComErrAccountSignFailed⟩ := by
  rw [genGrantBoxBody_eq]
  cases hu : d.signECDSA param.UAccount.PrivateKey
    (decimal param.BoxAssetId ++ decimal (d.nonceAt s.draws)) with
  | none => rfl
  | some uSign =>
    rcases h with h | h
    · rw [hu] at h; simp at h
    · simp [h]

theorem genGrantBoxBody_ok (d : Deps) (param : GrantBoxParam) (s : St)
    (uSign cSign : String)
    (hu : d.signECDSA param.UAccount.PrivateKey
      (decimal param.BoxAssetId ++ decimal (d.nonceAt s.draws)) = some uSign)
    (hc : d.signECDSA param.CAccount.PrivateKey
      (decimal param.RealAssetId ++ decimal (d.nonceAt (s.draws + 1))) = some cSign) :
    (genGrantBoxBody d param s).1 =
        ⟨(grantBoxValues param uSign cSign (d.nonceAt s.draws)
          (d.nonceAt (s.draws + 1))).Encode, none⟩ ∧
      newNonces s (genGrantBoxBody d param s).2 = [d.nonceAt s.draws, d.nonceAt (s.draws + 1)] ∧
      newSignCalls s (genGrantBoxBody d param s).2 =
        [(param.UAccount.PrivateKey,
            decimal param.BoxAssetId ++ decimal (d.nonceAt s.draws), true),
          (param.CAccount.PrivateKey,
            decimal param.RealAssetId ++ decimal (d.nonceAt (s.draws + 1)), true)] := by
  refine ⟨?_, ?_, ?_⟩
  · rw [genGrantBoxBody_eq]; simp [hu, hc]
  · rw [genGrantBoxBody_eq]; simp [hu, hc, newNonces, afterSign, nonces]
  · rw [genGrantBoxBody_eq]; simp [hu, hc, newSignCalls, afterSign, signCalls]

/-- C5: two-party composition in `GrantBox` is all-or-nothing. If the user's signature
fails, or the user's signature succeeds and the creator's fails, `genGrantBoxBody`
returns the empty body with `ComErrAccountSignFailed`, `GrantBox` (on a valid parameter)
returns `(nil, nil, ComErrAccountSignFailed)`, and no request is posted. -/
theorem GrantBox_all_or_nothing (d : Deps) (param : GrantBoxParam) (s : St)
    (h : d.signECDSA param.UAccount.PrivateKey
          (decimal param.BoxAssetId ++ decimal (d.nonceAt s.draws)) = none ∨
        d.signECDSA param.CAccount.PrivateKey
          (decimal param.RealAssetId ++ decimal (d.nonceAt (s.draws + 1))) = none) :
    (genGrantBoxBody d param s).1 = ⟨"", some Error.ComErrAccountSignFailed⟩ ∧
      (d.validGrantBox param = none →
        (GrantBox d param s).1 = ⟨none, none, some Error.ComErrAccountSignFailed⟩) ∧
      posts (GrantBox d param s).2.trace = posts s.trace := by
  have hgen := genGrantBoxBody_sign_fail d param s h
  have herr : (genGrantBoxBody d param s).1.err = some Error.ComErrAccountSignFailed := by
    rw [hgen]
  refine ⟨hgen, ?_, ?_⟩
  · intro hv
    simp only [GrantBox, hv]
    rw [runOp_gen_err _ d _ s _ herr]
  · simp only [GrantBox]
    cases hv : d.validGrantBox param with
    | some e => simp [runOp]
    | none =>
      rw [runOp_gen_err _ d _ s _ herr]
      exact genGrantBoxBody_posts d param s

/-- Witness for C5: the user's key signs, the creator's key is rejected. -/
theorem GrantBox_all_or_nothing_witness :
    (sampleDeps none none).signECDSA alice.PrivateKey
        (decimal 5 ++ decimal ((sampleDeps none none).nonceAt 0)) ≠ none ∧
      (sampleDeps none none).signECDSA broken.PrivateKey
        (decimal 6 ++ decimal ((sampleDeps none none).nonceAt 1)) = none ∧
      (genGrantBoxBody (sampleDeps none none) ⟨5, 6, alice, broken, "tok", 1⟩ St.init).1 =
        ⟨"", some Error.ComErrAccountSignFailed⟩ ∧
      (GrantBox (sampleDeps none none) ⟨5, 6, alice, broken, "tok", 1⟩ St.init).1 =
        ⟨none, none, some Error.ComErrAccountSignFailed⟩ ∧
      posts (GrantBox (sampleDeps none none) ⟨5, 6, alice, broken, "tok", 1⟩ St.init).2.trace
        = [] :=
  ⟨by decide, by decide,
    (GrantBox_all_or_nothing (sampleDeps none none) ⟨5, 6, alice, broken, "tok", 1⟩ St.init
      (Or.inr (by decide))).1,
    (GrantBox_all_or_nothing (sampleDeps none none) ⟨5, 6, alice, broken, "tok", 1⟩ St.init
      (Or.inr (by decide))).2.1 rfl,
    (GrantBox_all_or_nothing (sampleDeps none none) ⟨5, 6, alice, broken, "tok", 1⟩ St.init
      (Or.inr (by decide))).2.2⟩

/-- C7: when both signings succeed, `genGrantBoxBody` signs two independent messages with
two separately drawn nonces: `user_sign` is the `UAccount` signature over decimal
`BoxAssetId` followed by the first nonce, `create_sign` is the `CAccount` signature over
decimal `RealAssetId` followed by the second nonce, and the body fields carry exactly the
ids, nonces, addresses and public keys used. -/
theorem genGrantBoxBody_two_signatures (d : Deps) (param : GrantBoxParam) (s : St)
    (uSign cSign : String)
    (hu : d.signECDSA param.UAccount.PrivateKey
      (decimal param.BoxAssetId ++ decimal (d.nonceAt s.draws)) = some uSign)
    (hc : d.signECDSA param.CAccount.PrivateKey
      (decimal param.RealAssetId ++ decimal (d.nonceAt (s.draws + 1))) = some cSign) :
    (genGrantBoxBody d param s).1 =
        ⟨(grantBoxValues param uSign cSign (d.nonceAt s.draws)
          (d.nonceAt (s.draws + 1))).Encode, none⟩ ∧
      (GenNonce d s).1 = d.nonceAt s.draws ∧
      (GenNonce d (GenNonce d s).2).1 = d.nonceAt (s.draws + 1) ∧
      newNonces s (genGrantBoxBody d param s).2 = [d.nonceAt s.draws, d.nonceAt (s.draws + 1)] ∧
      newSignCalls s (genGrantBoxBody d param s).2 =
        [(param.UAccount.PrivateKey,
            decimal param.BoxAssetId ++ decimal (d.nonceAt s.draws), true),
          (param.CAccount.PrivateKey,
            decimal param.RealAssetId ++ decimal (d.nonceAt (s.draws + 1)), true)] ∧
      (grantBoxValues param uSign cSign (d.nonceAt s.draws) (d.nonceAt (s.draws + 1))).Get
          "user_sign" = uSign ∧
      (grantBoxValues param uSign cSign (d.nonceAt s.draws) (d.nonceAt (s.draws + 1))).Get
          "create_sign" = cSign ∧
      (grantBoxValues param uSign cSign (d.nonceAt s.draws) (d.nonceAt (s.draws + 1))).Get
          "consume_nonce" = decimal (d.nonceAt s.draws) ∧
      (grantBoxValues param uSign cSign (d.nonceAt s.draws) (d.nonceAt (s.draws + 1))).Get
          "grant_nonce" = decimal (d.nonceAt (s.draws + 1)) ∧
      (grantBoxValues param uSign cSign (d.nonceAt s.draws) (d.nonceAt (s.draws + 1))).Get
          "box_asset_id" = decimal param.BoxAssetId ∧
      (grantBoxValues param uSign cSign (d.nonceAt s.draws) (d.nonceAt (s.draws + 1))).Get
          "real_asset_id" = decimal param.RealAssetId ∧
      (grantBoxValues param uSign cSign (d.nonceAt s.draws) (d.nonceAt (s.draws + 1))).Get
          "user_addr" = param.UAccount.Address ∧
      (grantBoxValues param uSign cSign (d.nonceAt s.draws) (d.nonceAt (s.draws + 1))).Get
          "user_pkey" = param.UAccount.PublicKey ∧
      (grantBoxValues param uSign cSign (d.nonceAt s.draws) (d.nonceAt (s.draws + 1))).Get
          "create_addr" = param.CAccount.Address ∧
      (grantBoxValues param uSign cSign (d.nonceAt s.draws) (d.nonceAt (s.draws + 1))).Get
          "create_pkey" = param.CAccount.PublicKey := by
  have h := genGrantBoxBody_ok d param s uSign cSign hu hc
  refine ⟨h.1, rfl, rfl, h.2.1, h.2.2, ?_⟩
  simp [grantBoxValues, Values.Get_Set_ne]

/-- Witness for C7: alice as the user and bob as the creator, nonces 40 and 41. -/
theorem genGrantBoxBody_two_signatures_witness :
    (sampleDeps none none).signECDSA alice.PrivateKey
        (decimal 5 ++ decimal ((sampleDeps none none).nonceAt 0)) = some "sig(skA,540)" ∧
      (sampleDeps none none).signECDSA bob.PrivateKey
        (decimal 6 ++ decimal ((sampleDeps none none).nonceAt 1)) = some "sig(skB,641)" ∧
      newNonces St.init
        (genGrantBoxBody (sampleDeps none none) ⟨5, 6, alice, bob, "tok", 1⟩ St.init).2 =
        [(sampleDeps none none).nonceAt 0, (sampleDeps none none).nonceAt 1] :=
  ⟨by decide, by decide,
    (genGrantBoxBody_two_signatures (sampleDeps none none) ⟨5, 6, alice, bob, "tok", 1⟩ St.init
      "sig(skA,540)" "sig(skB,641)" (by decide) (by decide)).2.2.2.1⟩

theorem genTransferAssetBody_newSignCalls (d : Deps) (param : TransferAssetParam) (s : St) :
    newSignCalls s (genTransferAssetBody d param s).2 =
      [(param.Account.PrivateKey, decimal param.AssetId ++ decimal (d.nonceAt s.draws),
        (d.signECDSA param.Account.PrivateKey
          (decimal param.AssetId ++ decimal (d.nonceAt s.draws))).isSome)] := by
  rw [genTransferAssetBody_eq, signThen_snd, newSignCalls_afterSign]

theorem not_twoSignatures_of_single (s : St) (r : BodyRet × St)
    (c : String × String × Bool) (h : newSignCalls s r.2 = [c]) : ¬ TwoSignatures s r := by
  rintro ⟨⟨k1, m1, k2, m2, h2⟩, _⟩
  rw [h] at h2
  simp at h2

/-- C6 as stated fails: `genTransferAssetBody` and `genGrantAssetBody` produce a body with
a single signature by `param.Account` over a single message, although the asset moves
from `Addr` to `ToAddr`. -/
theorem transfer_and_grant_have_one_signature :
    (genTransferAssetBody (sampleDeps none none) ⟨5, 9, 1, "addrA", alice, "addrB", 0⟩
        St.init).1.err = none ∧
      ¬ TwoSignatures St.init
        (genTransferAssetBody (sampleDeps none none) ⟨5, 9, 1, "addrA", alice, "addrB", 0⟩
          St.init) ∧
      (genGrantAssetBody (sampleDeps none none) 7 ⟨5, 9, 1, "addrA", alice, "addrB", "", 0⟩
        St.init).1.err = none ∧
      ¬ TwoSignatures St.init
        (genGrantAssetBody (sampleDeps none none) 7 ⟨5, 9, 1, "addrA", alice, "addrB", "", 0⟩
          St.init) :=
  ⟨by decide,
    not_twoSignatures_of_single _ _ _ (genTransferAssetBody_newSignCalls _ _ _),
    by decide,
    not_twoSignatures_of_single _ _ _ (genGrantAssetBody_newSignCalls _ _ _ _)⟩

/-- C6 amended: only `GrantBox` composes two signatures. A body produced by
`genGrantBoxBody` carries the `UAccount` signature over decimal `BoxAssetId` followed by
the first nonce drawn and the `CAccount` signature over decimal `RealAssetId` followed by
the second nonce drawn. `genGrantAssetBody` and `genTransferAssetBody` make exactly one
signing call, with the key of `param.Account`, over decimal `AssetId` followed by the
first nonce drawn. -/
theorem two_signatures_only_in_GrantBox (d : Deps) (s : St) :
    (∀ param : GrantBoxParam, (genGrantBoxBody d param s).1.err = none →
      TwoSignatures s (genGrantBoxBody d param s) ∧
        newSignCalls s (genGrantBoxBody d param s).2 =
          [(param.UAccount.PrivateKey,
              decimal param.BoxAssetId ++ decimal (d.nonceAt s.draws), true),
            (param.CAccount.PrivateKey,
              decimal param.RealAssetId ++ decimal (d.nonceAt (s.draws + 1)), true)] ∧
        newNonces s (genGrantBoxBody d param s).2 =
          [d.nonceAt s.draws, d.nonceAt (s.draws + 1)]) ∧
    (∀ (appid : Int) (param : GrantAssetParam),
      newSignCalls s (genGrantAssetBody d appid param s).2 =
        [(param.Account.PrivateKey, decimal param.AssetId ++ decimal (d.nonceAt s.draws),
          (d.signECDSA param.Account.PrivateKey
            (decimal param.AssetId ++ decimal (d.nonceAt s.draws))).isSome)]) ∧
    (∀ param : TransferAssetParam,
      newSignCalls s (genTransferAssetBody d param s).2 =
        [(param.Account.PrivateKey, decimal param.AssetId ++ decimal (d.nonceAt s.draws),
          (d.signECDSA param.Account.PrivateKey
            (decimal param.AssetId ++ decimal (d.nonceAt s.draws))).isSome)]) := by
  refine ⟨?_, fun appid param => genGrantAssetBody_newSignCalls d appid param s,
    fun param => genTransferAssetBody_newSignCalls d param s⟩
  intro param herr
  cases hu : d.signECDSA param.UAccount.PrivateKey
    (decimal param.BoxAssetId ++ decimal (d.nonceAt s.draws)) with
  | none =>
    rw [genGrantBoxBody_sign_fail d param s (Or.inl hu)] at herr
    simp at herr
  | some uSign =>
    cases hc : d.signECDSA param.CAccount.PrivateKey
      (decimal param.RealAssetId ++ decimal (d.nonceAt (s.draws + 1))) with
    | none =>
      rw [genGrantBoxBody_sign_fail d param s (Or.inr hc)] at herr
      simp at herr
    | some cSign =>
      have h := genGrantBoxBody_ok d param s uSign cSign hu hc
      refine ⟨⟨⟨_, _, _, _, h.2.2⟩, ?_⟩, h.2.2, h.2.1⟩
      rw [h.2.1]; simp

/-- Witness for the amended C6: a body produced for alice and bob. -/
theorem two_signatures_only_in_GrantBox_witness :
    (genGrantBoxBody (sampleDeps none none) ⟨5, 6, alice, bob, "tok", 1⟩ St.init).1.err = none ∧
      TwoSignatures St.init
        (genGrantBoxBody (sampleDeps none none) ⟨5, 6, alice, bob, "tok", 1⟩ St.init) :=
  ⟨by decide,
    ((two_signatures_only_in_GrantBox (sampleDeps none none) St.init).1
      ⟨5, 6, alice, bob, "tok", 1⟩ (by decide)).1⟩

theorem isSome_false_of_failedSign (s s' : St) (key msg : String) (r : Option String)
    (h : newSignCalls s s' = [(key, msg, r.isSome)]) (hf : failedSign s s') : r = none := by
  obtain ⟨k, m, hm⟩ := hf
  rw [h] at hm
  cases r with
  | none => rfl
  | some sig => simp at hm

theorem signThen_aborts (valid : Option Error) (gen : St → BodyRet × St) (d : Deps) (api : Api)
    (s : St) (key : String) (msgOf : Int → String) (k : String → Int → BodyRet)
    (heq : gen s = signThen d key msgOf k s) :
    SignFailureAborts s (gen s) (runOp valid gen d api s) := by
  apply runOp_signFailureAborts
  · intro h
    rw [heq] at h ⊢
    exact signThen_failedSign d key msgOf k s h
  · rw [heq, signThen_snd]
    exact posts_afterSign d key _ s

theorem genCreateAssetBody_failedSign (d : Deps) (appid : Int) (param : CreateAssetParam)
    (s : St) (h : failedSign s (genCreateAssetBody d appid param s).2) :
    (genCreateAssetBody d appid param s).1 = ⟨"", some Error.ComErrAccountSignFailed⟩ := by
  have := isSome_false_of_failedSign s _ _ _ _ (genCreateAssetBody_newSignCalls d appid param s) h
  rw [genCreateAssetBody_fst, this]

theorem genGrantAssetBody_failedSign (d : Deps) (appid : Int) (param : GrantAssetParam)
    (s : St) (h : failedSign s (genGrantAssetBody d appid param s).2) :
    (genGrantAssetBody d appid param s).1 = ⟨"", some Error.ComErrAccountSignFailed⟩ := by
  have := isSome_false_of_failedSign s _ _ _ _ (genGrantAssetBody_newSignCalls d appid param s) h
  rw [genGrantAssetBody_fst, this]

theorem newSignCalls_of_append (s s' : St) (calls : List (String × String × Bool))
    (h : signCalls s'.trace = signCalls s.trace ++ calls) : newSignCalls s s' = calls := by
  simp [newSignCalls, h]

theorem genComposeShardBody_posts (d : Deps) (consumeList : List AssetShardPair)
    (param : ComposeParam) (s : St) :
    posts (genComposeShardBody d consumeList param s).2.trace = posts s.trace := by
  unfold genComposeShardBody
  by_cases hlen : consumeList.length < 1
  · simp [hlen]
  · simp only [hlen, if_false]
    have hp := (composeLoop_calls d param.Account.PrivateKey consumeList [] s).1
    generalize composeLoop d param.Account.PrivateKey consumeList [] s = L at hp
    obtain ⟨r, s1⟩ := L
    cases r with
    | none => exact hp
    | some astList =>
      simp only
      cases d.marshalNodes astList with
      | none => exact hp
      | some js =>
        simp only [GenNonce, XassetSignECDSA]
        cases d.signECDSA param.Account.PrivateKey
          (decimal param.AssetId ++ decimal (d.nonceAt s1.draws)) <;>
          simpa [posts] using hp

theorem genComposeShardBody_failedSign (d : Deps) (consumeList : List AssetShardPair)
    (param : ComposeParam) (s : St)
    (h : failedSign s (genComposeShardBody d consumeList param s).2) :
    (genComposeShardBody d consumeList param s).1 =
      ⟨"", some Error.ComErrAccountSignFailed⟩ := by
  unfold genComposeShardBody at h ⊢
  by_cases hlen : consumeList.length < 1
  · simp only [hlen, if_true] at h
    exact absurd h (not_failedSign_self s)
  · simp only [hlen, if_false] at h ⊢
    obtain ⟨_, calls, hc, hall⟩ := composeLoop_calls d param.Account.PrivateKey consumeList [] s
    generalize composeLoop d param.Account.PrivateKey consumeList [] s = L at h hc hall
    obtain ⟨r, s1⟩ := L
    cases r with
    | none => rfl
    | some astList =>
      have hall' := hall (by simp)
      simp only at h hc ⊢
      cases hm : d.marshalNodes astList with
      | none =>
        rw [hm] at h
        obtain ⟨k, m, hmem⟩ := h
        rw [newSignCalls_of_append s s1 calls hc] at hmem
        have := hall' _ hmem
        simp at this
      | some js =>
        rw [hm] at h
        simp only [GenNonce, XassetSignECDSA] at h ⊢
        cases hs : d.signECDSA param.Account.PrivateKey
          (decimal param.AssetId ++ decimal (d.nonceAt s1.draws)) with
        | none => rfl
        | some sig =>
          rw [hs] at h
          obtain ⟨k, m, hmem⟩ := h
          rw [newSignCalls_of_append s _ (calls ++ [(param.Account.PrivateKey,
            decimal param.AssetId ++ decimal (d.nonceAt s1.draws), true)])
            (by simp [signCalls, hc])] at hmem
          rcases List.mem_append.mp hmem with hmem | hmem
          · have := hall' _ hmem
            simp at this
          · simp at hmem

/-- C8: in every signed operation a failing call of the signing primitive makes the body
builder return the empty body with `ComErrAccountSignFailed`, and makes the public
operation return that error with a nil response and a nil `RequestRes` without posting
any request. -/
theorem sign_failure_never_posts (d : Deps) (s : St) :
    (∀ param, SignFailureAborts s (genGetStokenBody d param s) (GetStoken d param s)) ∧
    (∀ param,
      SignFailureAborts s (genCreateAssetBody d d.AppId param s) (CreateAsset d param s)) ∧
    (∀ param, SignFailureAborts s (genAlterAssetBody d param s) (AlterAsset d param s)) ∧
    (∀ param, SignFailureAborts s (genPublishAssetBody d param s) (PublishAsset d param s)) ∧
    (∀ param,
      SignFailureAborts s (genGrantAssetBody d d.AppId param s) (GrantAsset d param s)) ∧
    (∀ param,
      SignFailureAborts s (genTransferAssetBody d param s) (TransferAsset d param s)) ∧
    (∀ param, SignFailureAborts s (genFreezeAssetBody d param s) (FreezeAsset d param s)) ∧
    (∀ param, SignFailureAborts s (genGrantBoxBody d param s) (GrantBox d param s)) ∧
    (∀ consumeList param,
      SignFailureAborts s (genComposeShardBody d consumeList param s)
        (ComposeShard d consumeList param s)) ∧
    (∀ param, SignFailureAborts s (genLockShardBody d param s) (LockShard d param s)) ∧
    (∀ param, SignFailureAborts s (genFreezeShardBody d param s) (FreezeShard d param s)) ∧
    (∀ param, SignFailureAborts s (genFreezeShardBody d param s) (UnFreezeShard d param s)) := by
  refine ⟨?_, ?_, ?_, ?_, ?_, ?_, ?_, ?_, ?_, ?_, ?_, ?_⟩
  · intro param
    exact signThen_aborts _ (genGetStokenBody d param) d _ s _ _ _ (genGetStokenBody_eq d param s)
  · intro param
    exact runOp_signFailureAborts _ (genCreateAssetBody d d.AppId param) d _ s
      (genCreateAssetBody_failedSign d d.AppId param s) (genCreateAssetBody_posts d d.AppId param s)
  · intro param
    exact signThen_aborts _ (genAlterAssetBody d param) d _ s _ _ _ (genAlterAssetBody_eq d param s)
  · intro param
    exact signThen_aborts _ (genPublishAssetBody d param) d _ s _ _ _
      (genPublishAssetBody_eq d param s)
  · intro param
    exact runOp_signFailureAborts _ (genGrantAssetBody d d.AppId param) d _ s
      (genGrantAssetBody_failedSign d d.AppId param s) (genGrantAssetBody_posts d d.AppId param s)
  · intro param
    exact signThen_aborts _ (genTransferAssetBody d param) d _ s _ _ _
      (genTransferAssetBody_eq d param s)
  · intro param
    exact signThen_aborts _ (genFreezeAssetBody d param) d _ s _ _ _
      (genFreezeAssetBody_eq d param s)
  · intro param
    exact runOp_signFailureAborts _ (genGrantBoxBody d param) d _ s
      (genGrantBoxBody_failedSign d param s) (genGrantBoxBody_posts d param s)
  · intro consumeList param
    exact runOp_signFailureAborts _ (genComposeShardBody d consumeList param) d _ s
      (genComposeShardBody_failedSign d consumeList param s)
      (genComposeShardBody_posts d consumeList param s)
  · intro param
    exact signThen_aborts _ (genLockShardBody d param) d _ s _ _ _ (genLockShardBody_eq d param s)
  · intro param
    exact signThen_aborts _ (genFreezeShardBody d param) d _ s _ _ _
      (genFreezeShardBody_eq d param s)
  · intro param
    exact signThen_aborts _ (genFreezeShardBody d param) d _ s _ _ _
      (genFreezeShardBody_eq d param s)

/-- Witness for C8: `AlterAsset` with an account whose key the signing primitive rejects
makes one failing signing call, returns `(nil, nil, ComErrAccountSignFailed)` and posts
nothing. -/
theorem sign_failure_never_posts_witness :
    failedSign St.init (genAlterAssetBody (sampleDeps none none) ⟨5, broken, 1, 1, 0, "", ""⟩
        St.init).2 ∧
      failedSign St.init (AlterAsset (sampleDeps none none) ⟨5, broken, 1, 1, 0, "", ""⟩
        St.init).2 ∧
      (genAlterAssetBody (sampleDeps none none) ⟨5, broken, 1, 1, 0, "", ""⟩ St.init).1 =
        ⟨"", some Error.ComErrAccountSignFailed⟩ ∧
      (AlterAsset (sampleDeps none none) ⟨5, broken, 1, 1, 0, "", ""⟩ St.init).1 =
        ⟨none, none, some Error.ComErrAccountSignFailed⟩ ∧
      posts (AlterAsset (sampleDeps none none) ⟨5, broken, 1, 1, 0, "", ""⟩ St.init).2.trace
        = [] :=
  have hg : failedSign St.init (genAlterAssetBody (sampleDeps none none)
      ⟨5, broken, 1, 1, 0, "", ""⟩ St.init).2 := ⟨"", "540", by decide⟩
  have ho : failedSign St.init (AlterAsset (sampleDeps none none)
      ⟨5, broken, 1, 1, 0, "", ""⟩ St.init).2 := ⟨"", "540", by decide⟩
  ⟨hg, ho,
    ((sign_failure_never_posts (sampleDeps none none) St.init).2.2.1
      ⟨5, broken, 1, 1, 0, "", ""⟩).1 hg,
    (((sign_failure_never_posts (sampleDeps none none) St.init).2.2.1
      ⟨5, broken, 1, 1, 0, "", ""⟩).2 ho).1,
    (((sign_failure_never_posts (sampleDeps none none) St.init).2.2.1
      ⟨5, broken, 1, 1, 0, "", ""⟩).2 ho).2⟩

theorem expectedCalls_length (d : Deps) (key : String) (k : Nat) (shards : List AssetShardPair) :
    (expectedCalls d key k shards).length = shards.length := by
  induction shards generalizing k with
  | nil => rfl
  | cons shard rest ih => simp [expectedCalls, ih]

theorem composeLoop_allSigned (d : Deps) (key : String) (shards : List AssetShardPair)
    (acc : List ConsumeNode) (s : St) (h : (composeLoop d key shards acc s).1 ≠ none) :
    AllSigned d key s.draws shards := by
  induction shards generalizing acc s with
  | nil => trivial
  | cons shard rest ih =>
    simp only [composeLoop, GenNonce, XassetSignECDSA] at h
    cases hsig : d.signECDSA key (decimal shard.AssetId ++ decimal (d.nonceAt s.draws)) with
    | none => rw [hsig] at h; simp at h
    | some sig =>
      rw [hsig] at h
      refine ⟨?_, ih _ _ h⟩
      rw [hsig]
      rfl

/-- The run of `genComposeShardBody` on a non-empty list when every signing call and the
JSON encoding succeed. -/
theorem genComposeShardBody_ok (d : Deps) (consumeList : List AssetShardPair)
    (param : ComposeParam) (s : St) (js sig : String)
    (hne : consumeList ≠ [])
    (hall : AllSigned d param.Account.PrivateKey s.draws consumeList)
    (hjs : d.marshalNodes (expectedNodes d param.Account.PrivateKey s.draws consumeList) =
      some js)
    (hsig : d.signECDSA param.Account.PrivateKey
      (decimal param.AssetId ++ decimal (d.nonceAt (s.draws + consumeList.length))) = some sig) :
    (genComposeShardBody d consumeList param s).1 =
        ⟨(composeShardValues param sig (d.nonceAt (s.draws + consumeList.length)) js).Encode,
          none⟩ ∧
      (genComposeShardBody d consumeList param s).2.draws = s.draws + (consumeList.length + 1) ∧
      newNonces s (genComposeShardBody d consumeList param s).2 =
        (List.range (consumeList.length + 1)).map (fun i => d.nonceAt (s.draws + i)) ∧
      newSignCalls s (genComposeShardBody d consumeList param s).2 =
        expectedCalls d param.Account.PrivateKey s.draws consumeList ++
          [(param.Account.PrivateKey,
            decimal param.AssetId ++ decimal (d.nonceAt (s.draws + consumeList.length)),
            true)] := by
  have hlen : ¬ consumeList.length < 1 := by
    cases consumeList with
    | nil => exact absurd rfl hne
    | cons a l => simp
  obtain ⟨h1, h2, h3, h4, _⟩ := composeLoop_ok d param.Account.PrivateKey consumeList [] s hall
  unfold genComposeShardBody
  simp only [hlen, if_false]
  generalize composeLoop d param.Account.PrivateKey consumeList [] s = L at h1 h2 h3 h4
  obtain ⟨r, s1⟩ := L
  simp only [List.nil_append] at h1 h2 h3 h4
  subst h1
  simp only [hjs, GenNonce, XassetSignECDSA, h2, hsig]
  refine ⟨trivial, by omega, ?_, ?_⟩
  · simp only [newNonces, nonces_append, h3, nonces, List.append_nil, List.append_assoc,
      List.drop_left]
    rw [List.range_succ, List.map_append]
    simp
  · simp [newSignCalls, h4, signCalls]

/-- C9: for a non-empty consume list of N shards on which every signing call succeeds
(and whose node list the JSON encoder accepts), `genComposeShardBody` draws exactly N+1
nonces and makes exactly N+1 signing calls; `ast_list` is the encoding of N nodes in the
order of the consume list, node `i` carrying shard `i`'s `AssetId` and `ShardId`, the
`i`-th nonce drawn and the signature over decimal `AssetId` followed by that nonce; the
top-level `nonce` and `sign` fields belong to the last message, over `param.AssetId` and
the (N+1)-th nonce drawn. -/
theorem genComposeShardBody_nodes (d : Deps) (consumeList : List AssetShardPair)
    (param : ComposeParam) (s : St)
    (hne : consumeList ≠ [])
    (hsigned : ∀ i (hi : i < consumeList.length),
      (d.signECDSA param.Account.PrivateKey
        (decimal consumeList[i].AssetId ++ decimal (d.nonceAt (s.draws + i)))).isSome = true)
    (hfinal : (d.signECDSA param.Account.PrivateKey
      (decimal param.AssetId ++ decimal (d.nonceAt (s.draws + consumeList.length)))).isSome
        = true)
    (hjson : ∀ nodes, (d.marshalNodes nodes).isSome = true) :
    (genComposeShardBody d consumeList param s).2.draws = s.draws + (consumeList.length + 1) ∧
      newNonces s (genComposeShardBody d consumeList param s).2 =
        (List.range (consumeList.length + 1)).map (fun i => d.nonceAt (s.draws + i)) ∧
      (newSignCalls s (genComposeShardBody d consumeList param s).2).length =
        consumeList.length + 1 ∧
      ∃ (nodes : List ConsumeNode) (js sig : String) (v : Values),
        nodes.length = consumeList.length ∧
        (∀ i (hi : i < consumeList.length), ∃ sg,
          d.signECDSA param.Account.PrivateKey
              (decimal consumeList[i].AssetId ++ decimal (d.nonceAt (s.draws + i))) = some sg ∧
            nodes[i]? = some ⟨consumeList[i].AssetId, consumeList[i].ShardId,
              d.nonceAt (s.draws + i), sg⟩) ∧
        d.marshalNodes nodes = some js ∧
        d.signECDSA param.Account.PrivateKey
            (decimal param.AssetId ++ decimal (d.nonceAt (s.draws + consumeList.length))) =
          some sig ∧
        (genComposeShardBody d consumeList param s).1 = ⟨v.Encode, none⟩ ∧
        v.Get "ast_list" = js ∧
        v.Get "nonce" = decimal (d.nonceAt (s.draws + consumeList.length)) ∧
        v.Get "sign" = sig ∧
        v.Get "asset_id" = decimal param.AssetId := by
  have hall := allSigned_of_index d param.Account.PrivateKey s.draws consumeList hsigned
  obtain ⟨js, hjs⟩ := Option.isSome_iff_exists.mp
    (hjson (expectedNodes d param.Account.PrivateKey s.draws consumeList))
  obtain ⟨sig, hsig⟩ := Option.isSome_iff_exists.mp hfinal
  obtain ⟨h1, h2, h3, h4⟩ := genComposeShardBody_ok d consumeList param s js sig hne hall hjs hsig
  refine ⟨h2, h3, by rw [h4]; simp [expectedCalls_length],
    expectedNodes d param.Account.PrivateKey s.draws consumeList, js, sig,
    composeShardValues param sig (d.nonceAt (s.draws + consumeList.length)) js,
    expectedNodes_length _ _ _ _, ?_, hjs, hsig, h1, ?_⟩
  · intro i hi
    obtain ⟨sg, hsg⟩ := Option.isSome_iff_exists.mp (hsigned i hi)
    refine ⟨sg, hsg, ?_⟩
    rw [expectedNodes_getElem?, List.getElem?_eq_getElem hi]
    simp [nodeOf, hsg]
  · simp [composeShardValues, Values.Get_Set_ne]

/-- Witness for C9: two shards composed by alice; nonces 40, 41 for the shards and 42 for
the final message. -/
theorem genComposeShardBody_nodes_witness :
    newNonces St.init
        (genComposeShardBody (sampleDeps none none) [⟨1, 11⟩, ⟨2, 22⟩] ⟨9, 0, alice, bob, "tok"⟩
          St.init).2 =
      (List.range 3).map (fun i => (sampleDeps none none).nonceAt (0 + i)) :=
  (genComposeShardBody_nodes (sampleDeps none none) [⟨1, 11⟩, ⟨2, 22⟩]
    ⟨9, 0, alice, bob, "tok"⟩ St.init (by decide)
    (by intro i hi
        have h01 : i = 0 ∨ i = 1 := by
          simp only [List.length_cons, List.length_nil] at hi
          omega
        rcases h01 with rfl | rfl <;> rfl)
    (by decide) (fun _ => rfl)).2.1

/-- A body produced by `genComposeShardBody` means: the list is non-empty, every signing
call of the loop succeeded, the node list was encoded and the final signature exists. -/
theorem genComposeShardBody_produced (d : Deps) (consumeList : List AssetShardPair)
    (param : ComposeParam) (s : St)
    (h : (genComposeShardBody d consumeList param s).1.err = none) :
    consumeList ≠ [] ∧ AllSigned d param.Account.PrivateKey s.draws consumeList ∧
      (∃ js, d.marshalNodes (expectedNodes d param.Account.PrivateKey s.draws consumeList) =
        some js) ∧
      ∃ sig, d.signECDSA param.Account.PrivateKey
        (decimal param.AssetId ++ decimal (d.nonceAt (s.draws + consumeList.length))) =
          some sig := by
  unfold genComposeShardBody at h
  by_cases hlen : consumeList.length < 1
  · simp [hlen] at h
  · simp only [hlen, if_false] at h
    have hne : consumeList ≠ [] := by
      rintro rfl
      simp at hlen
    have hsome : (composeLoop d param.Account.PrivateKey consumeList [] s).1 ≠ none := by
      intro hnone
      generalize composeLoop d param.Account.PrivateKey consumeList [] s = L at h hnone
      obtain ⟨r, s1⟩ := L
      simp only at hnone
      subst hnone
      simp at h
    have hall := composeLoop_allSigned d param.Account.PrivateKey consumeList [] s hsome
    obtain ⟨h1, h2, _, _, _⟩ := composeLoop_ok d param.Account.PrivateKey consumeList [] s hall
    generalize composeLoop d param.Account.PrivateKey consumeList [] s = L at h h1 h2
    obtain ⟨r, s1⟩ := L
    simp only [List.nil_append] at h1 h2
    subst h1
    simp only at h
    refine ⟨hne, hall, ?_, ?_⟩
    · cases hm : d.marshalNodes (expectedNodes d param.Account.PrivateKey s.draws consumeList) with
      | none => rw [hm] at h; simp at h
      | some js => exact ⟨js, rfl⟩
    · cases hm : d.marshalNodes (expectedNodes d param.Account.PrivateKey s.draws consumeList) with
      | none => rw [hm] at h; simp at h
      | some js =>
        rw [hm] at h
        simp only [GenNonce, XassetSignECDSA, h2] at h
        cases hs : d.signECDSA param.Account.PrivateKey
          (decimal param.AssetId ++ decimal (d.nonceAt (s.draws + consumeList.length))) with
        | none => rw [hs] at h; simp at h
        | some sig => exact ⟨sig, rfl⟩

/-- The signed messages of one `ComposeShard` body (N shards and the final grant message)
use N+1 separate nonce draws, the consecutive values of the nonce source, one per
message; these nonces are pairwise distinct exactly when the nonce source returns
distinct values on those draws. -/
theorem compose_nonces_are_separate_draws (d : Deps) (consumeList : List AssetShardPair)
    (param : ComposeParam) (s : St)
    (h : (genComposeShardBody d consumeList param s).1.err = none) :
    newNonces s (genComposeShardBody d consumeList param s).2 =
        (List.range (consumeList.length + 1)).map (fun i => d.nonceAt (s.draws + i)) ∧
      ((newNonces s (genComposeShardBody d consumeList param s).2).Nodup ↔
        ∀ i j, i < consumeList.length + 1 → j < consumeList.length + 1 →
          d.nonceAt (s.draws + i) = d.nonceAt (s.draws + j) → i = j) := by
  obtain ⟨hne, hall, ⟨js, hjs⟩, ⟨sig, hsig⟩⟩ := genComposeShardBody_produced d consumeList param s h
  have hn := (genComposeShardBody_ok d consumeList param s js sig hne hall hjs hsig).2.2.1
  refine ⟨hn, ?_⟩
  rw [hn]
  constructor
  · intro hnd i j hi hj hij
    exact List.inj_on_of_nodup_map hnd (List.mem_range.mpr hi) (List.mem_range.mpr hj) hij
  · intro hinj
    apply List.Nodup.map_on _ (List.nodup_range _)
    intro i hi j hj hij
    exact hinj i j (List.mem_range.mp hi) (List.mem_range.mp hj) hij

theorem drawNonces_eq (d : Deps) (n : Nat) (s : St) :
    drawNonces d n s = (List.range n).map (fun i => d.nonceAt (s.draws + i)) := by
  induction n generalizing s with
  | zero => rfl
  | succ n ih =>
    rw [drawNonces, ih, List.range_succ_eq_map]
    simp only [GenNonce, List.map_cons, List.map_map, Nat.add_zero, List.cons.injEq, true_and]
    apply List.map_congr_left
    intro i _
    simp only [Function.comp]
    congr 1
    omega

theorem nodup_of_fresh (d : Deps) (hfresh : FreshNonces d) (k n : Nat) :
    ((List.range n).map (fun i => d.nonceAt (k + i))).Nodup := by
  apply List.Nodup.map_on _ (List.nodup_range _)
  intro i _ j _ hij
  have := hfresh _ _ hij
  omega

theorem expectedNodes_nonces (d : Deps) (key : String) (k : Nat)
    (shards : List AssetShardPair) :
    (expectedNodes d key k shards).map (fun node => node.Nonce) =
      (List.range shards.length).map (fun i => d.nonceAt (k + i)) := by
  induction shards generalizing k with
  | nil => rfl
  | cons shard rest ih =>
    rw [expectedNodes, List.map_cons, ih, List.length_cons, List.range_succ_eq_map]
    simp only [nodeOf, List.map_cons, List.map_map, Nat.add_zero, List.cons.injEq, true_and]
    apply List.map_congr_left
    intro i _
    simp only [Function.comp]
    congr 1
    omega

/-- C10: with a nonce source that is fresh per call, N consecutive calls of `GenNonce`
return N pairwise distinct nonces. In particular, in one `ComposeShard` body the N
per-shard messages and the final grant message are signed with the values of N+1
consecutive calls, one call per message, and these N+1 nonces (the `Nonce` fields of the
N nodes followed by the `nonce` field of the request) are pairwise distinct. -/
theorem compose_nonces_pairwise_distinct (d : Deps) (hfresh : FreshNonces d) :
    (∀ n s, (drawNonces d n s).Nodup) ∧
    (∀ (consumeList : List AssetShardPair) (param : ComposeParam) (s : St),
      (genComposeShardBody d consumeList param s).1.err = none →
      newNonces s (genComposeShardBody d consumeList param s).2 =
          drawNonces d (consumeList.length + 1) s ∧
        (newNonces s (genComposeShardBody d consumeList param s).2).Nodup ∧
        newSignCalls s (genComposeShardBody d consumeList param s).2 =
          expectedCalls d param.Account.PrivateKey s.draws consumeList ++
            [(param.Account.PrivateKey,
              decimal param.AssetId ++ decimal (d.nonceAt (s.draws + consumeList.length)),
              true)] ∧
        ∃ js sig,
          d.marshalNodes (expectedNodes d param.Account.PrivateKey s.draws consumeList) =
            some js ∧
          (genComposeShardBody d consumeList param s).1.body =
            (composeShardValues param sig (d.nonceAt (s.draws + consumeList.length))
              js).Encode ∧
          (expectedNodes d param.Account.PrivateKey s.draws consumeList).map
              (fun node => node.Nonce) ++ [d.nonceAt (s.draws + consumeList.length)] =
            newNonces s (genComposeShardBody d consumeList param s).2) := by
  constructor
  · intro n s
    rw [drawNonces_eq]
    exact nodup_of_fresh d hfresh s.draws n
  · intro consumeList param s h
    obtain ⟨hne, hall, ⟨js, hjs⟩, ⟨sig, hsig⟩⟩ :=
      genComposeShardBody_produced d consumeList param s h
    obtain ⟨hb, _, hn, hc⟩ := genComposeShardBody_ok d consumeList param s js sig hne hall hjs hsig
    refine ⟨?_, ?_, hc, js, sig, hjs, ?_, ?_⟩
    · rw [hn, drawNonces_eq]
    · rw [hn]
      exact nodup_of_fresh d hfresh s.draws (consumeList.length + 1)
    · rw [hb]
    · rw [hn, expectedNodes_nonces, List.range_succ, List.map_append]
      rfl

/-- Witness for C10: the nonce source 40, 41, 42, ... is fresh, and a `ComposeShard` body
for two shards carries the nonces 40, 41 and 42. -/
theorem compose_nonces_pairwise_distinct_witness :
    FreshNonces (sampleDeps none none) ∧
      (genComposeShardBody (sampleDeps none none) [⟨1, 11⟩, ⟨2, 22⟩] ⟨9, 0, alice, bob, "tok"⟩
        St.init).1.err = none ∧
      newNonces St.init
        (genComposeShardBody (sampleDeps none none) [⟨1, 11⟩, ⟨2, 22⟩] ⟨9, 0, alice, bob, "tok"⟩
          St.init).2 = [40, 41, 42] ∧
      (newNonces St.init
        (genComposeShardBody (sampleDeps none none) [⟨1, 11⟩, ⟨2, 22⟩] ⟨9, 0, alice, bob, "tok"⟩
          St.init).2).Nodup :=
  ⟨fun i j h => by simp [sampleDeps] at h; exact h,
    by decide, by decide,
    ((compose_nonces_pairwise_distinct (sampleDeps none none)
      (fun i j h => by simp [sampleDeps] at h; exact h)).2 [⟨1, 11⟩, ⟨2, 22⟩]
      ⟨9, 0, alice, bob, "tok"⟩ St.init (by decide)).2.1⟩

/-! ## Language inference -/

theorem splitChars_ne_nil (l : List Char) : splitChars l ≠ [] := by
  induction l with
  | nil => simp [splitChars]
  | cons c cs ih =>
    by_cases hc : c = ' '
    · simp [splitChars, hc]
    · cases h : splitChars cs with
      | nil => exact absurd h ih
      | cons t ts => simp [splitChars, hc, h]

theorem splitChars_no_space (a : List Char) (h : ' ' ∉ a) : splitChars a = [a] := by
  induction a with
  | nil => rfl
  | cons c cs ih =>
    have hc : ¬ c = ' ' := fun e => h (by simp [e])
    have hcs : ' ' ∉ cs := fun e => h (by simp [e])
    simp [splitChars, hc, ih hcs]

theorem splitChars_append_space (a b : List Char) (h : ' ' ∉ a) :
    splitChars (a ++ ' ' :: b) = a :: splitChars b := by
  induction a with
  | nil => simp [splitChars]
  | cons c cs ih =>
    have hc : ¬ c = ' ' := fun e => h (by simp [e])
    have hcs : ' ' ∉ cs := fun e => h (by simp [e])
    simp [splitChars, hc, ih hcs]

theorem Split_length_pos (s : String) : (Split s).length ≠ 0 := by
  simp [Split, splitChars_ne_nil]

theorem firstToken_append_space (first rest : String) (h : ' ' ∉ first.data) :
    firstToken (first ++ " " ++ rest) = first := by
  have : (first ++ " " ++ rest).data = first.data ++ ' ' :: rest.data := by
    simp [String.data_append]
  simp [firstToken, Split, this, splitChars_append_space _ _ h]

theorem firstToken_no_space (first : String) (h : ' ' ∉ first.data) :
    firstToken first = first := by
  simp [firstToken, Split, splitChars_no_space _ h]

theorem firstToken_leading_space (rest : String) : firstToken (" " ++ rest) = "" := by
  have : (" " ++ rest).data = ' ' :: rest.data := by simp [String.data_append]
  simp [firstToken, Split, this, splitChars]

theorem InferLanguage_eq (w : Wordlists) (phrase : String) :
    InferLanguage w phrase =
      some (if w.ReversedEnglishWordMap (firstToken phrase) then MnemLangEN
        else if w.ReversedSimplifiedChineseWordMap (firstToken phrase) then MnemLangCN
        else 0) := by
  unfold InferLanguage firstToken
  have hne := splitChars_ne_nil phrase.data
  cases hs : Split phrase with
  | nil => simp [Split, hne] at hs
  | cons t ts =>
    by_cases h1 : w.ReversedEnglishWordMap t = true
    · simp [h1]
    · by_cases h2 : w.ReversedSimplifiedChineseWordMap t = true <;> simp [h1, h2]

/-- C11: `InferLanguage` decides from the first token only. For every phrase the result is
the English code 2 when the first token is in the English table, otherwise the Chinese
code 1 when it is in the Simplified-Chinese table, otherwise 0; two phrases with the same
first token get the same result; and the first token is the text before the first space
(the whole phrase when it contains no space). -/
theorem InferLanguage_first_token_only (w : Wordlists) :
    (∀ phrase, InferLanguage w phrase =
      some (if w.ReversedEnglishWordMap (firstToken phrase) then 2
        else if w.ReversedSimplifiedChineseWordMap (firstToken phrase) then 1
        else 0)) ∧
    (∀ p1 p2, firstToken p1 = firstToken p2 → InferLanguage w p1 = InferLanguage w p2) ∧
    (∀ first rest : String, ' ' ∉ first.data →
      firstToken (first ++ " " ++ rest) = first ∧ firstToken first = first) := by
  refine ⟨fun phrase => InferLanguage_eq w phrase, ?_, ?_⟩
  · intro p1 p2 h
    rw [InferLanguage_eq, InferLanguage_eq, h]
  · intro first rest h
    exact ⟨firstToken_append_space first rest h, firstToken_no_space first h⟩

/-- Witness for C11: two phrases that share the first token `abandon`. -/
theorem InferLanguage_first_token_only_witness :
    firstToken "abandon ability" = firstToken "abandon zoo zoo" ∧
      InferLanguage sampleWords "abandon ability" = InferLanguage sampleWords "abandon zoo zoo" :=
  ⟨by decide,
    (InferLanguage_first_token_only sampleWords).2.1 "abandon ability" "abandon zoo zoo"
      (by decide)⟩

/-- C12 as stated fails: an English word followed by a tab and a second word, and an
English word after one leading space, both have the English word as their first
whitespace-delimited token, yet `InferLanguage` answers 0. -/
theorem InferLanguage_ignores_tabs_and_leading_space :
    firstField "abandon\tability" = "abandon" ∧
      firstField " abandon" = "abandon" ∧
      sampleWords.ReversedEnglishWordMap "abandon" = true ∧
      InferLanguage sampleWords "abandon\tability" = some 0 ∧
      InferLanguage sampleWords " abandon" = some 0 := by
  refine ⟨by decide, by decide, by decide, by decide, by decide⟩

/-- C12 amended: `InferLanguage` splits the phrase at single space characters only. A
phrase whose text before the first space (the whole phrase when it has no space) is an
English-table word is classified English, and likewise Chinese for a Chinese-table word
that is not in the English table; when the phrase starts with a space the token examined
is the empty string. -/
theorem InferLanguage_splits_at_single_spaces (w : Wordlists) (first rest : String)
    (h : ' ' ∉ first.data) :
    (w.ReversedEnglishWordMap first = true →
      InferLanguage w (first ++ " " ++ rest) = some MnemLangEN ∧
        InferLanguage w first = some MnemLangEN) ∧
    (w.ReversedEnglishWordMap first = false →
      w.ReversedSimplifiedChineseWordMap first = true →
      InferLanguage w (first ++ " " ++ rest) = some MnemLangCN ∧
        InferLanguage w first = some MnemLangCN) ∧
    InferLanguage w (" " ++ rest) = InferLanguage w "" := by
  refine ⟨?_, ?_, ?_⟩
  · intro he
    rw [InferLanguage_eq, InferLanguage_eq, firstToken_append_space first rest h,
      firstToken_no_space first h]
    simp [he]
  · intro he hc
    rw [InferLanguage_eq, InferLanguage_eq, firstToken_append_space first rest h,
      firstToken_no_space first h]
    simp [he, hc]
  · rw [InferLanguage_eq, InferLanguage_eq, firstToken_leading_space]
    rfl

/-- Witness for the amended C12: `abandon` followed by one space and a second word. -/
theorem InferLanguage_splits_at_single_spaces_witness :
    ' ' ∉ ("abandon" : String).data ∧
      sampleWords.ReversedEnglishWordMap "abandon" = true ∧
      InferLanguage sampleWords ("abandon" ++ " " ++ "ability") = some MnemLangEN :=
  ⟨by decide, by decide,
    ((InferLanguage_splits_at_single_spaces sampleWords "abandon" "ability" (by decide)).1
      (by decide)).1⟩

/-- C13: `InferLanguage` returns 0 on the empty phrase, the empty string being in neither
word table. -/
theorem InferLanguage_empty (w : Wordlists)
    (he : w.ReversedEnglishWordMap "" = false)
    (hc : w.ReversedSimplifiedChineseWordMap "" = false) :
    InferLanguage w "" = some 0 := by
  rw [InferLanguage_eq]
  have : firstToken "" = "" := by decide
  simp [this, he, hc]

/-- Witness for C13, on the sample word tables. -/
theorem InferLanguage_empty_witness :
    sampleWords.ReversedEnglishWordMap "" = false ∧
      sampleWords.ReversedSimplifiedChineseWordMap "" = false ∧
      InferLanguage sampleWords "" = some 0 :=
  ⟨by decide, by decide, InferLanguage_empty sampleWords (by decide) (by decide)⟩

/-- C14: language inference never fails. For every input `strings.Split` yields at least
one piece, so `ss[0]` is in bounds, the `len(ss) == 0` return is never taken, and the
result is one of the codes 0, 1, 2. -/
theorem InferLanguage_total (w : Wordlists) (mnemonic : String) :
    (Split mnemonic).length ≠ 0 ∧
      (Split mnemonic)[0]? ≠ none ∧
      ∃ code, InferLanguage w mnemonic = some code ∧ (code = 0 ∨ code = 1 ∨ code = 2) := by
  refine ⟨Split_length_pos mnemonic, ?_, ?_⟩
  · have := Split_length_pos mnemonic
    cases hs : Split mnemonic with
    | nil => rw [hs] at this; simp at this
    | cons t ts => simp
  · rw [InferLanguage_eq]
    by_cases h1 : w.ReversedEnglishWordMap (firstToken mnemonic) = true
    · exact ⟨2, by simp [h1, MnemLangEN], Or.inr (Or.inr rfl)⟩
    · by_cases h2 : w.ReversedSimplifiedChineseWordMap (firstToken mnemonic) = true
      · exact ⟨1, by simp [h1, h2, MnemLangCN], Or.inr (Or.inl rfl)⟩
      · exact ⟨0, by simp [h1, h2], Or.inl rfl⟩

/-! ## Account creation and recovery -/

theorem toUint8_of_byte (n : Int) (h0 : 0 ≤ n) (h1 : n < 256) : toUint8 n = n.toNat := by
  unfold toUint8
  rw [Int.emod_eq_of_lt h0 h1]

theorem NewXchainEcdsaAccount_calls (cryptoCli : CryptoClient) (strg lang : Int) :
    (NewXchainEcdsaAccount cryptoCli strg lang).calls = [LibCall.create lang (toUint8 strg)] := by
  unfold NewXchainEcdsaAccount
  cases cryptoCli.CreateNewAccountWithMnemonic lang (toUint8 strg) <;> rfl

theorem RetrieveAccountByMnemonic_calls (cryptoCli : CryptoClient) (mnemonic : String)
    (language : Int) :
    (RetrieveAccountByMnemonic cryptoCli mnemonic language).calls =
      [LibCall.retrieve mnemonic language] := by
  unfold RetrieveAccountByMnemonic
  cases cryptoCli.RetrieveAccountByMnemonic mnemonic language <;> rfl

/-- The conversion `uint8(strg)` makes the out-of-range strength code 257 reach the
library as 1: `NewXchainEcdsaAccount` treats 257 exactly as it treats Weak. -/
theorem NewXchainEcdsaAccount_truncates_strength (cryptoCli : CryptoClient) (lang : Int) :
    toUint8 257 = 1 ∧
      NewXchainEcdsaAccount cryptoCli 257 lang = NewXchainEcdsaAccount cryptoCli 1 lang := by
  have h : toUint8 257 = toUint8 1 := by decide
  refine ⟨by decide, ?_⟩
  unfold NewXchainEcdsaAccount
  rw [h]

/-- C15 as stated fails: the wrappers invoke the derivation library also for out-of-range
codes (strength 0, language 3), so nothing is rejected before the library is invoked. -/
theorem wrappers_invoke_library_on_bad_codes :
    (NewXchainEcdsaAccount (specClient sampleDerivation "e") 0 1).calls =
        [LibCall.create 1 0] ∧
      (RetrieveAccountByMnemonic (specClient sampleDerivation "e") "m" 3).calls =
        [LibCall.retrieve "m" 3] ∧
      ¬ RejectsBeforeLibrary (specClient sampleDerivation "e") := by
  refine ⟨by decide, by decide, ?_⟩
  intro h
  have h0 := (h.1 0 1 (Or.inl (by decide))).2
  rw [NewXchainEcdsaAccount_calls] at h0
  simp at h0

/-- C15 amended: the wrappers make no check of their own. `NewXchainEcdsaAccount` invokes
the library exactly once, with the language code unchanged and, for a strength code in
0..255, the strength code unchanged; `RetrieveAccountByMnemonic` invokes it exactly once
with mnemonic and language unchanged. A code is rejected exactly when the library rejects
it, and then the library's error is returned unchanged with a nil account. -/
theorem wrappers_delegate_validation (cryptoCli : CryptoClient) :
    (∀ strg lang : Int, 0 ≤ strg → strg < 256 →
      (NewXchainEcdsaAccount cryptoCli strg lang).calls = [LibCall.create lang strg.toNat] ∧
        (∀ e, cryptoCli.CreateNewAccountWithMnemonic lang strg.toNat = Except.error e →
          (NewXchainEcdsaAccount cryptoCli strg lang).acc = none ∧
            (NewXchainEcdsaAccount cryptoCli strg lang).err = some e) ∧
        (∀ a, cryptoCli.CreateNewAccountWithMnemonic lang strg.toNat = Except.ok a →
          (NewXchainEcdsaAccount cryptoCli strg lang).acc = some (accountOf a) ∧
            (NewXchainEcdsaAccount cryptoCli strg lang).err = none)) ∧
    (∀ (mnemonic : String) (language : Int),
      (RetrieveAccountByMnemonic cryptoCli mnemonic language).calls =
          [LibCall.retrieve mnemonic language] ∧
        (∀ e, cryptoCli.RetrieveAccountByMnemonic mnemonic language = Except.error e →
          (RetrieveAccountByMnemonic cryptoCli mnemonic language).acc = none ∧
            (RetrieveAccountByMnemonic cryptoCli mnemonic language).err = some e) ∧
        (∀ a, cryptoCli.RetrieveAccountByMnemonic mnemonic language = Except.ok a →
          (RetrieveAccountByMnemonic cryptoCli mnemonic language).acc = some (accountOf a) ∧
            (RetrieveAccountByMnemonic cryptoCli mnemonic language).err = none)) := by
  constructor
  · intro strg lang h0 h1
    have hu := toUint8_of_byte strg h0 h1
    refine ⟨by rw [NewXchainEcdsaAccount_calls, hu], ?_, ?_⟩
    · intro e he
      simp [NewXchainEcdsaAccount, hu, he]
    · intro a ha
      simp [NewXchainEcdsaAccount, hu, ha]
  · intro mnemonic language
    refine ⟨RetrieveAccountByMnemonic_calls cryptoCli mnemonic language, ?_, ?_⟩
    · intro e he
      simp [RetrieveAccountByMnemonic, he]
    · intro a ha
      simp [RetrieveAccountByMnemonic, ha]

/-- Witness for the amended C15: strength code 4 reaches the library, whose rejection is
returned unchanged. -/
theorem wrappers_delegate_validation_witness :
    (specClient sampleDerivation "e").CreateNewAccountWithMnemonic 1 (4 : Int).toNat =
        Except.error InvalidInput ∧
      (NewXchainEcdsaAccount (specClient sampleDerivation "e") 4 1).acc = none ∧
      (NewXchainEcdsaAccount (specClient sampleDerivation "e") 4 1).err = some InvalidInput :=
  ⟨rfl,
    ((wrappers_delegate_validation (specClient sampleDerivation "e")).1 4 1
      (by decide) (by decide)).2.1 InvalidInput rfl⟩

/-- C16: round trip. For every strength in 1, 2, 3 and language in 1, 2, an account
returned by `NewXchainEcdsaAccount` is recovered by `RetrieveAccountByMnemonic` from its
mnemonic and the same language, with identical address, public key and private key. -/
theorem account_round_trip (D : Derivation) (entropy entropy2 : String)
    (strength language : Int)
    (hs : strength = 1 ∨ strength = 2 ∨ strength = 3)
    (hl : language = 1 ∨ language = 2) (a : Account)
    (h : (NewXchainEcdsaAccount (specClient D entropy) strength language).acc = some a) :
    ∃ b, (RetrieveAccountByMnemonic (specClient D entropy2) a.Mnemonic language).acc = some b ∧
      (RetrieveAccountByMnemonic (specClient D entropy2) a.Mnemonic language).err = none ∧
      b.Address = a.Address ∧ b.PublicKey = a.PublicKey ∧ b.PrivateKey = a.PrivateKey := by
  have hlang : ¬ (language < 1 ∨ 2 < language) := by omega
  have hstr : ¬ (toUint8 strength < 1 ∨ 3 < toUint8 strength ∨ language < 1 ∨ 2 < language) := by
    rcases hs with rfl | rfl | rfl <;> simp [toUint8] <;> omega
  simp only [NewXchainEcdsaAccount, specClient, specCreate, hstr, if_false] at h
  cases hd : D.derive entropy with
  | none => rw [hd] at h; simp at h
  | some keys =>
    obtain ⟨address, privateKey, publicKey⟩ := keys
    rw [hd] at h
    simp only [Option.some.injEq] at h
    subst h
    refine ⟨accountOf ⟨address, privateKey, publicKey, D.encode entropy language⟩, ?_, ?_,
      rfl, rfl, rfl⟩
    · simp [RetrieveAccountByMnemonic, specClient, specRetrieve, hlang, accountOf,
        D.decode_encode, hd]
    · simp [RetrieveAccountByMnemonic, specClient, specRetrieve, hlang, accountOf,
        D.decode_encode, hd]

/-- Witness for C16: a Medium-strength English account created from the entropy `e7`. -/
theorem account_round_trip_witness :
    (NewXchainEcdsaAccount (specClient sampleDerivation "e7") 2 2).acc =
        some ⟨"addr-e7", "sk-e7", "pk-e7", "e7"⟩ ∧
      ∃ b, (RetrieveAccountByMnemonic (specClient sampleDerivation "other") "e7" 2).acc =
          some b ∧
        (RetrieveAccountByMnemonic (specClient sampleDerivation "other") "e7" 2).err = none ∧
        b.Address = "addr-e7" ∧ b.PublicKey = "pk-e7" ∧ b.PrivateKey = "sk-e7" :=
  ⟨by decide,
    account_round_trip sampleDerivation "e7" "other" 2 2 (Or.inr (Or.inl rfl)) (Or.inr rfl)
      ⟨"addr-e7", "sk-e7", "pk-e7", "e7"⟩ (by decide)⟩


/-! ## Federated binding -/

@[simp] theorem logsOf_append (a b : List Event) : logsOf (a ++ b) = logsOf a ++ logsOf b := by
  induction a with
  | nil => rfl
  | cons e rest ih => cases e <;> simp [logsOf, ih]

@[simp] theorem obscureCalls_append (a b : List Event) :
    obscureCalls (a ++ b) = obscureCalls a ++ obscureCalls b := by
  induction a with
  | nil => rfl
  | cons e rest ih => cases e <;> simp [obscureCalls, ih]

theorem newPosts_of_trace (s s' : St) (evs : List Event) (h : s'.trace = s.trace ++ evs) :
    newPosts s s' = posts evs := by
  simp [newPosts, h]

theorem newLogs_of_trace (s s' : St) (evs : List Event) (h : s'.trace = s.trace ++ evs) :
    newLogs s s' = logsOf evs := by
  simp [newLogs, h]

theorem newObscureCalls_of_trace (s s' : St) (evs : List Event)
    (h : s'.trace = s.trace ++ evs) : newObscureCalls s s' = obscureCalls evs := by
  simp [newObscureCalls, h]

theorem obscureAll_posts (f : FedDeps) (fields : List SensitiveField) :
    posts (obscureAll f fields).2 = [] := by
  induction fields with
  | nil => rfl
  | cons fld rest ih =>
    unfold obscureAll
    cases h : aesEncodeStr f fld.plain with
    | error err => simp [posts]
    | ok token =>
      rcases h2 : obscureAll f rest with ⟨r, evs⟩
      rw [h2] at ih
      cases r <;> simpa [posts] using ih

theorem obscureAll_ok (f : FedDeps) (fields : List SensitiveField)
    (pairs : List (String × String)) (h : (obscureAll f fields).1 = Except.ok pairs) :
    tokenFields f (fields.map (fun fld => (fld.key, fld.plain))) pairs ∧
      logsOf (obscureAll f fields).2 = [] ∧
      ∀ plain e, (plain, e) ∈ obscureCalls (obscureAll f fields).2 → e = none := by
  induction fields generalizing pairs with
  | nil =>
    simp [obscureAll] at h
    subst h
    simp [obscureAll, tokenFields, logsOf, obscureCalls]
  | cons fld rest ih =>
    unfold obscureAll at h ⊢
    cases h1 : aesEncodeStr f fld.plain with
    | error err => simp [h1] at h
    | ok token =>
      rcases h2 : obscureAll f rest with ⟨r, evs⟩
      rw [h2] at ih
      cases r with
      | error err => simp [h1, h2] at h
      | ok ps =>
        simp [h1, h2] at h
        subst h
        obtain ⟨a, b, c⟩ := ih ps rfl
        refine ⟨?_, ?_, ?_⟩
        · simp [tokenFields, h1, a]
        · simpa [logsOf] using b
        · intro plain e hm
          simp [obscureCalls] at hm
          rcases hm with hm | hm
          · exact hm.2
          · exact c plain e hm

theorem obscureAll_error (f : FedDeps) (fields : List SensitiveField) (err : Error)
    (h : (obscureAll f fields).1 = Except.error err) :
    (∃ plain, (plain, some err) ∈ obscureCalls (obscureAll f fields).2) ∧
      ∀ plain e, (plain, some e) ∈ obscureCalls (obscureAll f fields).2 → e = err := by
  induction fields with
  | nil => simp [obscureAll] at h
  | cons fld rest ih =>
    unfold obscureAll at h ⊢
    cases h1 : aesEncodeStr f fld.plain with
    | error e1 =>
      simp [h1] at h
      subst h
      simp [obscureCalls]
    | ok token =>
      rcases h2 : obscureAll f rest with ⟨r, evs⟩
      rw [h2] at ih
      cases r with
      | ok ps => simp [h1, h2] at h
      | error e2 =>
        simp [h1, h2] at h
        subst h
        obtain ⟨⟨p, hp⟩, b⟩ := ih rfl
        refine ⟨⟨p, ?_⟩, ?_⟩
        · simp [obscureCalls]; exact hp
        · intro plain e hm
          simp [obscureCalls] at hm
          exact b plain e hm

theorem classifyReply_events {ρ : Type} (f : FedDeps) (api : Api) (decode : String → Option ρ)
    (errno : ρ → Int) (requestId : ρ → String) (reply : Option RequestRes) :
    posts (classifyReply f api decode errno requestId reply).2 = [] ∧
      obscureCalls (classifyReply f api decode errno requestId reply).2 = [] := by
  unfold classifyReply
  cases reply with
  | none => simp [posts, obscureCalls]
  | some res =>
    simp only []
    split
    · simp [posts, obscureCalls]
    · split
      · simp [posts, obscureCalls]
      · split <;> simp [posts, obscureCalls]

theorem classifyReply_accepted {ρ : Type} (f : FedDeps) (api : Api) (decode : String → Option ρ)
    (errno : ρ → Int) (requestId : ρ → String) (reply : Option RequestRes)
    (res : RequestRes) (resp : ρ) (logs : List Event)
    (h : classifyReply f api decode errno requestId reply = (ReplyOutcome.accepted res resp, logs)) :
    logs = [] := by
  unfold classifyReply at h
  cases reply with
  | none => simp at h
  | some r =>
    simp only [] at h
    split at h
    · simp at h
    · split at h
      · simp at h
      · split at h
        · simp at h
        · simp at h; exact h.2

theorem fedOp_aborts {ρ : Type} (f : FedDeps) (valid : Option Error)
    (fields : List SensitiveField) (api : Api) (decode : String → Option ρ) (errno : ρ → Int)
    (requestId : ρ → String) (finish : RequestRes → ρ → Except Error ρ × List Event)
    (succFormat : String) (succPlain : List String) (s : St)
    (hfin : ∀ res resp, obscureCalls (finish res resp).2 = []) :
    ObscureFailureAborts s
      (fedOp f valid fields api decode errno requestId finish succFormat succPlain s) := by
  intro plain e hm
  unfold fedOp at hm ⊢
  cases valid with
  | some err => simp [newObscureCalls] at hm
  | none =>
    simp only [] at hm ⊢
    rcases h1 : obscureAll f fields with ⟨r, evs⟩
    have hp := obscureAll_posts f fields
    rw [h1] at hp
    rw [h1] at hm
    cases r with
    | error err =>
      have he := (obscureAll_error f fields err (by rw [h1])).2
      rw [h1] at he
      simp only [] at hm ⊢
      rw [newObscureCalls_of_trace s _ evs rfl] at hm
      have := he plain e hm
      subst this
      exact ⟨by simp, by rw [newPosts_of_trace s _ evs rfl]; exact hp⟩
    | ok pairs =>
      exfalso
      have ho := (obscureAll_ok f fields pairs (by rw [h1])).2.2
      rw [h1] at ho
      simp only [Post] at hm
      rcases h3 : classifyReply f api decode errno requestId
        (f.postReply api (setAll pairs).Encode) with ⟨o, logs⟩
      have hc := (classifyReply_events f api decode errno requestId
        (f.postReply api (setAll pairs).Encode)).2
      rw [h3] at hc hm
      cases o with
      | failed res err =>
        simp [newObscureCalls, emit, obscureCalls, hc] at hm
        exact absurd (ho plain _ hm) (by simp)
      | accepted res resp =>
        simp only [] at hm
        have hf := hfin res resp
        rcases h4 : finish res resp with ⟨r2, evs2⟩
        rw [h4] at hm hf
        cases r2 <;>
        · simp [newObscureCalls, emit, obscureCalls, hc, hf] at hm
          exact absurd (ho plain _ hm) (by simp)

theorem fedOp_posts {ρ : Type} (f : FedDeps) (valid : Option Error)
    (fields : List SensitiveField) (api : Api) (decode : String → Option ρ) (errno : ρ → Int)
    (requestId : ρ → String) (finish : RequestRes → ρ → Except Error ρ × List Event)
    (succFormat : String) (succPlain : List String) (s : St)
    (hfin : ∀ res resp, posts (finish res resp).2 = []) :
    PostsTokens f api (fields.map (fun fld => (fld.key, fld.plain))) s
      (fedOp f valid fields api decode errno requestId finish succFormat succPlain s).2 := by
  intro a body hm
  unfold fedOp at hm
  cases valid with
  | some err => simp [newPosts] at hm
  | none =>
    simp only [] at hm
    rcases h1 : obscureAll f fields with ⟨r, evs⟩
    have hp := obscureAll_posts f fields
    rw [h1] at hp
    rw [h1] at hm
    cases r with
    | error err =>
      simp only [] at hm
      rw [newPosts_of_trace s _ evs rfl, hp] at hm
      simp at hm
    | ok pairs =>
      have ho := (obscureAll_ok f fields pairs (by rw [h1])).1
      simp only [Post] at hm
      rcases h3 : classifyReply f api decode errno requestId
        (f.postReply api (setAll pairs).Encode) with ⟨o, logs⟩
      have hc := (classifyReply_events f api decode errno requestId
        (f.postReply api (setAll pairs).Encode)).1
      rw [h3] at hc hm
      cases o with
      | failed res err =>
        simp [newPosts, emit, posts, hc, hp] at hm
        exact ⟨hm.1, pairs, ho, hm.2⟩
      | accepted res resp =>
        simp only [] at hm
        have hf := hfin res resp
        rcases h4 : finish res resp with ⟨r2, evs2⟩
        rw [h4] at hm hf
        cases r2 <;>
        · simp [newPosts, emit, posts, hc, hf, hp] at hm
          exact ⟨hm.1, pairs, ho, hm.2⟩

theorem fedOp_summary {ρ : Type} (f : FedDeps) (valid : Option Error)
    (fields : List SensitiveField) (api : Api) (decode : String → Option ρ) (errno : ρ → Int)
    (requestId : ρ → String) (finish : RequestRes → ρ → Except Error ρ × List Event)
    (succFormat : String) (succPlain : List String) (s : St)
    (hfin : ∀ res resp, posts (finish res resp).2 = [])
    (hall : AllObscured s
      (fedOp f valid fields api decode errno requestId finish succFormat succPlain s).2) :
    (repliesTo f s
        (fedOp f valid fields api decode errno requestId finish succFormat succPlain s).2 = [] ∧
      newLogs s
        (fedOp f valid fields api decode errno requestId finish succFormat succPlain s).2 = []) ∨
    ∃ reply, repliesTo f s
        (fedOp f valid fields api decode errno requestId finish succFormat succPlain s).2
          = [reply] ∧
      (((fedOp f valid fields api decode errno requestId finish succFormat succPlain s).1.err
          ≠ none) ↔
        ∀ res resp logs resp2 evs2,
          classifyReply f api decode errno requestId reply = (ReplyOutcome.accepted res resp, logs) →
          finish res resp ≠ (Except.ok resp2, evs2)) ∧
      (((fedOp f valid fields api decode errno requestId finish succFormat succPlain s).1.err
          ≠ none) →
        newLogs s
          (fedOp f valid fields api decode errno requestId finish succFormat succPlain s).2 =
        logsOf (classifyReply f api decode errno requestId reply).2 ++
          (match (classifyReply f api decode errno requestId reply).1 with
            | ReplyOutcome.accepted res resp => logsOf (finish res resp).2
            | ReplyOutcome.failed _ _ => [])) := by
  unfold fedOp at hall ⊢
  cases valid with
  | some err => left; simp [repliesTo, newPosts, newLogs]
  | none =>
    simp only [] at hall ⊢
    rcases h1 : obscureAll f fields with ⟨r, evs⟩
    have hp := obscureAll_posts f fields
    rw [h1] at hp
    rw [h1] at hall
    cases r with
    | error err =>
      exfalso
      obtain ⟨plain, hm⟩ := (obscureAll_error f fields err (by rw [h1])).1
      rw [h1] at hm
      have := hall plain (some err) (by
        simp only []
        rw [newObscureCalls_of_trace s _ evs rfl]; exact hm)
      simp at this
    | ok pairs =>
      right
      have hl := (obscureAll_ok f fields pairs (by rw [h1])).2.1
      rw [h1] at hl
      refine ⟨f.postReply api (setAll pairs).Encode, ?_⟩
      simp only [Post]
      rcases h3 : classifyReply f api decode errno requestId
        (f.postReply api (setAll pairs).Encode) with ⟨o, logs⟩
      have hc := (classifyReply_events f api decode errno requestId
        (f.postReply api (setAll pairs).Encode)).1
      rw [h3] at hc
      cases o with
      | failed res err =>
        simp [repliesTo, newPosts, newLogs, emit, posts, logsOf, hc, hp, hl]
      | accepted res resp =>
        simp only []
        have hf := hfin res resp
        have hlogs := classifyReply_accepted f api decode errno requestId _ res resp logs h3
        subst hlogs
        rcases h4 : finish res resp with ⟨r2, evs2⟩
        rw [h4] at hf
        cases r2 with
        | error e2 =>
          simp [repliesTo, newPosts, newLogs, emit, posts, logsOf, hc, hf, hp, hl, h4]
          intro res1 resp1 logs1 resp2 evs3 hr hs _
          subst hr hs
          simp [h4]
        | ok resp2 =>
          simp [repliesTo, newPosts, newLogs, emit, posts, logsOf, hc, hf, hp, hl, h4]

theorem fedOp_failure_logs {ρ : Type} (f : FedDeps) (valid valid2 : Option Error)
    (fields fields2 : List SensitiveField) (api : Api) (decode : String → Option ρ)
    (errno : ρ → Int) (requestId : ρ → String)
    (finish : RequestRes → ρ → Except Error ρ × List Event)
    (succFormat succFormat2 : String) (succPlain succPlain2 : List String) (s s2 : St)
    (hfin : ∀ res resp, posts (finish res resp).2 = [])
    (hall : AllObscured s
      (fedOp f valid fields api decode errno requestId finish succFormat succPlain s).2)
    (hall2 : AllObscured s2
      (fedOp f valid2 fields2 api decode errno requestId finish succFormat2 succPlain2 s2).2)
    (hr : repliesTo f s
        (fedOp f valid fields api decode errno requestId finish succFormat succPlain s).2 =
      repliesTo f s2
        (fedOp f valid2 fields2 api decode errno requestId finish succFormat2 succPlain2 s2).2)
    (he : (fedOp f valid fields api decode errno requestId finish succFormat succPlain s).1.err
      ≠ none) :
    newLogs s (fedOp f valid fields api decode errno requestId finish succFormat succPlain s).2 =
      newLogs s2
        (fedOp f valid2 fields2 api decode errno requestId finish succFormat2 succPlain2 s2).2 := by
  rcases fedOp_summary f valid fields api decode errno requestId finish succFormat succPlain s
    hfin hall with ⟨a1, b1⟩ | ⟨reply, a1, b1, c1⟩ <;>
  rcases fedOp_summary f valid2 fields2 api decode errno requestId finish succFormat2 succPlain2 s2
    hfin hall2 with ⟨a2, b2⟩ | ⟨reply2, a2, b2, c2⟩
  · rw [b1, b2]
  · rw [a1, a2] at hr; simp at hr
  · rw [a1, a2] at hr; simp at hr
  · rw [a1, a2] at hr
    simp at hr
    subst hr
    rw [c1 he, c2 (b2.mpr (b1.mp he))]

theorem noFinish_posts {ρ : Type} (res : RequestRes) (resp : ρ) :
    posts (noFinish res resp).2 = [] := rfl

theorem noFinish_obscureCalls {ρ : Type} (res : RequestRes) (resp : ρ) :
    obscureCalls (noFinish res resp).2 = [] := rfl

theorem revealMnemonic_posts (f : FedDeps) (res : RequestRes) (resp : BdBoxRegisterResp) :
    posts (revealMnemonic f res resp).2 = [] := by
  unfold revealMnemonic
  cases aesDecodeStr f resp.Mnemonic <;> simp [posts]

theorem revealMnemonic_obscureCalls (f : FedDeps) (res : RequestRes)
    (resp : BdBoxRegisterResp) : obscureCalls (revealMnemonic f res resp).2 = [] := by
  unfold revealMnemonic
  cases aesDecodeStr f resp.Mnemonic <;> simp [obscureCalls]

/-- C17: whenever `aesEncodeStr` succeeds on `s` with token `token`, `aesDecodeStr`
succeeds on `token` and returns `s`; both methods call the cipher with the configured
`SecretAccessKey`. -/
theorem aes_round_trip (f : FedDeps) (s token : String)
    (h : aesEncodeStr f s = Except.ok token) :
    aesDecodeStr f token = Except.ok s ∧
      aesEncodeStr f s = f.cipher.AesEncode s f.SecretAccessKey ∧
      aesDecodeStr f token = f.cipher.AesDecode token f.SecretAccessKey :=
  ⟨f.cipher.reveal_obscure s f.SecretAccessKey token h, rfl, rfl⟩

/-- Witness of C17: under the sample cipher and the secret `"k"`, `"u1"` is obscured
to `"ku1"` and revealed again. -/
theorem aes_round_trip_witness :
    aesEncodeStr (sampleFed none none none) "u1" = Except.ok "ku1" ∧
      aesDecodeStr (sampleFed none none none) "ku1" = Except.ok "u1" :=
  ⟨rfl, (aes_round_trip (sampleFed none none none) "u1" "ku1" rfl).1⟩

/-- C18: in `SceneListAddr`, `BdBoxRegister`, `BdBoxBind`, `BindByUnionId` and
`GetAddrByUnionId`, an `aesEncodeStr` call that fails makes the operation return that
error with a nil response and a nil `RequestRes`, and nothing is posted. -/
theorem obscure_failure_aborts (f : FedDeps) (s : St) (uid : String)
    (reg : BdBoxRegisterParam) (bind : BdBoxBindParam) (byUid : BindByUnionIdParam) :
    ObscureFailureAborts s (SceneListAddr f uid s) ∧
      ObscureFailureAborts s (BdBoxRegister f reg s) ∧
      ObscureFailureAborts s (BdBoxBind f bind s) ∧
      ObscureFailureAborts s (BindByUnionId f byUid s) ∧
      ObscureFailureAborts s (GetAddrByUnionId f uid s) :=
  ⟨fedOp_aborts _ _ _ _ _ _ _ _ _ _ _ noFinish_obscureCalls,
    fedOp_aborts _ _ _ _ _ _ _ _ _ _ _ (revealMnemonic_obscureCalls f),
    fedOp_aborts _ _ _ _ _ _ _ _ _ _ _ noFinish_obscureCalls,
    fedOp_aborts _ _ _ _ _ _ _ _ _ _ _ noFinish_obscureCalls,
    fedOp_aborts _ _ _ _ _ _ _ _ _ _ _ noFinish_obscureCalls⟩

/-- Witness of C18: `BdBoxBind` with an open id and an app key that are obscured and a
mnemonic the cipher rejects returns the cipher error alone and posts nothing. -/
theorem obscure_failure_aborts_witness :
    ("abandon ability", some (Error.other "aes encode")) ∈
        newObscureCalls St.init
          (BdBoxBind sampleFedOk
            ⟨"o1", "a1", "abandon ability"⟩ St.init).2 ∧
      ((BdBoxBind sampleFedOk
            ⟨"o1", "a1", "abandon ability"⟩ St.init).1.resp = none ∧
        (BdBoxBind sampleFedOk
            ⟨"o1", "a1", "abandon ability"⟩ St.init).1.res = none ∧
        (BdBoxBind sampleFedOk
            ⟨"o1", "a1", "abandon ability"⟩ St.init).1.err = some (Error.other "aes encode")) ∧
      newPosts St.init
          (BdBoxBind sampleFedOk
            ⟨"o1", "a1", "abandon ability"⟩ St.init).2 = [] :=
  ⟨by decide,
    (obscure_failure_aborts sampleFedOk
      St.init "u1" ⟨"o1", "a1"⟩ ⟨"o1", "a1", "abandon ability"⟩ ⟨"u1", "abandon"⟩).2.2.1
      "abandon ability" (Error.other "aes encode") (by decide)⟩

/-- C19: every request posted by `SceneListAddr`, `BdBoxRegister`, `BdBoxBind`,
`BindByUnionId` and `GetAddrByUnionId` goes to the endpoint of the operation, and its
body is the encoding of the form whose `union_id`, `open_id`, `app_key` and `mnemonic`
entries are the tokens `aesEncodeStr` returned for the corresponding inputs; the form
has no other entry. -/
theorem posted_fields_are_tokens (f : FedDeps) (s : St) (uid : String)
    (reg : BdBoxRegisterParam) (bind : BdBoxBindParam) (byUid : BindByUnionIdParam) :
    PostsTokens f Api.SceneListAddr [("union_id", uid)] s (SceneListAddr f uid s).2 ∧
      PostsTokens f Api.DidApiRegister [("open_id", reg.OpenId), ("app_key", reg.AppKey)] s
        (BdBoxRegister f reg s).2 ∧
      PostsTokens f Api.DidApiBind
        [("open_id", bind.OpenId), ("app_key", bind.AppKey), ("mnemonic", bind.Mnemonic)] s
        (BdBoxBind f bind s).2 ∧
      PostsTokens f Api.DidApiBindByUid
        [("union_id", byUid.UnionId), ("mnemonic", byUid.Mnemonic)] s
        (BindByUnionId f byUid s).2 ∧
      PostsTokens f Api.DidApiGetAddrByUid [("union_id", uid)] s (GetAddrByUnionId f uid s).2 :=
  ⟨fedOp_posts _ _ _ _ _ _ _ _ _ _ _ noFinish_posts,
    fedOp_posts _ _ _ _ _ _ _ _ _ _ _ (revealMnemonic_posts f),
    fedOp_posts _ _ _ _ _ _ _ _ _ _ _ noFinish_posts,
    fedOp_posts _ _ _ _ _ _ _ _ _ _ _ noFinish_posts,
    fedOp_posts _ _ _ _ _ _ _ _ _ _ _ noFinish_posts⟩

/-- Witness of C19: `BdBoxBind` under the sample cipher with secret `"k"` posts the
three tokens `"ko1"`, `"ka1"` and `"kabandon"`. -/
theorem posted_fields_are_tokens_witness :
    (Api.DidApiBind, "app_key=ka1&mnemonic=kabandon&open_id=ko1") ∈
        newPosts St.init (BdBoxBind sampleFedOk ⟨"o1", "a1", "abandon"⟩ St.init).2 ∧
      (Api.DidApiBind = Api.DidApiBind ∧
        ∃ pairs,
          tokenFields sampleFedOk
            [("open_id", "o1"), ("app_key", "a1"), ("mnemonic", "abandon")] pairs ∧
          "app_key=ka1&mnemonic=kabandon&open_id=ko1" = (setAll pairs).Encode) :=
  ⟨by decide,
    (posted_fields_are_tokens sampleFedOk St.init "u1" ⟨"o1", "a1"⟩ ⟨"o1", "a1", "abandon"⟩
      ⟨"u1", "abandon"⟩).2.2.1 Api.DidApiBind "app_key=ka1&mnemonic=kabandon&open_id=ko1"
      (by decide)⟩

/-- C20, counterexample: two successful runs of `SceneListAddr` that differ only in
the union id write different log messages, each carrying its plaintext union id; and
`BindByUnionId` logs the plaintext mnemonic when obscuring it fails. -/
theorem logs_carry_plaintext :
    newLogs St.init (SceneListAddr sampleFedOk "u1" St.init).2 =
        [(LogLevel.Trace, "operate succ. [union_id: %s] [url: %s] [request_id: %s] [trace_id: %s]",
          [LogArg.str "u1", LogArg.str "https://host/api", LogArg.str "r1",
            LogArg.str "trace-1"])] ∧
      newLogs St.init (SceneListAddr sampleFedOk "u1" St.init).2 ≠
        newLogs St.init (SceneListAddr sampleFedOk "u2" St.init).2 ∧
      newLogs St.init (BindByUnionId sampleFedOk ⟨"u1", "abandon ability"⟩ St.init).2 =
        [(LogLevel.Warn, "encode mnemonic fail, mnemonic: %s",
          [LogArg.str "abandon ability"])] := by
  decide

/-- C20, amended: once every sensitive field has been obscured, a run of
`SceneListAddr`, `BdBoxRegister`, `BdBoxBind`, `BindByUnionId` or `GetAddrByUnionId`
that ends in an error writes log messages that depend on the endpoint and the reply
only: two such runs of the same operation on different inputs that receive the same
replies write the same sequence of log messages. -/
theorem failure_logs_independent_of_plaintext (f : FedDeps) (s s2 : St) (uid uid2 : String)
    (reg reg2 : BdBoxRegisterParam) (bind bind2 : BdBoxBindParam)
    (byUid byUid2 : BindByUnionIdParam) :
    SameFailureLogs f s (SceneListAddr f uid s) s2 (SceneListAddr f uid2 s2) ∧
      SameFailureLogs f s (BdBoxRegister f reg s) s2 (BdBoxRegister f reg2 s2) ∧
      SameFailureLogs f s (BdBoxBind f bind s) s2 (BdBoxBind f bind2 s2) ∧
      SameFailureLogs f s (BindByUnionId f byUid s) s2 (BindByUnionId f byUid2 s2) ∧
      SameFailureLogs f s (GetAddrByUnionId f uid s) s2 (GetAddrByUnionId f uid2 s2) :=
  ⟨fun a b c d => fedOp_failure_logs _ _ _ _ _ _ _ _ _ _ _ _ _ _ _ _ noFinish_posts a b c d,
    fun a b c d =>
      fedOp_failure_logs _ _ _ _ _ _ _ _ _ _ _ _ _ _ _ _ (revealMnemonic_posts f) a b c d,
    fun a b c d => fedOp_failure_logs _ _ _ _ _ _ _ _ _ _ _ _ _ _ _ _ noFinish_posts a b c d,
    fun a b c d => fedOp_failure_logs _ _ _ _ _ _ _ _ _ _ _ _ _ _ _ _ noFinish_posts a b c d,
    fun a b c d => fedOp_failure_logs _ _ _ _ _ _ _ _ _ _ _ _ _ _ _ _ noFinish_posts a b c d⟩

/-- Witness of C20, amended: against a server that answers with status 500,
`SceneListAddr` writes the same single warning for the union ids `"u1"` and `"u2"`. -/
theorem failure_logs_independent_of_plaintext_witness :
    newLogs St.init (SceneListAddr sampleFed500 "u1" St.init).2 =
        newLogs St.init (SceneListAddr sampleFed500 "u2" St.init).2 ∧
      newLogs St.init (SceneListAddr sampleFed500 "u1" St.init).2 =
        [(LogLevel.Warn,
          "post req resp not 200.[http_code: %d] [url: %s] [body: %s] [trace_id: %s]",
          [LogArg.num 500, LogArg.str "https://host/api", LogArg.str "busy",
            LogArg.str "trace-1"])] :=
  ⟨(failure_logs_independent_of_plaintext sampleFed500 St.init St.init "u1" "u2"
      ⟨"o1", "a1"⟩ ⟨"o2", "a1"⟩ ⟨"o1", "a1", "abandon"⟩ ⟨"o2", "a1", "ability"⟩
      ⟨"u1", "abandon"⟩ ⟨"u2", "ability"⟩).1
      (fun plain e hm => by
        have h : newObscureCalls St.init (SceneListAddr sampleFed500 "u1" St.init).2 =
            [("u1", none)] := by decide
        rw [h] at hm
        simp at hm
        exact hm.2)
      (fun plain e hm => by
        have h : newObscureCalls St.init (SceneListAddr sampleFed500 "u2" St.init).2 =
            [("u2", none)] := by decide
        rw [h] at hm
        simp at hm
        exact hm.2)
      (by decide) (by decide),
    by decide⟩


/-! ## Form fields of `genAlterAssetBody` and `genCreateAssetBody` -/

theorem Values.Has_empty (k : String) : Values.empty.Has k = false := rfl

theorem Values.Get_empty (k : String) : Values.empty.Get k = "" := rfl

theorem alterAssetValues_price_amount (d : Deps) (param : AlterAssetParam) (sig : String)
    (n : Int) :
    (alterAssetValues d param sig n).Has "price" = (d.PriceInvalid param.Price).isNone ∧
      ((d.PriceInvalid param.Price).isNone = true →
        (alterAssetValues d param sig n).Get "price" = decimal param.Price) ∧
      (alterAssetValues d param sig n).Has "amount" = (d.AmountInvalid param.Amount).isNone ∧
      ((d.AmountInvalid param.Amount).isNone = true →
        (alterAssetValues d param sig n).Get "amount" = decimal param.Amount) := by
  unfold alterAssetValues
  by_cases h1 : (d.PriceInvalid param.Price).isNone = true <;>
  by_cases h2 : (d.AmountInvalid param.Amount).isNone = true <;>
  by_cases h3 : (d.AmountInvalid param.ViewType).isNone = true <;>
  simp [h1, h2, h3, Values.Has_Set_ne, Values.Get_Set_ne, Values.Has_empty]

theorem alterAssetFileHash_other (param : AlterAssetParam) (v : Values) (k : String)
    (hk : "file_hash" ≠ k) :
    (alterAssetFileHash param v).Has k = v.Has k ∧
      (alterAssetFileHash param v).Get k = v.Get k := by
  unfold alterAssetFileHash
  by_cases h : param.FileHash ≠ ""
  · rw [if_pos h]
    exact ⟨Values.Has_Set_ne _ _ _ _ hk, Values.Get_Set_ne _ _ _ _ hk⟩
  · rw [if_neg h]
    exact ⟨rfl, rfl⟩

theorem genAlterAssetBody_form (d : Deps) (param : AlterAssetParam) (s : St)
    (hok : (genAlterAssetBody d param s).1.err = none) :
    ∃ v : Values, (genAlterAssetBody d param s).1.body = v.Encode ∧
      v.Has "price" = (d.PriceInvalid param.Price).isNone ∧
      ((d.PriceInvalid param.Price).isNone = true → v.Get "price" = decimal param.Price) ∧
      v.Has "amount" = (d.AmountInvalid param.Amount).isNone ∧
      ((d.AmountInvalid param.Amount).isNone = true →
        v.Get "amount" = decimal param.Amount) := by
  rw [genAlterAssetBody_eq] at hok ⊢
  cases hs : d.signECDSA param.Account.PrivateKey
    (decimal param.AssetId ++ decimal (d.nonceAt s.draws)) with
  | none => rw [signThen_fail _ _ _ _ _ hs] at hok; simp at hok
  | some sig =>
    rw [signThen_ok _ _ _ _ _ sig hs] at hok ⊢
    have hA := alterAssetValues_price_amount d param sig (d.nonceAt s.draws)
    by_cases hv : (d.AlterAssetInfoValid param.AssetInfo).isNone = true
    · simp only [hv, if_true] at hok ⊢
      cases hm : d.marshalAssetInfo param.AssetInfo with
      | none => rw [hm] at hok; simp at hok
      | some info =>
        refine ⟨_, rfl, ?_, ?_, ?_, ?_⟩
        · rw [(alterAssetFileHash_other param _ "price" (by decide)).1,
            Values.Has_Set_ne _ _ _ _ (by decide)]
          exact hA.1
        · intro h
          rw [(alterAssetFileHash_other param _ "price" (by decide)).2,
            Values.Get_Set_ne _ _ _ _ (by decide)]
          exact hA.2.1 h
        · rw [(alterAssetFileHash_other param _ "amount" (by decide)).1,
            Values.Has_Set_ne _ _ _ _ (by decide)]
          exact hA.2.2.1
        · intro h
          rw [(alterAssetFileHash_other param _ "amount" (by decide)).2,
            Values.Get_Set_ne _ _ _ _ (by decide)]
          exact hA.2.2.2 h
    · simp only [hv] at hok ⊢
      refine ⟨_, rfl, ?_, ?_, ?_, ?_⟩
      · rw [(alterAssetFileHash_other param _ "price" (by decide)).1]; exact hA.1
      · intro h
        rw [(alterAssetFileHash_other param _ "price" (by decide)).2]; exact hA.2.1 h
      · rw [(alterAssetFileHash_other param _ "amount" (by decide)).1]; exact hA.2.2.1
      · intro h
        rw [(alterAssetFileHash_other param _ "amount" (by decide)).2]; exact hA.2.2.2 h

/-- C21: `xbase.PriceInvalid` and `xbase.AmountInvalid` rejecting -1 and accepting every
value from 0 on, a body built by `genAlterAssetBody` encodes a form that has no `price`
field when `Price` is -1 and no `amount` field when `Amount` is -1, and that has the
field with the decimal text of the value when `Price`, respectively `Amount`, is 0 or
positive. -/
theorem genAlterAssetBody_price_and_amount (d : Deps) (param : AlterAssetParam) (s : St)
    (hp : d.PriceInvalid (-1) ≠ none) (hp0 : ∀ p, 0 ≤ p → d.PriceInvalid p = none)
    (ha : d.AmountInvalid (-1) ≠ none) (ha0 : ∀ a, 0 ≤ a → d.AmountInvalid a = none)
    (hok : (genAlterAssetBody d param s).1.err = none) :
    ∃ v : Values, (genAlterAssetBody d param s).1.body = v.Encode ∧
      (param.Price = -1 → v.Has "price" = false) ∧
      (0 ≤ param.Price → v.Has "price" = true ∧ v.Get "price" = decimal param.Price) ∧
      (param.Amount = -1 → v.Has "amount" = false) ∧
      (0 ≤ param.Amount → v.Has "amount" = true ∧ v.Get "amount" = decimal param.Amount) := by
  obtain ⟨v, hb, h1, h2, h3, h4⟩ := genAlterAssetBody_form d param s hok
  refine ⟨v, hb, ?_, ?_, ?_, ?_⟩
  · intro h
    rw [h1, h]
    cases hx : d.PriceInvalid (-1) with
    | none => exact absurd hx hp
    | some e => rfl
  · intro h
    have hx := hp0 param.Price h
    exact ⟨by rw [h1, hx]; rfl, h2 (by rw [hx]; rfl)⟩
  · intro h
    rw [h3, h]
    cases hx : d.AmountInvalid (-1) with
    | none => exact absurd hx ha
    | some e => rfl
  · intro h
    have hx := ha0 param.Amount h
    exact ⟨by rw [h3, hx]; rfl, h4 (by rw [hx]; rfl)⟩

/-- Witness for C21: altering asset 5 with price -1 and amount 3 sends `amount=3` and no
price. -/
theorem genAlterAssetBody_price_and_amount_witness :
    (genAlterAssetBody (sampleDeps none none) ⟨5, alice, -1, 3, -1, "", ""⟩ St.init).1.body =
        "addr=addrA&amount=3&asset_id=5&nonce=40&pkey=pkA&sign=sig%28skA%2C540%29" ∧
      ∃ v : Values,
        (genAlterAssetBody (sampleDeps none none) ⟨5, alice, -1, 3, -1, "", ""⟩ St.init).1.body =
          v.Encode ∧
        ((-1 : Int) = -1 → v.Has "price" = false) ∧
        (0 ≤ (-1 : Int) → v.Has "price" = true ∧ v.Get "price" = decimal (-1)) ∧
        ((3 : Int) = -1 → v.Has "amount" = false) ∧
        (0 ≤ (3 : Int) → v.Has "amount" = true ∧ v.Get "amount" = decimal 3) :=
  ⟨by decide,
    genAlterAssetBody_price_and_amount (sampleDeps none none) ⟨5, alice, -1, 3, -1, "", ""⟩
      St.init (by decide)
      (fun p h => by simp [sampleDeps]; omega)
      (by decide)
      (fun a h => by simp [sampleDeps]; omega)
      (by decide)⟩


@[simp] theorem assetIdCalls_append (a b : List Event) :
    assetIdCalls (a ++ b) = assetIdCalls a ++ assetIdCalls b := by
  induction a with
  | nil => rfl
  | cons e rest ih => cases e <;> simp [assetIdCalls, ih]

theorem genCreateAssetBody_newAssetIdCalls (d : Deps) (appid : Int) (param : CreateAssetParam)
    (s : St) :
    newAssetIdCalls s (genCreateAssetBody d appid param s).2 =
      if param.AssetId = 0 then [(appid, d.genAssetId appid)] else [] := by
  rw [genCreateAssetBody_snd]
  by_cases h0 : param.AssetId = 0 <;> simp [newAssetIdCalls, assetIdCalls, h0]

/-- C22: `genCreateAssetBody` generates an asset id only when none is given. With
`param.AssetId` 0 it calls `GenAssetId` once, with the app id, and the generated id is
the one in the signed message and in the `asset_id` field; with a non-zero
`param.AssetId` it does not call `GenAssetId`, and `param.AssetId` is the id in the
signed message and in the `asset_id` field. -/
theorem genCreateAssetBody_asset_id (d : Deps) (appid : Int) (param : CreateAssetParam)
    (s : St) :
    (param.AssetId = 0 →
      newAssetIdCalls s (genCreateAssetBody d appid param s).2 =
          [(appid, d.genAssetId appid)] ∧
        SingleSigned d param.Account.PrivateKey
          (decimal (d.genAssetId appid) ++ decimal (d.nonceAt s.draws)) s
          (genCreateAssetBody d appid param s)
          (carriesIdAndNonce (d.genAssetId appid) (d.nonceAt s.draws))) ∧
    (param.AssetId ≠ 0 →
      newAssetIdCalls s (genCreateAssetBody d appid param s).2 = [] ∧
        SingleSigned d param.Account.PrivateKey
          (decimal param.AssetId ++ decimal (d.nonceAt s.draws)) s
          (genCreateAssetBody d appid param s)
          (carriesIdAndNonce param.AssetId (d.nonceAt s.draws))) := by
  have hs := genCreateAssetBody_singleSigned d appid param s
  have hc := genCreateAssetBody_newAssetIdCalls d appid param s
  constructor
  · intro h
    rw [if_pos h] at hc
    have hid : createAssetIdOf d appid param = d.genAssetId appid := by
      simp [createAssetIdOf, h]
    rw [hid] at hs
    exact ⟨hc, hs⟩
  · intro h
    rw [if_neg h] at hc
    have hid : createAssetIdOf d appid param = param.AssetId := by
      simp [createAssetIdOf, h]
    rw [hid] at hs
    exact ⟨hc, hs⟩

/-- Witness for C22: creating an asset without an id under app id 7 generates the id 71
and signs the message `7140`. -/
theorem genCreateAssetBody_asset_id_witness :
    (sampleDeps none none).genAssetId 7 = 71 ∧
      decimal 71 ++ decimal ((sampleDeps none none).nonceAt St.init.draws) = "7140" ∧
      (newAssetIdCalls St.init
          (genCreateAssetBody (sampleDeps none none) 7 ⟨0, 1, 1, "info", alice, 0, "", 0, ""⟩
            St.init).2 = [(7, (sampleDeps none none).genAssetId 7)] ∧
        SingleSigned (sampleDeps none none) alice.PrivateKey
          (decimal ((sampleDeps none none).genAssetId 7) ++
            decimal ((sampleDeps none none).nonceAt St.init.draws)) St.init
          (genCreateAssetBody (sampleDeps none none) 7 ⟨0, 1, 1, "info", alice, 0, "", 0, ""⟩
            St.init)
          (carriesIdAndNonce ((sampleDeps none none).genAssetId 7)
            ((sampleDeps none none).nonceAt St.init.draws))) :=
  ⟨by decide, by decide,
    (genCreateAssetBody_asset_id (sampleDeps none none) 7 ⟨0, 1, 1, "info", alice, 0, "", 0, ""⟩
      St.init).1 rfl⟩

/-! ## Return values of the account wrappers -/

/-- C23: `NewXchainEcdsaAccount` and `RetrieveAccountByMnemonic` return a nil account
with the library's error, unchanged, when the library call fails; otherwise a nil error
and the account whose four fields are the library account's `Address`,
`JsonPrivateKey`, `JsonPublicKey` and `Mnemonic`; never an account together with an
error. -/
theorem wrappers_return_account_or_error (cryptoCli : CryptoClient) (strg lang : Int)
    (mnemonic : String) (language : Int) :
    ((∀ e, cryptoCli.CreateNewAccountWithMnemonic lang (toUint8 strg) = Except.error e →
        (NewXchainEcdsaAccount cryptoCli strg lang).acc = none ∧
          (NewXchainEcdsaAccount cryptoCli strg lang).err = some e) ∧
      (∀ a, cryptoCli.CreateNewAccountWithMnemonic lang (toUint8 strg) = Except.ok a →
        (NewXchainEcdsaAccount cryptoCli strg lang).acc =
            some ⟨a.Address, a.JsonPrivateKey, a.JsonPublicKey, a.Mnemonic⟩ ∧
          (NewXchainEcdsaAccount cryptoCli strg lang).err = none) ∧
      ¬ ((NewXchainEcdsaAccount cryptoCli strg lang).acc ≠ none ∧
          (NewXchainEcdsaAccount cryptoCli strg lang).err ≠ none)) ∧
    ((∀ e, cryptoCli.RetrieveAccountByMnemonic mnemonic language = Except.error e →
        (RetrieveAccountByMnemonic cryptoCli mnemonic language).acc = none ∧
          (RetrieveAccountByMnemonic cryptoCli mnemonic language).err = some e) ∧
      (∀ a, cryptoCli.RetrieveAccountByMnemonic mnemonic language = Except.ok a →
        (RetrieveAccountByMnemonic cryptoCli mnemonic language).acc =
            some ⟨a.Address, a.JsonPrivateKey, a.JsonPublicKey, a.Mnemonic⟩ ∧
          (RetrieveAccountByMnemonic cryptoCli mnemonic language).err = none) ∧
      ¬ ((RetrieveAccountByMnemonic cryptoCli mnemonic language).acc ≠ none ∧
          (RetrieveAccountByMnemonic cryptoCli mnemonic language).err ≠ none)) := by
  constructor
  · unfold NewXchainEcdsaAccount
    cases cryptoCli.CreateNewAccountWithMnemonic lang (toUint8 strg) with
    | error e => simp
    | ok a => simp [accountOf]
  · unfold RetrieveAccountByMnemonic
    cases cryptoCli.RetrieveAccountByMnemonic mnemonic language with
    | error e => simp
    | ok a => simp [accountOf]

/-- Witness for C23: the library rejects the language code 3 on recovery, and the wrapper
returns that error with a nil account. -/
theorem wrappers_return_account_or_error_witness :
    (specClient sampleDerivation "e7").RetrieveAccountByMnemonic "e7" 3 =
        Except.error InvalidInput ∧
      (RetrieveAccountByMnemonic (specClient sampleDerivation "e7") "e7" 3).acc = none ∧
      (RetrieveAccountByMnemonic (specClient sampleDerivation "e7") "e7" 3).err =
        some InvalidInput :=
  ⟨rfl,
    (wrappers_return_account_or_error (specClient sampleDerivation "e7") 2 2 "e7" 3).2.1
      InvalidInput rfl⟩

/-! ## Return values of all operations -/

theorem postAndClassify_noResp (d : Deps) (api : Api) (body : String) (s : St)
    (h : (postAndClassify d api body s).1.err ≠ none) :
    (postAndClassify d api body s).1.resp = none := by
  rw [postAndClassify_fst] at h ⊢
  revert h
  cases d.postReply api body with
  | none => intro _; rfl
  | some res =>
    by_cases hc : res.HttpCode = 200
    · cases hu : d.unmarshal api res.Body with
      | none => simp [hc, hu]
      | some resp =>
        by_cases he : resp.Errno = d.XassetErrNoSucc
        · simp [hc, hu, he]
        · simp [hc, hu, he]
    · simp [hc]

theorem runOp_noResp (valid : Option Error) (gen : St → BodyRet × St) (d : Deps) (api : Api)
    (s : St) (h : (runOp valid gen d api s).1.err ≠ none) :
    (runOp valid gen d api s).1.resp = none := by
  cases valid with
  | some e => rfl
  | none =>
    cases hb : (gen s).1.err with
    | some e => rw [runOp_gen_err gen d api s e hb]
    | none =>
      rw [runOp_valid_none gen d api s hb] at h ⊢
      exact postAndClassify_noResp d api _ _ h

theorem runQuery_noResp (valid : Option Error) (body : String) (d : Deps) (api : Api)
    (s : St) (h : (runQuery valid body d api s).1.err ≠ none) :
    (runQuery valid body d api s).1.resp = none := by
  cases valid with
  | some e => rfl
  | none => exact postAndClassify_noResp d api body s h

theorem ListAssetHistory_noResp (d : Deps) (param : ListAssetHisParam) (s : St)
    (h : (ListAssetHistory d param s).1.err ≠ none) :
    (ListAssetHistory d param s).1.resp = none := by
  revert h
  unfold ListAssetHistory
  cases d.validListAssetHis param with
  | some e => intro _; rfl
  | none =>
    simp only [Post]
    cases d.postReply Api.ListAssetHistory (listAssetHistoryValues param).Encode with
    | none => intro _; rfl
    | some res =>
      by_cases hc : res.HttpCode = 200
      · cases hu : d.unmarshal Api.ListAssetHistory res.Body with
        | none => simp [hc, hu]
        | some resp => simp [hc, hu]
      · simp [hc]

theorem uploadWith_noResp (o : OperDeps) (param : UploadFileParam) (resp : Resp)
    (res : RequestRes) (s : St) :
    ((uploadWith o param resp res s).1.err ≠ none →
        (uploadWith o param resp res s).1.resp = none ∧
          (uploadWith o param resp res s).1.res = none) ∧
      ((uploadWith o param resp res s).1.err = none →
        (uploadWith o param resp res s).1.res = some res) := by
  unfold uploadWith
  simp only []
  cases o.bosNewClient (o.accessInfoOf resp).AK (o.accessInfoOf resp).SK
    (o.accessInfoOf resp).EndPoint with
  | some e => simp
  | none =>
    cases o.newSessionBceCredentials (o.accessInfoOf resp).AK (o.accessInfoOf resp).SK
      (o.accessInfoOf resp).SessionToken with
    | some e => simp
    | none =>
      by_cases hp : param.FilePath = ""
      · simp only [hp, ne_eq, not_true_eq_false, if_false]
        cases param.DataByte with
        | none => simp
        | some bytes =>
          simp only []
          cases o.putObjectFromBytes (o.accessInfoOf resp).Bucket
            ("/" ++ (o.accessInfoOf resp).ObjectPath ++ param.FileName) bytes <;> simp
      · simp only [hp, ne_eq, not_false_eq_true, if_true]
        cases o.putObjectFromFile (o.accessInfoOf resp).Bucket
          ("/" ++ (o.accessInfoOf resp).ObjectPath ++ param.FileName) param.FilePath <;> simp

/-- When the inner `GetStoken` call returns an error, `UploadFile` does not return: the
arguments of its warning dereference the nil response. -/
theorem UploadFile_none_of_GetStoken_error (o : OperDeps) (param : UploadFileParam) (s : St)
    (hv : o.validUploadFile param = none)
    (he : (GetStoken o.toFedDeps.toDeps ⟨param.Account⟩ s).1.err ≠ none) :
    UploadFile o param s = none := by
  have hr := runOp_noResp (o.validGetStoken ⟨param.Account⟩)
    (genGetStokenBody o.toFedDeps.toDeps ⟨param.Account⟩) o.toFedDeps.toDeps
    Api.FileApiGetStoken s he
  unfold UploadFile
  rw [hv]
  simp only []
  unfold GetStoken at he
  rcases hg : runOp (o.validGetStoken ⟨param.Account⟩)
    (genGetStokenBody o.toFedDeps.toDeps ⟨param.Account⟩) o.toFedDeps.toDeps
    Api.FileApiGetStoken s with ⟨⟨resp, res, err⟩, s1⟩
  rw [hg] at hr he
  simp only [GetStoken, hg]
  simp only [] at hr he
  subst hr
  cases err with
  | none => exact absurd rfl he
  | some e => cases res <;> rfl

theorem UploadFile_returned (o : OperDeps) (param : UploadFileParam) (s : St)
    (r : UploadRet) (s' : St) (h : UploadFile o param s = some (r, s')) :
    (r.err ≠ none → r.resp = none ∧ r.res = none) ∧ (r.err = none → r.res ≠ none) := by
  unfold UploadFile at h
  cases hv : o.validUploadFile param with
  | some e =>
    rw [hv] at h
    simp only [Option.some.injEq, Prod.mk.injEq] at h
    obtain ⟨h1, _⟩ := h
    subst h1
    simp
  | none =>
    rw [hv] at h
    simp only [] at h
    rcases hg : GetStoken o.toFedDeps.toDeps ⟨param.Account⟩ s with ⟨⟨resp, res, err⟩, s1⟩
    rw [hg] at h
    cases err with
    | some e =>
      cases res <;> cases resp <;> simp at h
      obtain ⟨h1, _⟩ := h
      subst h1
      simp
    | none =>
      cases res <;> cases resp <;> simp at h
      rename_i res0 resp0
      have hu := uploadWith_noResp o param resp0 res0 s1
      rw [h] at hu
      refine ⟨hu.1, ?_⟩
      intro he
      rw [hu.2 he]
      simp

/-- C24 (the code departs from the claim): when the inner `GetStoken` call fails, here
because the signing key is rejected and, in a second run, because the transport fails,
`GetStoken` returns a nil response and a nil `RequestRes`, and `UploadFile` does not
return at all: it dereferences them to build the arguments of its warning. -/
theorem UploadFile_dereferences_nil_after_failed_GetStoken :
    (sampleOper sampleFedOk).validUploadFile ⟨broken, "a.png", "/tmp/a.png", none, "img"⟩ =
        none ∧
      (GetStoken (sampleOper sampleFedOk).toFedDeps.toDeps ⟨broken⟩ St.init).1 =
        ⟨none, none, some Error.ComErrAccountSignFailed⟩ ∧
      UploadFile (sampleOper sampleFedOk) ⟨broken, "a.png", "/tmp/a.png", none, "img"⟩
        St.init = none ∧
      (GetStoken (sampleOper (sampleFed none none none)).toFedDeps.toDeps ⟨alice⟩ St.init).1 =
        ⟨none, none, some Error.ComErrRequsetFailed⟩ ∧
      UploadFile (sampleOper (sampleFed none none none))
        ⟨alice, "a.png", "/tmp/a.png", none, "img"⟩ St.init = none := by
  decide

theorem classifyReply_accepted_errno {ρ : Type} (f : FedDeps) (api : Api)
    (decode : String → Option ρ) (errno : ρ → Int) (requestId : ρ → String)
    (reply : Option RequestRes) (res : RequestRes) (resp : ρ) (logs : List Event)
    (h : classifyReply f api decode errno requestId reply = (ReplyOutcome.accepted res resp, logs)) :
    reply = some res ∧ res.HttpCode = 200 ∧ errno resp = f.XassetErrNoSucc := by
  unfold classifyReply at h
  cases reply with
  | none => simp at h
  | some r =>
    simp only [] at h
    split at h
    · simp at h
    · rename_i hc
      split at h
      · simp at h
      · split at h
        · simp at h
        · rename_i he
          simp at h
          obtain ⟨⟨h1, h2⟩, _⟩ := h
          subst h1 h2
          exact ⟨rfl, by simpa using hc, by simpa using he⟩

theorem classifyReply_failed_res {ρ : Type} (f : FedDeps) (api : Api)
    (decode : String → Option ρ) (errno : ρ → Int) (requestId : ρ → String)
    (reply : Option RequestRes) (res : Option RequestRes) (err : Error) (logs : List Event)
    (h : classifyReply f api decode errno requestId reply = (ReplyOutcome.failed res err, logs)) :
    ∀ r, res = some r ↔ (reply = some r ∧ r.HttpCode = 200) := by
  unfold classifyReply at h
  cases reply with
  | none =>
    simp at h
    obtain ⟨⟨h1, _⟩, _⟩ := h
    subst h1
    simp
  | some r0 =>
    simp only [] at h
    split at h
    · rename_i hc
      simp at h
      obtain ⟨⟨h1, _⟩, _⟩ := h
      subst h1
      intro r
      constructor
      · intro hx; cases hx
      · rintro ⟨h1, h2⟩
        cases h1
        exact absurd h2 hc
    · rename_i hc
      have hc2 : r0.HttpCode = 200 := by simpa using hc
      split at h
      · simp at h
        obtain ⟨⟨h1, _⟩, _⟩ := h
        subst h1
        intro r
        constructor
        · intro hx; cases hx; exact ⟨rfl, hc2⟩
        · rintro ⟨h1, _⟩; exact h1
      · split at h
        · simp at h
          obtain ⟨⟨h1, _⟩, _⟩ := h
          subst h1
          intro r
          constructor
          · intro hx; cases hx; exact ⟨rfl, hc2⟩
          · rintro ⟨h1, _⟩; exact h1
        · simp at h

/-- A federated-binding operation that returns a response together with an error got an
accepted reply, and the error is the one of its last step. -/
theorem fedOp_resp_with_error {ρ : Type} (f : FedDeps) (valid : Option Error)
    (fields : List SensitiveField) (api : Api) (decode : String → Option ρ) (errno : ρ → Int)
    (requestId : ρ → String) (finish : RequestRes → ρ → Except Error ρ × List Event)
    (succFormat : String) (succPlain : List String) (s : St) (resp : ρ) (e : Error)
    (hr : (fedOp f valid fields api decode errno requestId finish succFormat succPlain s).1.resp
      = some resp)
    (he : (fedOp f valid fields api decode errno requestId finish succFormat succPlain s).1.err
      = some e) :
    ∃ res, (fedOp f valid fields api decode errno requestId finish succFormat succPlain s).1.res
        = some res ∧
      (finish res resp).1 = Except.error e ∧ errno resp = f.XassetErrNoSucc := by
  revert hr he
  unfold fedOp
  cases valid with
  | some err => simp
  | none =>
    simp only []
    rcases h1 : obscureAll f fields with ⟨r, evs⟩
    cases r with
    | error err => simp
    | ok pairs =>
      simp only [Post]
      rcases h3 : classifyReply f api decode errno requestId
        (f.postReply api (setAll pairs).Encode) with ⟨o, logs⟩
      cases o with
      | failed res err => simp
      | accepted res resp0 =>
        have hacc := classifyReply_accepted_errno f api decode errno requestId _ res resp0 logs h3
        simp only []
        rcases h4 : finish res resp0 with ⟨r2, evs2⟩
        cases r2 with
        | error e2 =>
          simp only []
          intro hr he
          simp only [Option.some.injEq] at hr he
          subst hr he
          exact ⟨res, rfl, by rw [h4], hacc.2.2⟩
        | ok resp2 => simp

theorem summary_noResp (x : OpRet × St) (hx : x.1.err ≠ none → x.1.resp = none)
    (r : Summary) (s' : St) (h : summary x = some (r, s')) : NoRespOnError r := by
  simp only [summary, Option.some.injEq, Prod.mk.injEq] at h
  obtain ⟨h1, _⟩ := h
  subst h1
  intro he
  simp [hx he]

theorem fedSummary_noResp {ρ : Type} (x : FedRet ρ × St)
    (hx : x.1.err ≠ none → x.1.resp = none)
    (r : Summary) (s' : St) (h : fedSummary x = some (r, s')) : NoRespOnError r := by
  simp only [fedSummary, Option.some.injEq, Prod.mk.injEq] at h
  obtain ⟨h1, _⟩ := h
  subst h1
  intro he
  simp [hx he]

theorem uploadSummary_returned (x : Option (UploadRet × St)) (r : Summary) (s' : St)
    (h : uploadSummary x = some (r, s')) :
    ∃ u, x = some (u, s') ∧ r = ⟨u.resp.isSome, u.res, u.err⟩ := by
  cases x with
  | none => simp [uploadSummary] at h
  | some p =>
    obtain ⟨u, t⟩ := p
    simp only [uploadSummary, Option.map_some', Option.some.injEq, Prod.mk.injEq] at h
    obtain ⟨h1, h2⟩ := h
    subst h1 h2
    exact ⟨u, rfl, rfl⟩

theorem fedOp_noFinish_noResp (f : FedDeps) (valid : Option Error)
    (fields : List SensitiveField) (api : Api) (decode : String → Option Resp)
    (succFormat : String) (succPlain : List String) (s : St)
    (h : (fedOp f valid fields api decode Resp.Errno Resp.RequestId noFinish succFormat
      succPlain s).1.err ≠ none) :
    (fedOp f valid fields api decode Resp.Errno Resp.RequestId noFinish succFormat
      succPlain s).1.resp = none := by
  cases hr : (fedOp f valid fields api decode Resp.Errno Resp.RequestId noFinish succFormat
    succPlain s).1.resp with
  | none => rfl
  | some resp =>
    cases he : (fedOp f valid fields api decode Resp.Errno Resp.RequestId noFinish succFormat
      succPlain s).1.err with
    | none => exact absurd he h
    | some e =>
      obtain ⟨res, _, hf, _⟩ := fedOp_resp_with_error f valid fields api decode Resp.Errno
        Resp.RequestId noFinish succFormat succPlain s resp e hr he
      simp [noFinish] at hf

/-- C25 as stated fails: when the registration was accepted but the mnemonic of the reply
cannot be revealed, `BdBoxRegister` returns the decoded reply and the `RequestRes`
together with the error of the cipher. -/
theorem BdBoxRegister_returns_reply_with_error :
    (BdBoxRegister sampleFedGarbled ⟨"o1", "a1"⟩ St.init).1.resp = some ⟨"r1", 0, "", ""⟩ ∧
      (BdBoxRegister sampleFedGarbled ⟨"o1", "a1"⟩ St.init).1.res = some (replyOf 200 "ok") ∧
      (BdBoxRegister sampleFedGarbled ⟨"o1", "a1"⟩ St.init).1.err =
        some (Error.other "aes decode") := by
  decide

/-- C25 amended: every operation of `AssetOper` other than `BdBoxRegister` returns a nil
typed response whenever it returns an error. `BdBoxRegister` returns a response together
with an error in one case only: the reply was accepted (a `RequestRes` is returned and
the decoded `Errno` is the success code) and revealing its mnemonic failed with that
error; the response is then the decoded reply, its mnemonic still obscured. -/
theorem error_means_no_response (o : OperDeps) (c : Call) (s : St) (r : Summary) (s' : St)
    (h : perform o c s = some (r, s')) :
    ((∀ p, c ≠ Call.BdBoxRegister p) → NoRespOnError r) ∧
    (∀ p resp e,
      (BdBoxRegister o.toFedDeps p s).1.resp = some resp →
      (BdBoxRegister o.toFedDeps p s).1.err = some e →
      aesDecodeStr o.toFedDeps resp.Mnemonic = Except.error e ∧
        (BdBoxRegister o.toFedDeps p s).1.res ≠ none ∧
        resp.Errno = o.XassetErrNoSucc) := by
  constructor
  · intro hne
    cases c with
    | BdBoxRegister p => exact absurd rfl (hne p)
    | UploadFile p =>
      obtain ⟨u, hu, hr⟩ := uploadSummary_returned _ r s' h
      subst hr
      intro he
      simp [(UploadFile_returned o p s u s' hu).1 he]
    | SceneListAddr uid => exact fedSummary_noResp _ (fedOp_noFinish_noResp _ _ _ _ _ _ _ _) _ _ h
    | BdBoxBind p => exact fedSummary_noResp _ (fedOp_noFinish_noResp _ _ _ _ _ _ _ _) _ _ h
    | BindByUnionId p => exact fedSummary_noResp _ (fedOp_noFinish_noResp _ _ _ _ _ _ _ _) _ _ h
    | GetAddrByUnionId uid =>
      exact fedSummary_noResp _ (fedOp_noFinish_noResp _ _ _ _ _ _ _ _) _ _ h
    | ListAssetHistory p => exact summary_noResp _ (ListAssetHistory_noResp _ _ _) _ _ h
    | VilgBalance => exact summary_noResp _ (postAndClassify_noResp _ _ _ _) _ _ h
    | _ =>
      first
        | exact summary_noResp _ (runOp_noResp _ _ _ _ _) _ _ h
        | exact summary_noResp _ (runQuery_noResp _ _ _ _ _) _ _ h
  · intro p resp e hr he
    obtain ⟨res, hres, hf, herrno⟩ := fedOp_resp_with_error _ _ _ _ _ _ _ _ _ _ _ resp e hr he
    refine ⟨?_, ?_, herrno⟩
    · unfold revealMnemonic at hf
      cases hd : aesDecodeStr o.toFedDeps resp.Mnemonic with
      | error e2 =>
        rw [hd] at hf
        simp only [Except.error.injEq] at hf
        rw [hf]
      | ok m =>
        rw [hd] at hf
        simp at hf
    · have hres2 : (BdBoxRegister o.toFedDeps p s).1.res = some res := hres
      rw [hres2]
      simp

/-- Witness for the amended C25: `VilgBalance` against a server that answers with status
500 returns `ComErrRespCodeErr` and no response. -/
theorem error_means_no_response_witness :
    perform (sampleOper sampleFed500) Call.VilgBalance St.init =
        some (⟨false, none, some Error.ComErrRespCodeErr⟩,
          ⟨0, [Event.post Api.VilgApiBalance ""]⟩) ∧
      NoRespOnError ⟨false, none, some Error.ComErrRespCodeErr⟩ :=
  ⟨by decide,
    (error_means_no_response (sampleOper sampleFed500) Call.VilgBalance St.init
      ⟨false, none, some Error.ComErrRespCodeErr⟩ ⟨0, [Event.post Api.VilgApiBalance ""]⟩
      (by decide)).1 (fun p hp => by cases hp)⟩


/-! ## The returned `RequestRes` -/

theorem newPosts_postAndClassify (d : Deps) (api : Api) (body : String) (s s1 : St)
    (hposts : posts s1.trace = posts s.trace) :
    newPosts s (postAndClassify d api body s1).2 = [(api, body)] := by
  simp [newPosts, postAndClassify_snd, posts, hposts]

theorem received200_single (d : Deps) (s s' : St) (api : Api) (body : String)
    (h : newPosts s s' = [(api, body)]) (res : RequestRes) :
    Received200 d s s' res ↔ (d.postReply api body = some res ∧ res.HttpCode = 200) := by
  unfold Received200
  rw [h]
  constructor
  · rintro ⟨p, hp, h1, h2⟩
    simp only [List.mem_singleton] at hp
    subst hp
    exact ⟨h1, h2⟩
  · rintro ⟨h1, h2⟩
    exact ⟨(api, body), by simp, h1, h2⟩

theorem received200_none (d : Deps) (s s' : St) (h : newPosts s s' = []) (res : RequestRes) :
    ¬ Received200 d s s' res := by
  unfold Received200
  rw [h]
  simp

theorem postAndClassify_res (d : Deps) (api : Api) (body : String) (s s1 : St)
    (hposts : posts s1.trace = posts s.trace) (res : RequestRes) :
    (postAndClassify d api body s1).1.res = some res ↔
      Received200 d s (postAndClassify d api body s1).2 res := by
  rw [received200_single d s _ api body (newPosts_postAndClassify d api body s s1 hposts),
    postAndClassify_fst]
  cases d.postReply api body with
  | none => simp
  | some r =>
    by_cases hc : r.HttpCode = 200
    · cases hu : d.unmarshal api r.Body with
      | none =>
        simp only [hc, hu, ne_eq, not_true_eq_false, if_false, Option.some.injEq]
        constructor
        · intro h; subst h; exact ⟨rfl, hc⟩
        · intro h; exact h.1
      | some resp =>
        by_cases he : resp.Errno = d.XassetErrNoSucc
        · simp only [hc, hu, he, ne_eq, not_true_eq_false, if_false, Option.some.injEq]
          constructor
          · intro h; subst h; exact ⟨rfl, hc⟩
          · intro h; exact h.1
        · simp only [hc, hu, he, ne_eq, not_true_eq_false, not_false_eq_true, if_false,
            if_true, Option.some.injEq]
          constructor
          · intro h; subst h; exact ⟨rfl, hc⟩
          · intro h; exact h.1
    · simp only [hc, ne_eq, not_false_eq_true, if_true, Option.some.injEq]
      constructor
      · intro h; cases h
      · rintro ⟨h1, h2⟩
        subst h1
        exact absurd h2 hc

theorem runOp_res (valid : Option Error) (gen : St → BodyRet × St) (d : Deps) (api : Api)
    (s : St) (hposts : posts (gen s).2.trace = posts s.trace) (res : RequestRes) :
    (runOp valid gen d api s).1.res = some res ↔
      Received200 d s (runOp valid gen d api s).2 res := by
  cases valid with
  | some e =>
    have : ¬ Received200 d s s res := received200_none d s _ (by simp [newPosts]) res
    simp [this, runOp]
  | none =>
    cases hb : (gen s).1.err with
    | some e =>
      rw [runOp_gen_err gen d api s e hb]
      have : ¬ Received200 d s (gen s).2 res :=
        received200_none d s _ (by simp [newPosts, hposts]) res
      simp [this]
    | none =>
      rw [runOp_valid_none gen d api s hb]
      exact postAndClassify_res d api _ s _ hposts res

theorem runQuery_res (valid : Option Error) (body : String) (d : Deps) (api : Api)
    (s : St) (res : RequestRes) :
    (runQuery valid body d api s).1.res = some res ↔
      Received200 d s (runQuery valid body d api s).2 res := by
  cases valid with
  | some e =>
    have : ¬ Received200 d s s res := received200_none d s _ (by simp [newPosts]) res
    simp [this, runQuery]
  | none => exact postAndClassify_res d api body s s rfl res

theorem posts_of_signThen (gen : St → BodyRet × St) (d : Deps) (s : St) (key : String)
    (msgOf : Int → String) (k : String → Int → BodyRet)
    (heq : gen s = signThen d key msgOf k s) : posts (gen s).2.trace = posts s.trace := by
  rw [heq, signThen_snd]
  exact posts_afterSign d key _ s

theorem fedOp_res {ρ : Type} (f : FedDeps) (valid : Option Error)
    (fields : List SensitiveField) (api : Api) (decode : String → Option ρ) (errno : ρ → Int)
    (requestId : ρ → String) (finish : RequestRes → ρ → Except Error ρ × List Event)
    (succFormat : String) (succPlain : List String) (s : St)
    (hfin : ∀ res resp, posts (finish res resp).2 = []) (r : RequestRes) :
    (fedOp f valid fields api decode errno requestId finish succFormat succPlain s).1.res
        = some r ↔
      Received200 f.toDeps s
        (fedOp f valid fields api decode errno requestId finish succFormat succPlain s).2 r := by
  unfold fedOp
  cases valid with
  | some err =>
    have : ¬ Received200 f.toDeps s s r := received200_none _ s s (by simp [newPosts]) r
    simp [this]
  | none =>
    simp only []
    rcases h1 : obscureAll f fields with ⟨x, evs⟩
    have hp := obscureAll_posts f fields
    rw [h1] at hp
    cases x with
    | error err =>
      have : ¬ Received200 f.toDeps s (emit evs s) r :=
        received200_none _ s _ (by rw [newPosts_of_trace s _ evs rfl]; exact hp) r
      simp [this]
    | ok pairs =>
      simp only [Post]
      rcases h3 : classifyReply f api decode errno requestId
        (f.postReply api (setAll pairs).Encode) with ⟨o, logs⟩
      have hc := (classifyReply_events f api decode errno requestId
        (f.postReply api (setAll pairs).Encode)).1
      rw [h3] at hc
      cases o with
      | failed res err =>
        simp only []
        rw [received200_single f.toDeps s _ api (setAll pairs).Encode
          (by simp [newPosts, emit, posts, hc, hp])]
        exact classifyReply_failed_res f api decode errno requestId _ res err logs h3 r
      | accepted res resp =>
        have hacc := classifyReply_accepted_errno f api decode errno requestId _ res resp logs h3
        have hf := hfin res resp
        simp only []
        rcases h4 : finish res resp with ⟨r2, evs2⟩
        rw [h4] at hf
        cases r2 <;>
        · simp only []
          rw [received200_single f.toDeps s _ api (setAll pairs).Encode
            (by simp [newPosts, emit, posts, hc, hp, hf])]
          rw [hacc.1]
          simp only [Option.some.injEq]
          constructor
          · intro h; subst h; exact ⟨rfl, hacc.2.1⟩
          · intro h; exact h.1

theorem summary_res (d : Deps) (s : St) (x : OpRet × St)
    (hx : ∀ res, x.1.res = some res ↔ Received200 d s x.2 res)
    (r : Summary) (s' : St) (h : summary x = some (r, s')) : ResIffReceived200 d s r s' := by
  simp only [summary, Option.some.injEq, Prod.mk.injEq] at h
  obtain ⟨h1, h2⟩ := h
  subst h1 h2
  exact hx

theorem fedSummary_res {ρ : Type} (d : Deps) (s : St) (x : FedRet ρ × St)
    (hx : ∀ res, x.1.res = some res ↔ Received200 d s x.2 res)
    (r : Summary) (s' : St) (h : fedSummary x = some (r, s')) :
    ResIffReceived200 d s r s' := by
  simp only [fedSummary, Option.some.injEq, Prod.mk.injEq] at h
  obtain ⟨h1, h2⟩ := h
  subst h1 h2
  exact hx

/-- `ListAssetHistory` returns a nil `RequestRes` when the body of an HTTP-200 reply
cannot be decoded, where `GetStoken` returns the `RequestRes` on the same reply. -/
theorem ListAssetHistory_decode_failure_returns_nil_res :
    (ListAssetHistory (sampleDeps (some (replyOf 200 "garbage")) none) ⟨5, 1, 10, 0⟩
        St.init).1 = ⟨none, none, some Error.ComErrUnmarshalBodyFailed⟩ ∧
      (GetStoken (sampleDeps (some (replyOf 200 "garbage")) none) ⟨alice⟩ St.init).1 =
        ⟨none, some (replyOf 200 "garbage"), some Error.ComErrUnmarshalBodyFailed⟩ := by
  decide

/-- C26 as stated fails: `UploadFile` received an HTTP-200 reply to its stoken request,
then the upload to the object store failed, and it returns that error with a nil
`RequestRes`. -/
theorem UploadFile_returns_nil_res_after_200 :
    perform (sampleOper sampleFedOk) (Call.UploadFile ⟨alice, "a.png", "missing", none, "img"⟩)
        St.init =
      some (⟨false, none, some (Error.other "no such file")⟩,
        ⟨1, [Event.nonce 40, Event.sign "skA" "40" true,
          Event.post Api.FileApiGetStoken "addr=addrA&nonce=40&pkey=pkA&sign=sig%28skA%2C40%29",
          Event.putObject "bucket" "/dir/a.png" false]⟩) ∧
      Received200 (sampleOper sampleFedOk).toFedDeps.toDeps St.init
        ⟨1, [Event.nonce 40, Event.sign "skA" "40" true,
          Event.post Api.FileApiGetStoken "addr=addrA&nonce=40&pkey=pkA&sign=sig%28skA%2C40%29",
          Event.putObject "bucket" "/dir/a.png" false]⟩
        (replyOf 200 "ok") :=
  ⟨by decide,
    ⟨(Api.FileApiGetStoken, "addr=addrA&nonce=40&pkey=pkA&sign=sig%28skA%2C40%29"),
      by decide, by decide, by decide⟩⟩

/-- C26 amended: for every operation of `AssetOper` other than `ListAssetHistory` and
`UploadFile`, the `RequestRes` is returned exactly when a reply with HTTP status 200 was
received, and it is that reply; so it is nil after a validation, signing, obscuring or
transport failure and after a reply with another status. `UploadFile` returns a
`RequestRes` exactly when it returns no error. -/
theorem RequestRes_returned_iff_200 (o : OperDeps) (c : Call) (s : St) (r : Summary)
    (s' : St) (h : perform o c s = some (r, s')) :
    ((∀ p, c ≠ Call.ListAssetHistory p) → (∀ p, c ≠ Call.UploadFile p) →
      ResIffReceived200 o.toFedDeps.toDeps s r s') ∧
    ((∃ p, c = Call.UploadFile p) → (r.res ≠ none ↔ r.err = none)) := by
  constructor
  · intro hl hu
    cases c with
    | ListAssetHistory p => exact absurd rfl (hl p)
    | UploadFile p => exact absurd rfl (hu p)
    | GetStoken p =>
      exact summary_res _ s _ (runOp_res _ _ _ _ s
        (posts_of_signThen _ _ s _ _ _ (genGetStokenBody_eq _ p s))) _ _ h
    | CreateAsset p =>
      exact summary_res _ s _ (runOp_res _ _ _ _ s (genCreateAssetBody_posts _ _ p s)) _ _ h
    | AlterAsset p =>
      exact summary_res _ s _ (runOp_res _ _ _ _ s
        (posts_of_signThen _ _ s _ _ _ (genAlterAssetBody_eq _ p s))) _ _ h
    | PublishAsset p =>
      exact summary_res _ s _ (runOp_res _ _ _ _ s
        (posts_of_signThen _ _ s _ _ _ (genPublishAssetBody_eq _ p s))) _ _ h
    | GrantAsset p =>
      exact summary_res _ s _ (runOp_res _ _ _ _ s (genGrantAssetBody_posts _ _ p s)) _ _ h
    | TransferAsset p =>
      exact summary_res _ s _ (runOp_res _ _ _ _ s
        (posts_of_signThen _ _ s _ _ _ (genTransferAssetBody_eq _ p s))) _ _ h
    | FreezeAsset p =>
      exact summary_res _ s _ (runOp_res _ _ _ _ s
        (posts_of_signThen _ _ s _ _ _ (genFreezeAssetBody_eq _ p s))) _ _ h
    | GrantBox p =>
      exact summary_res _ s _ (runOp_res _ _ _ _ s (genGrantBoxBody_posts _ p s)) _ _ h
    | ComposeShard l p =>
      exact summary_res _ s _ (runOp_res _ _ _ _ s (genComposeShardBody_posts _ l p s)) _ _ h
    | LockShard p =>
      exact summary_res _ s _ (runOp_res _ _ _ _ s
        (posts_of_signThen _ _ s _ _ _ (genLockShardBody_eq _ p s))) _ _ h
    | FreezeShard p =>
      exact summary_res _ s _ (runOp_res _ _ _ _ s
        (posts_of_signThen _ _ s _ _ _ (genFreezeShardBody_eq _ p s))) _ _ h
    | UnFreezeShard p =>
      exact summary_res _ s _ (runOp_res _ _ _ _ s
        (posts_of_signThen _ _ s _ _ _ (genFreezeShardBody_eq _ p s))) _ _ h
    | SceneListAddr uid =>
      exact fedSummary_res _ s _ (fedOp_res _ _ _ _ _ _ _ _ _ _ s noFinish_posts) _ _ h
    | BdBoxRegister p =>
      exact fedSummary_res _ s _
        (fedOp_res _ _ _ _ _ _ _ _ _ _ s (revealMnemonic_posts _)) _ _ h
    | BdBoxBind p =>
      exact fedSummary_res _ s _ (fedOp_res _ _ _ _ _ _ _ _ _ _ s noFinish_posts) _ _ h
    | BindByUnionId p =>
      exact fedSummary_res _ s _ (fedOp_res _ _ _ _ _ _ _ _ _ _ s noFinish_posts) _ _ h
    | GetAddrByUnionId uid =>
      exact fedSummary_res _ s _ (fedOp_res _ _ _ _ _ _ _ _ _ _ s noFinish_posts) _ _ h
    | VilgBalance =>
      exact summary_res _ s _ (postAndClassify_res _ _ _ s s rfl) _ _ h
    | _ => exact summary_res _ s _ (runQuery_res _ _ _ _ s) _ _ h
  · rintro ⟨p, rfl⟩
    obtain ⟨u, hu, hr⟩ := uploadSummary_returned _ r s' h
    subst hr
    have hx := UploadFile_returned o p s u s' hu
    constructor
    · intro hres
      by_contra he
      exact hres (hx.1 he).2
    · intro he
      exact hx.2 he

/-- Witness for the amended C26: `VilgBalance` against a server that accepts the request
returns the reply it received. -/
theorem RequestRes_returned_iff_200_witness :
    perform (sampleOper sampleFedOk) Call.VilgBalance St.init =
        some (⟨true, some (replyOf 200 "ok"), none⟩, ⟨0, [Event.post Api.VilgApiBalance ""]⟩) ∧
      ResIffReceived200 (sampleOper sampleFedOk).toFedDeps.toDeps St.init
        ⟨true, some (replyOf 200 "ok"), none⟩ ⟨0, [Event.post Api.VilgApiBalance ""]⟩ :=
  ⟨by decide,
    (RequestRes_returned_iff_200 (sampleOper sampleFedOk) Call.VilgBalance St.init
      ⟨true, some (replyOf 200 "ok"), none⟩ ⟨0, [Event.post Api.VilgApiBalance ""]⟩
      (by decide)).1 (fun p hp => by cases hp) (fun p hp => by cases hp)⟩

/-! ## The signer's address and public key in the signed bodies -/

theorem getStokenValues_signer (param : GetStokenParam) (sig : String) (n : Int) :
    (getStokenValues param sig n).Get "sign" = sig ∧
      carriesSigner param.Account (getStokenValues param sig n) := by
  simp [getStokenValues, carriesSigner, Values.Get_Set_ne]

theorem createAssetValues_signer (d : Deps) (param : CreateAssetParam) (a : Int) (sig : String)
    (n : Int) (info : String) :
    (createAssetValues d param a sig n info).Get "sign" = sig ∧
      carriesSigner param.Account (createAssetValues d param a sig n info) := by
  unfold createAssetValues carriesSigner
  by_cases h1 : (d.IdValid param.UserId).isNone = true <;>
    by_cases h2 : param.FileHash = "" <;> simp [h1, h2, Values.Get_Set_ne]

theorem alterAssetValues_signer (d : Deps) (param : AlterAssetParam) (sig : String) (n : Int) :
    (alterAssetValues d param sig n).Get "sign" = sig ∧
      carriesSigner param.Account (alterAssetValues d param sig n) := by
  unfold alterAssetValues carriesSigner
  by_cases h1 : (d.PriceInvalid param.Price).isNone = true <;>
    by_cases h2 : (d.AmountInvalid param.Amount).isNone = true <;>
    by_cases h3 : (d.AmountInvalid param.ViewType).isNone = true <;>
    simp [h1, h2, h3, Values.Get_Set_ne]

theorem publishAssetValues_signer (param : PublishAssetParam) (sig : String) (n : Int) :
    (publishAssetValues param sig n).Get "sign" = sig ∧
      carriesSigner param.Account (publishAssetValues param sig n) := by
  simp [publishAssetValues, carriesSigner, Values.Get_Set_ne]

theorem grantAssetValues_signer (d : Deps) (param : GrantAssetParam) (shardId : Int)
    (sig : String) (n : Int) :
    (grantAssetValues d param shardId sig n).Get "sign" = sig ∧
      (grantAssetValues d param shardId sig n).Get "pkey" = param.Account.PublicKey ∧
      (grantAssetValues d param shardId sig n).Get "addr" = param.Addr := by
  unfold grantAssetValues
  by_cases h1 : (d.IdValid param.ToUserId).isNone = true <;> simp [h1, Values.Get_Set_ne]

theorem transferAssetValues_signer (d : Deps) (param : TransferAssetParam) (sig : String)
    (n : Int) :
    (transferAssetValues d param sig n).Get "sign" = sig ∧
      (transferAssetValues d param sig n).Get "pkey" = param.Account.PublicKey ∧
      (transferAssetValues d param sig n).Get "addr" = param.Addr := by
  unfold transferAssetValues
  by_cases h1 : (d.IdValid param.ToUserId).isNone = true <;> simp [h1, Values.Get_Set_ne]

theorem freezeAssetValues_signer (param : FreezeAssetParam) (sig : String) (n : Int) :
    (freezeAssetValues param sig n).Get "sign" = sig ∧
      carriesSigner param.Account (freezeAssetValues param sig n) := by
  simp [freezeAssetValues, carriesSigner, Values.Get_Set_ne]

theorem lockShardValues_signer (param : LockOrFreezeShardParam) (sig : String) (n : Int) :
    (lockShardValues param sig n).Get "sign" = sig ∧
      carriesSigner param.Account (lockShardValues param sig n) := by
  simp [lockShardValues, carriesSigner, Values.Get_Set_ne]

theorem freezeShardValues_signer (param : LockOrFreezeShardParam) (sig : String) (n : Int) :
    (freezeShardValues param sig n).Get "sign" = sig ∧
      carriesSigner param.Account (freezeShardValues param sig n) := by
  simp [freezeShardValues, carriesSigner, Values.Get_Set_ne]

theorem genAlterAssetBody_signer (d : Deps) (param : AlterAssetParam) (s : St) :
    SingleSigned d param.Account.PrivateKey
      (decimal param.AssetId ++ decimal (d.nonceAt s.draws)) s (genAlterAssetBody d param s)
      (carriesSigner param.Account) := by
  rw [genAlterAssetBody_eq]
  apply signThen_singleSigned d param.Account.PrivateKey
    (fun nonce => decimal param.AssetId ++ decimal nonce)
  intro sig herr
  have hA := alterAssetValues_signer d param sig (d.nonceAt s.draws)
  by_cases hv : (d.AlterAssetInfoValid param.AssetInfo).isNone = true
  · simp only [hv, if_true] at herr ⊢
    cases hm : d.marshalAssetInfo param.AssetInfo with
    | none => rw [hm] at herr; simp at herr
    | some info =>
      refine ⟨_, rfl, ?_, ?_, ?_⟩
      · rw [(alterAssetFileHash_other param _ "sign" (by decide)).2,
          Values.Get_Set_ne _ _ _ _ (by decide)]
        exact hA.1
      · rw [(alterAssetFileHash_other param _ "addr" (by decide)).2,
          Values.Get_Set_ne _ _ _ _ (by decide)]
        exact hA.2.1
      · rw [(alterAssetFileHash_other param _ "pkey" (by decide)).2,
          Values.Get_Set_ne _ _ _ _ (by decide)]
        exact hA.2.2
  · simp only [hv] at herr ⊢
    refine ⟨_, rfl, ?_, ?_, ?_⟩
    · rw [(alterAssetFileHash_other param _ "sign" (by decide)).2]; exact hA.1
    · rw [(alterAssetFileHash_other param _ "addr" (by decide)).2]; exact hA.2.1
    · rw [(alterAssetFileHash_other param _ "pkey" (by decide)).2]; exact hA.2.2

theorem genCreateAssetBody_signer (d : Deps) (appid : Int) (param : CreateAssetParam)
    (s : St) :
    SingleSigned d param.Account.PrivateKey
      (decimal (createAssetIdOf d appid param) ++ decimal (d.nonceAt s.draws)) s
      (genCreateAssetBody d appid param s) (carriesSigner param.Account) := by
  refine ⟨genCreateAssetBody_newSignCalls d appid param s, ?_⟩
  intro herr
  rw [genCreateAssetBody_fst] at herr ⊢
  cases hs : d.signECDSA param.Account.PrivateKey
    (decimal (createAssetIdOf d appid param) ++ decimal (d.nonceAt s.draws)) with
  | none => rw [hs] at herr; simp at herr
  | some sig =>
    cases hm : d.marshalAssetInfo param.AssetInfo with
    | none => rw [hs, hm] at herr; simp at herr
    | some info =>
      have hf := createAssetValues_signer d param (createAssetIdOf d appid param) sig
        (d.nonceAt s.draws) info
      exact ⟨sig, _, rfl, rfl, hf.1, hf.2⟩

theorem genGrantAssetBody_signer (d : Deps) (appid : Int) (param : GrantAssetParam)
    (s : St) :
    SingleSigned d param.Account.PrivateKey
      (decimal param.AssetId ++ decimal (d.nonceAt s.draws)) s
      (genGrantAssetBody d appid param s)
      (fun v => v.Get "pkey" = param.Account.PublicKey ∧ v.Get "addr" = param.Addr) := by
  refine ⟨genGrantAssetBody_newSignCalls d appid param s, ?_⟩
  intro herr
  rw [genGrantAssetBody_fst] at herr ⊢
  cases hs : d.signECDSA param.Account.PrivateKey
    (decimal param.AssetId ++ decimal (d.nonceAt s.draws)) with
  | none => rw [hs] at herr; simp at herr
  | some sig =>
    have hf := grantAssetValues_signer d param
      (if param.ShardId < 1 then d.nonceAt (s.draws + 1) else param.ShardId) sig
      (d.nonceAt s.draws)
    exact ⟨sig, _, rfl, rfl, hf.1, hf.2⟩

/-- C27 as stated fails: `genTransferAssetBody` and `genGrantAssetBody` sign with the
private key of `param.Account` and send its public key, but the `addr` field they send is
`param.Addr`; here the signer is `alice`, whose address is `addrA`, and the body carries
`addr=addrB`. -/
theorem transfer_and_grant_send_param_addr :
    (genTransferAssetBody (sampleDeps none none) ⟨5, 1, 0, "addrB", alice, "addrC", 0⟩
        St.init).1.body =
      "addr=addrB&asset_id=5&nonce=40&pkey=pkA&price=0&shard_id=1&sign=sig%28skA%2C540%29&to_addr=addrC" ∧
    (genTransferAssetBody (sampleDeps none none) ⟨5, 1, 0, "addrB", alice, "addrC", 0⟩
        St.init).1.body =
      (transferAssetValues (sampleDeps none none) ⟨5, 1, 0, "addrB", alice, "addrC", 0⟩
        "sig(skA,540)" 40).Encode ∧
    (transferAssetValues (sampleDeps none none) ⟨5, 1, 0, "addrB", alice, "addrC", 0⟩
        "sig(skA,540)" 40).Get "addr" = "addrB" ∧
    (genGrantAssetBody (sampleDeps none none) 7 ⟨5, 1, 0, "addrB", alice, "addrC", "", 0⟩
        St.init).1.body =
      (grantAssetValues (sampleDeps none none) ⟨5, 1, 0, "addrB", alice, "addrC", "", 0⟩ 1
        "sig(skA,540)" 40).Encode ∧
    (grantAssetValues (sampleDeps none none) ⟨5, 1, 0, "addrB", alice, "addrC", "", 0⟩ 1
        "sig(skA,540)" 40).Get "addr" = "addrB" ∧
    newSignCalls St.init
        (genTransferAssetBody (sampleDeps none none) ⟨5, 1, 0, "addrB", alice, "addrC", 0⟩
          St.init).2 = [("skA", "540", true)] ∧
    alice.PrivateKey = "skA" ∧ alice.Address = "addrA" := by
  decide

/-- C27 amended: in the bodies built for get stoken, create, alter, publish and freeze
asset, lock shard and freeze shard, the `addr` and `pkey` fields are the address and the
public key of the account whose private key signed. In the bodies built for grant and
transfer the `pkey` field is the public key of that account, and the `addr` field is
`param.Addr`, a separate input. -/
theorem signer_fields (d : Deps) (s : St) :
    (∀ param : GetStokenParam,
      SingleSigned d param.Account.PrivateKey (decimal (d.nonceAt s.draws)) s
        (genGetStokenBody d param s) (carriesSigner param.Account)) ∧
    (∀ (appid : Int) (param : CreateAssetParam),
      SingleSigned d param.Account.PrivateKey
        (decimal (createAssetIdOf d appid param) ++ decimal (d.nonceAt s.draws)) s
        (genCreateAssetBody d appid param s) (carriesSigner param.Account)) ∧
    (∀ param : AlterAssetParam,
      SingleSigned d param.Account.PrivateKey
        (decimal param.AssetId ++ decimal (d.nonceAt s.draws)) s (genAlterAssetBody d param s)
        (carriesSigner param.Account)) ∧
    (∀ param : PublishAssetParam,
      SingleSigned d param.Account.PrivateKey
        (decimal param.AssetId ++ decimal (d.nonceAt s.draws)) s (genPublishAssetBody d param s)
        (carriesSigner param.Account)) ∧
    (∀ param : FreezeAssetParam,
      SingleSigned d param.Account.PrivateKey
        (decimal param.AssetId ++ decimal (d.nonceAt s.draws)) s (genFreezeAssetBody d param s)
        (carriesSigner param.Account)) ∧
    (∀ param : LockOrFreezeShardParam,
      SingleSigned d param.Account.PrivateKey
        (decimal param.AssetId ++ decimal (d.nonceAt s.draws)) s (genLockShardBody d param s)
        (carriesSigner param.Account)) ∧
    (∀ param : LockOrFreezeShardParam,
      SingleSigned d param.Account.PrivateKey
        (decimal param.AssetId ++ decimal (d.nonceAt s.draws)) s (genFreezeShardBody d param s)
        (carriesSigner param.Account)) ∧
    (∀ (appid : Int) (param : GrantAssetParam),
      SingleSigned d param.Account.PrivateKey
        (decimal param.AssetId ++ decimal (d.nonceAt s.draws)) s
        (genGrantAssetBody d appid param s)
        (fun v => v.Get "pkey" = param.Account.PublicKey ∧ v.Get "addr" = param.Addr)) ∧
    (∀ param : TransferAssetParam,
      SingleSigned d param.Account.PrivateKey
        (decimal param.AssetId ++ decimal (d.nonceAt s.draws)) s (genTransferAssetBody d param s)
        (fun v => v.Get "pkey" = param.Account.PublicKey ∧ v.Get "addr" = param.Addr)) := by
  refine ⟨?_, ?_, ?_, ?_, ?_, ?_, ?_, ?_, ?_⟩
  · intro param
    rw [genGetStokenBody_eq]
    exact signThen_singleSigned d param.Account.PrivateKey (fun nonce => decimal nonce)
      (fun sig nonce => ⟨(getStokenValues param sig nonce).Encode, none⟩) s
      (carriesSigner param.Account)
      (fun sig _ => ⟨getStokenValues param sig (d.nonceAt s.draws), rfl,
        (getStokenValues_signer param sig (d.nonceAt s.draws)).1,
        (getStokenValues_signer param sig (d.nonceAt s.draws)).2⟩)
  · intro appid param; exact genCreateAssetBody_signer d appid param s
  · intro param; exact genAlterAssetBody_signer d param s
  · intro param
    rw [genPublishAssetBody_eq]
    exact signThen_singleSigned d param.Account.PrivateKey
      (fun nonce => decimal param.AssetId ++ decimal nonce)
      (fun sig nonce => ⟨(publishAssetValues param sig nonce).Encode, none⟩) s
      (carriesSigner param.Account)
      (fun sig _ => ⟨publishAssetValues param sig (d.nonceAt s.draws), rfl,
        (publishAssetValues_signer param sig (d.nonceAt s.draws)).1,
        (publishAssetValues_signer param sig (d.nonceAt s.draws)).2⟩)
  · intro param
    rw [genFreezeAssetBody_eq]
    exact signThen_singleSigned d param.Account.PrivateKey
      (fun nonce => decimal param.AssetId ++ decimal nonce)
      (fun sig nonce => ⟨(freezeAssetValues param sig nonce).Encode, none⟩) s
      (carriesSigner param.Account)
      (fun sig _ => ⟨freezeAssetValues param sig (d.nonceAt s.draws), rfl,
        (freezeAssetValues_signer param sig (d.nonceAt s.draws)).1,
        (freezeAssetValues_signer param sig (d.nonceAt s.draws)).2⟩)
  · intro param
    rw [genLockShardBody_eq]
    exact signThen_singleSigned d param.Account.PrivateKey
      (fun nonce => decimal param.AssetId ++ decimal nonce)
      (fun sig nonce => ⟨(lockShardValues param sig nonce).Encode, none⟩) s
      (carriesSigner param.Account)
      (fun sig _ => ⟨lockShardValues param sig (d.nonceAt s.draws), rfl,
        (lockShardValues_signer param sig (d.nonceAt s.draws)).1,
        (lockShardValues_signer param sig (d.nonceAt s.draws)).2⟩)
  · intro param
    rw [genFreezeShardBody_eq]
    exact signThen_singleSigned d param.Account.PrivateKey
      (fun nonce => decimal param.AssetId ++ decimal nonce)
      (fun sig nonce => ⟨(freezeShardValues param sig nonce).Encode, none⟩) s
      (carriesSigner param.Account)
      (fun sig _ => ⟨freezeShardValues param sig (d.nonceAt s.draws), rfl,
        (freezeShardValues_signer param sig (d.nonceAt s.draws)).1,
        (freezeShardValues_signer param sig (d.nonceAt s.draws)).2⟩)
  · intro appid param; exact genGrantAssetBody_signer d appid param s
  · intro param
    rw [genTransferAssetBody_eq]
    exact signThen_singleSigned d param.Account.PrivateKey
      (fun nonce => decimal param.AssetId ++ decimal nonce)
      (fun sig nonce => ⟨(transferAssetValues d param sig nonce).Encode, none⟩) s
      (fun v => v.Get "pkey" = param.Account.PublicKey ∧ v.Get "addr" = param.Addr)
      (fun sig _ => ⟨transferAssetValues d param sig (d.nonceAt s.draws), rfl,
        (transferAssetValues_signer d param sig (d.nonceAt s.draws)).1,
        (transferAssetValues_signer d param sig (d.nonceAt s.draws)).2⟩)

/-- Witness for the amended C27: freezing asset 5 as `alice` produces a body with her
address and public key. -/
theorem signer_fields_witness :
    (genFreezeAssetBody (sampleDeps none none) ⟨5, alice⟩ St.init).1.err = none ∧
      ∃ sig v,
        (sampleDeps none none).signECDSA alice.PrivateKey
            (decimal 5 ++ decimal ((sampleDeps none none).nonceAt St.init.draws)) = some sig ∧
          (genFreezeAssetBody (sampleDeps none none) ⟨5, alice⟩ St.init).1.body = v.Encode ∧
          v.Get "sign" = sig ∧ carriesSigner alice v :=
  ⟨by decide,
    ((signer_fields (sampleDeps none none) St.init).2.2.2.2.1 ⟨5, alice⟩).2 (by decide)⟩

/-! ## The signing message, validation and the empty consume list -/

/-- C28: the signing message is the decimal asset id immediately followed by the decimal
nonce, so two different pairs give the same message: publishing asset 1 with nonce 23
and publishing asset 12 with nonce 3 both sign `123`. -/
theorem signing_message_is_ambiguous :
    ((1 : Int), (23 : Int)) ≠ (12, 3) ∧
      decimal 1 ++ decimal 23 = "123" ∧ decimal 12 ++ decimal 3 = "123" ∧
      newSignCalls St.init (genPublishAssetBody (fixedNonceDeps 23) ⟨1, alice, 0⟩ St.init).2 =
        [("skA", "123", true)] ∧
      newSignCalls St.init (genPublishAssetBody (fixedNonceDeps 3) ⟨12, alice, 0⟩ St.init).2 =
        [("skA", "123", true)] ∧
      newSignCalls St.init (genCreateAssetBody (fixedNonceDeps 23) 7
          ⟨1, 0, 0, "info", alice, 0, "", 0, ""⟩ St.init).2 =
        newSignCalls St.init (genCreateAssetBody (fixedNonceDeps 3) 7
          ⟨12, 0, 0, "info", alice, 0, "", 0, ""⟩ St.init).2 := by
  decide

/-- C29: validation precedes every effect. When the validity check of an operation
fails, the operation returns a nil response, a nil `RequestRes` and the error of the
check, and the state is unchanged: no nonce was drawn, nothing was signed, obscured or
posted. -/
theorem validation_precedes_effects (o : OperDeps) (c : Call) (s : St) (e : Error)
    (h : validity o c = some e) :
    perform o c s = some (⟨false, none, some e⟩, s) := by
  cases c with
  | VilgBalance => simp [validity] at h
  | _ =>
    simp only [validity] at h
    simp [perform, summary, fedSummary, uploadSummary, GetStoken, UploadFile, CreateAsset,
      AlterAsset, PublishAsset, QueryAsset, ListAssetsByAddr, ListDiffByAddr, GrantAsset,
      TransferAsset, QueryShard, ListShardsByAddr, ListShardsByAsset, ListAssetHistory,
      GetEvidenceInfo, FreezeAsset, ConsumeShard, SelectBoxAst, GrantBox, SelectMaterial,
      UpgradeAst, UpgradeSds, ComposeShard, LockShard, FreezeShard, UnFreezeShard,
      SceneListShardByAddr, SceneQueryShard, SceneListDiffByAddr, SceneHasAssetByAddr,
      SceneListAddr, BdBoxRegister, BdBoxBind, BindByUnionId, GetAddrByUnionId, VilgText2Img,
      VilgGetImg, runOp, runQuery, fedOp, h]

/-- Witness for C29: `VilgGetImg` with task id 0 returns `ErrParamInvalid` and leaves the
state as it was. -/
theorem validation_precedes_effects_witness :
    validity (sampleOper sampleFedOk) (Call.VilgGetImg 0) = some Error.ErrParamInvalid ∧
      perform (sampleOper sampleFedOk) (Call.VilgGetImg 0) St.init =
        some (⟨false, none, some Error.ErrParamInvalid⟩, St.init) :=
  ⟨by decide,
    validation_precedes_effects (sampleOper sampleFedOk) (Call.VilgGetImg 0) St.init
      Error.ErrParamInvalid (by decide)⟩

/-- C30: for an empty consume list `genComposeShardBody` returns the empty body with
`ErrParamInvalid` and leaves the state unchanged, so no nonce was drawn and nothing was
signed; `ComposeShard` on a valid parameter then returns that error with a nil response
and a nil `RequestRes`, the state still unchanged, so nothing was posted. -/
theorem compose_rejects_empty_list (d : Deps) (param : ComposeParam) (s : St) :
    genComposeShardBody d [] param s = (⟨"", some Error.ErrParamInvalid⟩, s) ∧
      (d.validCompose param = none →
        ComposeShard d [] param s = (⟨none, none, some Error.ErrParamInvalid⟩, s)) := by
  have hg : genComposeShardBody d [] param s = (⟨"", some Error.ErrParamInvalid⟩, s) := by
    simp [genComposeShardBody]
  refine ⟨hg, ?_⟩
  intro hv
  simp [ComposeShard, runOp, hv, hg]

/-- Witness for C30: composing from an empty list with a valid parameter. -/
theorem compose_rejects_empty_list_witness :
    (sampleDeps none none).validCompose ⟨9, 1, alice, bob, "tok"⟩ = none ∧
      ComposeShard (sampleDeps none none) [] ⟨9, 1, alice, bob, "tok"⟩ St.init =
        (⟨none, none, some Error.ErrParamInvalid⟩, St.init) :=
  ⟨rfl, (compose_rejects_empty_list (sampleDeps none none) ⟨9, 1, alice, bob, "tok"⟩
    St.init).2 rfl⟩

end XAsset
